import Mathlib

/-!
# Form lifecycle manager of sas-erp: embedding and verified properties

Sources embedded:
* `src/common/static/common/js/universal_form.js` (namespace `UniversalForm`):
  the minimize-to-footer lifecycle with the `minimizedForms` registry;
* `src/common/static/common/js/form-validation.js` (namespace `FormValidation`):
  the attribute-only lifecycle (`data-state` toggling);
* `src/common/static/common/js/home.js` (namespace `Home`): the sidebar sections and
  their persisted list.

The document is a map from element ids to elements (`getElementById`); only the
attributes the lifecycle code reads or writes are kept on an element.  Deferred
callbacks (`setTimeout`, `requestAnimationFrame`) are explicit queues on the page
state; a callback that captured a node is represented by the id of that node
(the lifecycle code never removes or replaces a node).  `console.log` output is
not part of the state; `console.error` and `console.warn` messages are recorded.

Numbers are the doubles of the runtime: a finite double is kept as its whole number of
units `2^-1074`, and a difference is rounded to the nearest double, ties to the even
significand (`FormValidation.jsSub`).  The text the runtime gives a number inside a
template literal is not computed by the embedding: the value of a template literal is
kept as its pieces (`TemplatePart`).
-/

namespace SasErp

/-! ## Data model -/

/-- Two to the power `k`, written as a shift. -/
def pow2 (k : Nat) : Nat := 1 <<< k

/-- The number of units `2^-1074` in the number one. -/
def unitsPerOne : Nat := pow2 1074

/-- A JavaScript number, an IEEE-754 double.  Every finite double is a whole number of
units `2^-1074` (the smallest positive double), and `finite u` is the number
`u * 2^-1074`.  The sign of a zero is not kept: it shows neither in a difference nor in
the text of a number. -/
inductive JsNum where
  | finite (units : Int)
  | infinity (negative : Bool)
  | nan
deriving DecidableEq, Repr

/-- The number of the integer `n`. -/
def JsNum.ofInt (n : Int) : JsNum := .finite (n * unitsPerOne)

/-- A piece of the value of a template literal: text of the literal, or the text the
runtime gives the number of a `${...}` slot. -/
inductive TemplatePart where
  | text (s : String)
  | num (v : JsNum)
deriving DecidableEq, Repr

/-- One DOM element, reduced to what the lifecycle code touches. -/
structure Element where
  /-- Result of `getAttribute('data-state')`; `none` is JavaScript `null`. -/
  dataState : Option String := none
  /-- Whether `classList` contains `'active'`. -/
  active : Bool := false
  /-- The inline `style.display`. -/
  display : String := ""
  /-- The text of `querySelector('.form-title h3')`; `none` when there is no such node. -/
  titleText : Option String := none
  /-- The text of `querySelector('.form-icon')`; `none` when there is no such node. -/
  iconText : Option String := none
  /-- The id of `querySelector('.group-tab')`; `none` when the form has no tab. -/
  firstTabId : Option String := none
  /-- The `className` given at creation (footer nodes). -/
  className : String := ""
  /-- The `innerHTML` assigned by the footer refresh (footer container). -/
  innerHTML : String := ""
  /-- Values of the `input, textarea, select` descendants (form-validation.js). -/
  inputValues : List String := []
  /-- Whether the element matches `.form-group-content-area`. -/
  isGroupContentArea : Bool := false
  /-- Whether the element matches `.group-tab`. -/
  isGroupTab : Bool := false
  /-- Whether `querySelector('.form-header')` finds a node in the element. -/
  hasHeader : Bool := false
  /-- The inline `style.transform`, as the pieces of the template literal that wrote it;
  `[]` is the empty text. -/
  transform : List TemplatePart := []
  /-- Whether `classList` contains `'expanded'` (home.js). -/
  expanded : Bool := false
deriving DecidableEq, Repr

/-- The document: `getElementById`. -/
abbrev Document := String → Option Element

/-- An entry of the `minimizedForms` array: `{id, title, icon}`. -/
structure MinimizedForm where
  id : String
  title : String
  icon : String
deriving DecidableEq, Repr

/-- An element of a parsed JSON array: a string, or any other JSON value (number, boolean,
`null`, array, object), kept by its JSON text. -/
inductive JsonItem where
  | str (s : String)
  | other (text : String)
deriving DecidableEq, Repr

/-- What `JSON.parse` returns for a valid JSON text: an array, a string, or another value
(number, boolean, `null`, object), kept by its JSON text. -/
inductive Parsed where
  | array (items : List JsonItem)
  | string (s : String)
  | other (text : String)
deriving DecidableEq, Repr

/-- The text under a `localStorage` key, kept by what `JSON.parse` makes of it: no entry
(`getItem` returns `null`), a text that is not valid JSON (the empty text included), or the
JSON text of a value.  `JSON.stringify` of a value stores the JSON text of that value. -/
inductive Stored where
  | missing
  | invalid (text : String)
  | json (v : Parsed)
deriving DecidableEq, Repr

/-- The deferred callbacks the lifecycle code schedules. -/
inductive Callback where
  /-- From `minimizeForm`: `form.style.display = 'none'`. -/
  | hideForm (formId : String)
  /-- From `minimizeForm` and `closeFormOverlay`: `overlay.style.display = 'none'`. -/
  | hideOverlay (overlayId : String)
  /-- From `closeFormOverlay`: `form.style.display = 'none'` and `data-state := 'closed'`. -/
  | closeHide (formId : String)
  /-- From `closeFormOverlay`: call `window.customCloseFormOverlay(formId)` when it is a function. -/
  | customClose (formId : String)
  /-- From `openForm` (animation frame): add the `active` class to overlay (when captured) and form. -/
  | activate (formId : String) (overlayId : Option String)
  /-- From `openForm`: select the group of the form's first tab. -/
  | selectFirstTab (formId : String)
deriving DecidableEq, Repr

/-- A pending `setTimeout` callback with its absolute due time in ms. -/
structure Timer where
  due : Nat
  cb : Callback
deriving DecidableEq, Repr

/-- The page state: document, module state of universal_form.js, and pending callbacks. -/
structure Page where
  doc : Document
  /-- The module variable `minimizedForms`. -/
  minimizedForms : List MinimizedForm := []
  /-- The inline `document.body.style.overflow`. -/
  bodyOverflow : String := ""
  /-- Pending `setTimeout` callbacks, in firing order. -/
  timers : List Timer := []
  /-- Pending `requestAnimationFrame` callbacks, in firing order. -/
  frames : List Callback := []
  /-- Current time in ms. -/
  now : Nat := 0
  /-- Messages passed to `console.error`. -/
  errors : List String := []
  /-- Messages passed to `console.warn`. -/
  warnings : List String := []
  /-- Whether `typeof window.customCloseFormOverlay === 'function'`. -/
  hookDefined : Bool := false
  /-- The arguments of the calls made to `window.customCloseFormOverlay`. -/
  hookCalls : List String := []
  /-- The module variable `currentActiveGroup`. -/
  currentActiveGroup : Option String := none
  /-- The `activeGroup` key of `localStorage`. -/
  storedActiveGroup : Option String := none
  /-- The messages of the `confirm` dialogs shown (form-validation.js). -/
  confirms : List String := []
  /-- The `expandedSections` key of `localStorage` (home.js). -/
  storedExpandedSections : Stored := .missing
  /-- The exceptions that left an event handler uncaught (home.js). -/
  uncaught : List String := []

/-! ## DOM helpers -/

/-- Apply `f` to the element with id `id`, when there is one. -/
def modifyElement (d : Document) (id : String) (f : Element → Element) : Document :=
  fun k => if k = id then (d id).map f else d k

/-- Apply `f` to every element: the `forEach` over a `querySelectorAll` result, with the
selector test inside `f`. -/
def mapElements (d : Document) (f : Element → Element) : Document :=
  fun k => (d k).map f

/-- Same, on the page. -/
def Page.modify (s : Page) (id : String) (f : Element → Element) : Page :=
  { s with doc := modifyElement s.doc id f }

/-- The `a || b` of JavaScript on an optional string: `null`, `undefined` and `''` are falsy. -/
def orDefault (v : Option String) (dflt : String) : String :=
  match v with
  | some t => if t = "" then dflt else t
  | none => dflt

/-- Insert a timer behind every pending timer that is due no later (timers fire by due
time, and in creation order among equal due times). -/
def insertTimer (t : Timer) : List Timer → List Timer
  | [] => [t]
  | u :: rest => if u.due ≤ t.due then u :: insertTimer t rest else t :: u :: rest

/-- The effect of `setTimeout(cb, delay)`. -/
def Page.setTimeout (s : Page) (cb : Callback) (delay : Nat) : Page :=
  { s with timers := insertTimer ⟨s.now + delay, cb⟩ s.timers }

/-- The effect of `requestAnimationFrame(cb)`. -/
def Page.requestAnimationFrame (s : Page) (cb : Callback) : Page :=
  { s with frames := s.frames ++ [cb] }

/-- Concatenation of the pieces, the `join('')` of JavaScript. -/
def joinEmpty : List String → String
  | [] => ""
  | p :: rest => p ++ joinEmpty rest

/-- Removal of the first occurrence of `pat`, on characters. -/
def removeFirstChars (pat : List Char) : List Char → List Char
  | [] => []
  | c :: cs =>
    if pat.isPrefixOf (c :: cs) then (c :: cs).drop pat.length
    else c :: removeFirstChars pat cs

/-- The `str.replace(pat, '')` of JavaScript with a string pattern: only the first
occurrence is removed. -/
def removeFirst (str pat : String) : String :=
  ⟨removeFirstChars pat.data str.data⟩

/-! ## universal_form.js -/

namespace UniversalForm

/-- The function `initializeMinimizedFooter`: create the footer node, with the container
node inside it, unless a node with the footer id is already in the document.  A
container that is already in the document stays the one `getElementById` finds (the new
footer is appended at the end of `body`). -/
def initializeMinimizedFooter (s : Page) : Page :=
  match s.doc "minimizedFormsFooter" with
  | some _ => s
  | none =>
    { s with doc := fun k =>
        if k = "minimizedFormsFooter" then
          some { className := "minimized-forms-footer",
                 innerHTML := "<div id=\"minimizedFormsContainer\" class=\"minimized-forms-container\"></div>" }
        else if k = "minimizedFormsContainer" then
          match s.doc k with
          | some e => some e
          | none => some { className := "minimized-forms-container" }
        else s.doc k }

/-- The row template of `updateMinimizedFormsFooter` for one registry entry. -/
def renderItem (form : MinimizedForm) : String :=
  "\n            <div class=\"minimized-form-item\">\n                <span class=\"minimized-form-icon\">"
    ++ form.icon
    ++ "</span>\n                <span class=\"minimized-form-title\">"
    ++ form.title
    ++ "</span>\n                <div class=\"minimized-form-actions\">\n                    <button class=\"minimized-form-btn expand\" \n                            onclick=\"restoreForm('"
    ++ form.id
    ++ "')\" \n                            title=\"Restore\">\n                        ⬆️\n                    </button>\n                    <button class=\"minimized-form-btn close\" \n                            onclick=\"closeFormFromFooter('"
    ++ form.id
    ++ "')\" \n                            title=\"Close\">\n                        ✕\n                    </button>\n                </div>\n            </div>\n        "

/-- The function `updateMinimizedFormsFooter`. -/
def updateMinimizedFormsFooter (s : Page) : Page :=
  match s.doc "minimizedFormsContainer" with
  | none =>
    initializeMinimizedFooter
      { s with warnings := s.warnings ++ ["⚠️ Minimized forms container not found, initializing..."] }
  | some _ =>
    if s.minimizedForms.length = 0 then
      (s.modify "minimizedFormsContainer" fun e => { e with innerHTML := "" }).modify
        "minimizedFormsFooter" fun e => { e with display := "none" }
    else
      (s.modify "minimizedFormsFooter" fun e => { e with display := "block" }).modify
        "minimizedFormsContainer" fun e =>
          { e with innerHTML := joinEmpty (s.minimizedForms.map renderItem) }

/-- The function `window.selectGroup`. -/
def selectGroup (groupId : String) (s : Page) : Page :=
  let d1 := mapElements s.doc fun e =>
    if e.isGroupContentArea then { e with display := "none" } else e
  let d2 := modifyElement d1 "ungrouped-fields" fun e => { e with display := "block" }
  let d3 := mapElements d2 fun e =>
    if e.isGroupTab then { e with active := false } else e
  let d4 := modifyElement d3 ("group-content-" ++ groupId) fun e => { e with display := "block" }
  let d5 := modifyElement d4 ("tab-" ++ groupId) fun e => { e with active := true }
  { s with doc := d5, currentActiveGroup := some groupId, storedActiveGroup := some groupId }

/-- The function `window.minimizeForm`. -/
def minimizeForm (formId : String) (s : Page) : Page :=
  let overlayId := "modal-overlay-" ++ formId
  match s.doc formId with
  | none => { s with errors := s.errors ++ ["❌ Form not found: " ++ formId] }
  | some form =>
    let formTitle := orDefault form.titleText "Form"
    let formIcon := orDefault form.iconText "📝"
    let s1 :=
      match s.minimizedForms.findIdx? (fun f => f.id == formId) with
      | none => { s with minimizedForms := s.minimizedForms ++
          [({ id := formId, title := formTitle, icon := formIcon } : MinimizedForm)] }
      | some _ => s
    let s2 := (s1.modify formId fun e => { e with active := false }).setTimeout (.hideForm formId) 300
    let s3 :=
      match s.doc overlayId with
      | some _ =>
        (s2.modify overlayId fun e => { e with active := false }).setTimeout (.hideOverlay overlayId) 300
      | none => s2
    let s4 := updateMinimizedFormsFooter s3
    { s4 with bodyOverflow := "" }

/-- The function `window.maximizeForm`. -/
def maximizeForm (formId : String) (s : Page) : Page :=
  match s.doc formId with
  | some form =>
    let newState := if form.dataState = some "maximized" then "normal" else "maximized"
    s.modify formId fun e => { e with dataState := some newState }
  | none => s

/-- The function `window.closeFormOverlay`. -/
def closeFormOverlay (formId : String) (s : Page) : Page :=
  let overlayId := "modal-overlay-" ++ formId
  let s1 := updateMinimizedFormsFooter
    { s with minimizedForms := s.minimizedForms.filter fun f => f.id != formId }
  let s2 :=
    match s.doc formId with
    | some _ =>
      (s1.modify formId fun e => { e with active := false }).setTimeout (.closeHide formId) 300
    | none => s1
  let s3 :=
    match s.doc overlayId with
    | some _ =>
      (s2.modify overlayId fun e => { e with active := false }).setTimeout (.hideOverlay overlayId) 300
    | none => s2
  let s4 := { s3 with bodyOverflow := "" }
  s4.setTimeout (.customClose formId) 350

/-- The function `window.closeForm`. -/
def closeForm (formId : String) (s : Page) : Page :=
  closeFormOverlay formId s

/-- The function `window.openForm`. -/
def openForm (formId : String) (s : Page) : Page :=
  let overlayId := "modal-overlay-" ++ formId
  match s.doc formId with
  | none => { s with errors := s.errors ++ ["❌ Form element not found: " ++ formId] }
  | some _ =>
    let overlay := s.doc overlayId
    let s0 :=
      if overlay.isNone then
        { s with errors := s.errors ++ ["❌ Overlay element not found: " ++ overlayId] }
      else s
    let s1 := updateMinimizedFormsFooter
      { s0 with minimizedForms := s0.minimizedForms.filter fun f => f.id != formId }
    let s2 := { s1 with bodyOverflow := "hidden" }
    let s3 := s2.modify formId fun e => { e with dataState := some "normal" }
    let s4 := if overlay.isSome then s3.modify overlayId fun e => { e with display := "block" } else s3
    let s5 := s4.modify formId fun e => { e with display := "flex" }
    let s6 := s5.requestAnimationFrame (.activate formId (if overlay.isSome then some overlayId else none))
    s6.setTimeout (.selectFirstTab formId) 100

/-- The function `window.restoreForm`. -/
def restoreForm (formId : String) (s : Page) : Page :=
  openForm formId s

/-- The function `window.closeFormFromFooter`. -/
def closeFormFromFooter (formId : String) (s : Page) : Page :=
  closeFormOverlay formId s

/-- The body of a deferred callback, run when its timer or animation frame fires. -/
def runCallback : Callback → Page → Page
  | .hideForm formId, s => s.modify formId fun e => { e with display := "none" }
  | .hideOverlay overlayId, s => s.modify overlayId fun e => { e with display := "none" }
  | .closeHide formId, s =>
    (s.modify formId fun e => { e with display := "none" }).modify formId fun e =>
      { e with dataState := some "closed" }
  | .customClose formId, s =>
    if s.hookDefined then { s with hookCalls := s.hookCalls ++ [formId] } else s
  | .activate formId overlayId, s =>
    let s1 :=
      match overlayId with
      | some o => s.modify o fun e => { e with active := true }
      | none => s
    s1.modify formId fun e => { e with active := true }
  | .selectFirstTab formId, s =>
    match s.doc formId with
    | some form =>
      match form.firstTabId with
      | some tabId => selectGroup (removeFirst tabId "tab-") s
      | none => s
    | none => s

/-- The browser lets `ms` milliseconds pass: every timer due by then fires, in queue order. -/
def advance (ms : Nat) (s : Page) : Page :=
  let t := s.now + ms
  let due := s.timers.filter fun x => decide (x.due ≤ t)
  let rest := s.timers.filter fun x => !decide (x.due ≤ t)
  due.foldl (fun acc x => runCallback x.cb acc) { s with timers := rest, now := t }

/-- The browser renders a frame: the pending animation-frame callbacks run, in order. -/
def frame (s : Page) : Page :=
  s.frames.foldl (fun acc cb => runCallback cb acc) { s with frames := [] }

/-- A call of one of the exposed lifecycle operations. -/
inductive Call where
  | openForm (formId : String)
  | minimizeForm (formId : String)
  | maximizeForm (formId : String)
  | closeForm (formId : String)
  | closeFormOverlay (formId : String)
  | restoreForm (formId : String)
  | closeFormFromFooter (formId : String)
deriving DecidableEq, Repr

/-- Run one lifecycle call. -/
def Call.run : Call → Page → Page
  | .openForm i => UniversalForm.openForm i
  | .minimizeForm i => UniversalForm.minimizeForm i
  | .maximizeForm i => UniversalForm.maximizeForm i
  | .closeForm i => UniversalForm.closeForm i
  | .closeFormOverlay i => UniversalForm.closeFormOverlay i
  | .restoreForm i => UniversalForm.restoreForm i
  | .closeFormFromFooter i => UniversalForm.closeFormFromFooter i

/-- What can happen on the page: a lifecycle call, time passing, a rendered frame. -/
inductive Event where
  | call (c : Call)
  | advance (ms : Nat)
  | frame
deriving DecidableEq, Repr

/-- The page after one event. -/
def step (s : Page) : Event → Page
  | .call c => c.run s
  | .advance ms => advance ms s
  | .frame => frame s

/-- The page after a sequence of events. -/
def runEvents (s : Page) (es : List Event) : Page :=
  es.foldl step s

end UniversalForm

/-! ## form-validation.js -/

namespace FormValidation

/-- The characters `String.prototype.trim` strips: WhiteSpace and LineTerminator of ECMAScript. -/
def isTrimChar (c : Char) : Bool :=
  let n := c.toNat
  n == 0x09 || n == 0x0A || n == 0x0B || n == 0x0C || n == 0x0D || n == 0x20 || n == 0xA0 ||
  n == 0x1680 || (0x2000 ≤ n && n ≤ 0x200A) || n == 0x2028 || n == 0x2029 || n == 0x202F ||
  n == 0x205F || n == 0x3000 || n == 0xFEFF

/-- The method `String.prototype.trim`: the string without its leading and trailing
white space and line terminators. -/
def jsTrim (v : String) : String :=
  ⟨((v.data.dropWhile isTrimChar).reverse.dropWhile isTrimChar).reverse⟩

/-- The test `input.value && input.value.trim() !== ''` (the empty string is falsy). -/
def hasValue (v : String) : Bool :=
  v != "" && jsTrim v != ""

/-- The function `minimizeForm` of form-validation.js. -/
def minimizeForm (formId : String) (s : Page) : Page :=
  let overlayId := formId ++ "-overlay"
  match s.doc formId with
  | some form =>
    if form.dataState = some "minimized" then
      (s.modify formId fun e => { e with dataState := some "normal" }).modify overlayId fun e =>
        { e with active := true }
    else
      (s.modify formId fun e => { e with dataState := some "minimized" }).modify overlayId fun e =>
        { e with active := false }
  | none => s

/-- The function `maximizeForm` of form-validation.js. -/
def maximizeForm (formId : String) (s : Page) : Page :=
  match s.doc formId with
  | some form =>
    if form.dataState = some "maximized" then
      s.modify formId fun e => { e with dataState := some "normal" }
    else
      s.modify formId fun e => { e with dataState := some "maximized" }
  | none => s

/-- The function `closeForm` of form-validation.js; `answer` is what the user replies when
the `confirm` dialog is shown. -/
def closeForm (formId : String) (answer : Bool) (s : Page) : Page :=
  let overlayId := formId ++ "-overlay"
  let hasData :=
    match s.doc (formId ++ "-form") with
    | some formElement => formElement.inputValues.any hasValue
    | none => false
  let finish (p : Page) : Page :=
    (p.modify formId fun e => { e with dataState := some "hidden" }).modify overlayId fun e =>
      { e with active := false }
  if hasData then
    let s1 := { s with confirms := s.confirms ++ ["Form has unsaved data. Are you sure you want to close?"] }
    if !answer then s1 else finish s1
  else finish s

/-- The function `openForm` of form-validation.js. -/
def openForm (formId : String) (s : Page) : Page :=
  let overlayId := formId ++ "-overlay"
  (s.modify formId fun e => { e with dataState := some "normal" }).modify overlayId fun e =>
    { e with active := true }

/-- A mouse event as far as the drag handlers read it. -/
structure MouseEvent where
  clientX : JsNum
  clientY : JsNum
  /-- The test `e.target === header || header.contains(e.target)`. -/
  targetInHeader : Bool := true
deriving DecidableEq, Repr

/-- The variables of the closure of `makeFormDraggable`.  The variables declared without a
value are `undefined` (`none`) until they are assigned. -/
structure DragClosure where
  isDragging : Bool := false
  currentX : Option JsNum := none
  currentY : Option JsNum := none
  initialX : Option JsNum := none
  initialY : Option JsNum := none
  xOffset : JsNum := .ofInt 0
  yOffset : JsNum := .ofInt 0
deriving DecidableEq, Repr

/-- The number of bits of `a` above the 53 bits of a significand, for `a` below `2^2100`:
the greatest `sh` with `2^(52 + sh) ≤ a`, found bit by bit from the top. -/
def excessBits (a : Nat) : Nat :=
  [1024, 512, 256, 128, 64, 32, 16, 8, 4, 2, 1].foldl
    (fun sh k => if pow2 (52 + sh + k) ≤ a then sh + k else sh) 0

/-- The double nearest to `u` units: the bits below the 53 bits of the significand are
rounded off, a tie goes to the even significand, and a magnitude that reaches `2^1024`
(`2^2098` units) is infinite. -/
def roundDouble (u : Int) : JsNum :=
  let a := u.natAbs
  if pow2 2098 ≤ a then .infinity (decide (u < 0))
  else
    let sh := excessBits a
    let q := a / pow2 sh
    let r := a % pow2 sh
    let q1 := if pow2 sh < 2 * r ∨ (2 * r = pow2 sh ∧ q % 2 = 1) then q + 1 else q
    let v := q1 * pow2 sh
    if pow2 2098 ≤ v then .infinity (decide (u < 0))
    else .finite (if u < 0 then -(v : Int) else v)

/-- The difference `a - b` of two numbers. -/
def jsSub : JsNum → JsNum → JsNum
  | .finite a, .finite b => roundDouble (a - b)
  | .finite _, .infinity negative => .infinity (!negative)
  | .infinity negative, .finite _ => .infinity negative
  | .infinity n1, .infinity n2 => if n1 = n2 then .nan else .infinity n1
  | _, _ => .nan

/-- The number of a variable used in a difference: `undefined` gives `NaN`. -/
def toNumber : Option JsNum → JsNum
  | some v => v
  | none => .nan

/-- The value written to `form.style.transform` by `drag`: the template literal
`translate(calc(-50% + ${currentX}px), calc(-50% + ${currentY}px))`. -/
def translateOf (x y : JsNum) : List TemplatePart :=
  [.text "translate(calc(-50% + ", .num x, .text "px), calc(-50% + ", .num y, .text "px))"]

/-- The function `makeFormDraggable` up to the registration of the listeners: an error when
the form is missing (`form.querySelector` on `null`), no closure when the form has no
header, and otherwise the closure in its initial state. -/
def makeFormDraggable (formId : String) (s : Page) : Except String (Option DragClosure) :=
  match s.doc formId with
  | none => .error "TypeError: form is null"
  | some form => if form.hasHeader then .ok (some {}) else .ok none

/-- The handler `dragStart` (mousedown on the header). -/
def dragStart (formId : String) (e : MouseEvent) (s : Page) (c : DragClosure) : DragClosure :=
  let state := (s.doc formId).bind fun el => el.dataState
  if state = some "maximized" ∨ state = some "minimized" then c
  else
    let c1 := { c with initialX := some (jsSub e.clientX c.xOffset),
                       initialY := some (jsSub e.clientY c.yOffset) }
    if e.targetInHeader then { c1 with isDragging := true } else c1

/-- The handler `drag` (mousemove on the document). -/
def drag (formId : String) (e : MouseEvent) (s : Page) (c : DragClosure) : Page × DragClosure :=
  if c.isDragging then
    let currentX := jsSub e.clientX (toNumber c.initialX)
    let currentY := jsSub e.clientY (toNumber c.initialY)
    (s.modify formId fun el => { el with transform := translateOf currentX currentY },
     { c with currentX := some currentX, currentY := some currentY,
              xOffset := currentX, yOffset := currentY })
  else (s, c)

/-- The handler `dragEnd` (mouseup on the document). -/
def dragEnd (c : DragClosure) : DragClosure :=
  { c with initialX := c.currentX, initialY := c.currentY, isDragging := false }

/-- The pointer events the drag handlers listen to. -/
inductive PointerEvent where
  /-- A mousedown that reaches the listener on the header. -/
  | down (e : MouseEvent)
  /-- A mousemove on the document. -/
  | move (e : MouseEvent)
  /-- A mouseup on the document. -/
  | up
deriving DecidableEq, Repr

/-- The page and the closure of the form `formId` after one pointer event. -/
def pointerStep (formId : String) (pc : Page × DragClosure) : PointerEvent → Page × DragClosure
  | .down e => (pc.1, dragStart formId e pc.1 pc.2)
  | .move e => drag formId e pc.1 pc.2
  | .up => (pc.1, dragEnd pc.2)

/-- The page and the closure after a sequence of pointer events. -/
def runPointer (formId : String) (pc : Page × DragClosure) (es : List PointerEvent) :
    Page × DragClosure :=
  es.foldl (pointerStep formId) pc

/-- One completed drag: the pointer goes down, moves any number of times, makes its last
move and goes up; the released pointer then moves any number of times. -/
structure Gesture where
  down : MouseEvent
  moves : List MouseEvent := []
  last : MouseEvent
  hover : List MouseEvent := []
deriving DecidableEq, Repr

/-- The pointer events of a completed drag. -/
def Gesture.events (g : Gesture) : List PointerEvent :=
  .down g.down :: (g.moves.map .move ++ [.move g.last, .up] ++ g.hover.map .move)

/-- The pointer events of a sequence of completed drags. -/
def gestureEvents : List Gesture → List PointerEvent
  | [] => []
  | g :: gs => g.events ++ gestureEvents gs

end FormValidation

/-! ## home.js -/

namespace Home

/-- Whether `str.indexOf(pat) > -1`: `pat` occurs in `str`. -/
def occursIn (pat str : String) : Bool :=
  str.data.tails.any fun t => pat.data.isPrefixOf t

/-- The function `getExpandedSections`: the parsed stored text; `[]` when there is no entry
or the text is empty (`... || '[]'`) and when `JSON.parse` throws (`catch`). -/
def getExpandedSections (s : Page) : Parsed :=
  match s.storedExpandedSections with
  | .missing => .array []
  | .invalid _ => .array []
  | .json v => v

/-- The function `toggleSection`.  The identifier is a string, so `indexOf` on an array
finds it only among the string items; on a value that is not an array the method calls
throw and the handler ends without storing. -/
def toggleSection (sectionId : String) (s : Page) : Page :=
  match s.doc ("section-" ++ sectionId) with
  | none => s
  | some sectionEl =>
    let nowExpanded := !sectionEl.expanded
    let s1 := s.modify ("section-" ++ sectionId) fun e => { e with expanded := nowExpanded }
    match getExpandedSections s1 with
    | .array items =>
      let index := items.findIdx? fun x => x == .str sectionId
      let items1 :=
        if nowExpanded then
          match index with
          | none => items ++ [.str sectionId]
          | some _ => items
        else
          match index with
          | some i => items.eraseIdx i
          | none => items
      { s1 with storedExpandedSections := .json (.array items1) }
    | .string str =>
      if nowExpanded then
        if occursIn sectionId str then { s1 with storedExpandedSections := .json (.string str) }
        else { s1 with uncaught :=
                s1.uncaught ++ ["TypeError: expandedSections.push is not a function"] }
      else
        if occursIn sectionId str then
          { s1 with uncaught :=
              s1.uncaught ++ ["TypeError: expandedSections.splice is not a function"] }
        else { s1 with storedExpandedSections := .json (.string str) }
    | .other _ =>
      { s1 with uncaught :=
          s1.uncaught ++ ["TypeError: expandedSections.indexOf is not a function"] }

end Home

/-! ## Specification vocabulary -/

/-- The identifiers in the registry, in registry order. -/
def Page.registryIds (s : Page) : List String :=
  s.minimizedForms.map fun f => f.id

/-- Whether the page has an element with this id. -/
def Page.hasElement (s : Page) (id : String) : Bool :=
  (s.doc id).isSome

/-- The `data-state` attribute of the element `id`; `none` when the element or the
attribute is missing. -/
def Page.dataStateOf (s : Page) (id : String) : Option String :=
  (s.doc id).bind fun e => e.dataState

/-- The inline `style.display` of the element `id`. -/
def Page.displayOf (s : Page) (id : String) : Option String :=
  (s.doc id).map fun e => e.display

/-- The condition of the specification for the confirmation on close: at least one input,
textarea or select of the form element `{id}-form` has a value that is not empty after
trimming. -/
def Page.hasUnsavedData (s : Page) (formId : String) : Bool :=
  match s.doc (formId ++ "-form") with
  | some formElement => formElement.inputValues.any fun v => FormValidation.jsTrim v != ""
  | none => false

/-- Whether the drag handlers let a drag of the form start: the `data-state` is neither
`maximized` nor `minimized`. -/
def Page.dragAllowed (s : Page) (formId : String) : Prop :=
  ¬ (s.dataStateOf formId = some "maximized" ∨ s.dataStateOf formId = some "minimized")

instance (s : Page) (formId : String) : Decidable (s.dragAllowed formId) := by
  unfold Page.dragAllowed
  infer_instance

/-- The list `getExpandedSections` returns: the stored array, empty when nothing usable is
stored. -/
def Page.expandedList (s : Page) : List JsonItem :=
  match Home.getExpandedSections s with
  | .array items => items
  | .string _ => []
  | .other _ => []

/-- Whether the section element of `sectionId` has the class `expanded`. -/
def Page.sectionExpanded (s : Page) (sectionId : String) : Bool :=
  match s.doc ("section-" ++ sectionId) with
  | some sectionEl => sectionEl.expanded
  | none => false

/-- The inline `style.transform` of the element `id`. -/
def Page.transformOf (s : Page) (id : String) : Option (List TemplatePart) :=
  (s.doc id).map fun e => e.transform

/-- Whether a number of units is a double: rounding keeps it. -/
def JsNum.isDouble : JsNum → Bool
  | .finite u => FormValidation.roundDouble u == .finite u
  | _ => true

/-- The text of a number inside a template literal, where it is the same in every
runtime and needs no digit generation: `NaN`, the infinities, and the integers up to
`2^53` in magnitude, which are written in decimal.  Other numbers have no text here. -/
def numberText : JsNum → Option String
  | .nan => some "NaN"
  | .infinity negative => some (if negative then "-Infinity" else "Infinity")
  | .finite u =>
    if u % (unitsPerOne : Int) = 0 ∧ (u / (unitsPerOne : Int)).natAbs ≤ pow2 53 then
      some (toString (u / (unitsPerOne : Int)))
    else none

/-- The text of the value of a template literal, when each of its numbers has a text. -/
def templateText : List TemplatePart → Option String
  | [] => some ""
  | .text t :: rest => (templateText rest).map fun r => t ++ r
  | .num v :: rest =>
    match numberText v, templateText rest with
    | some t, some r => some (t ++ r)
    | _, _ => none

/-- The text of the inline `style.transform` of the element `id`. -/
def Page.transformText (s : Page) (id : String) : Option String :=
  (s.transformOf id).bind templateText

/-- The mouse event on the header at the whole pixel `(x, y)`. -/
def pixelEvent (x y : Int) : FormValidation.MouseEvent :=
  { clientX := .ofInt x, clientY := .ofInt y }

/-- A completed drag in whole pixels: pointer-down on the header at `(a, b)`, any moves,
the last move at `(c, d)`, pointer-up, and any moves of the released pointer. -/
structure PixelDrag where
  a : Int
  b : Int
  c : Int
  d : Int
  moves : List FormValidation.MouseEvent := []
  hover : List FormValidation.MouseEvent := []
deriving DecidableEq, Repr

/-- The events of a drag in whole pixels. -/
def PixelDrag.gesture (p : PixelDrag) : FormValidation.Gesture :=
  { down := pixelEvent p.a p.b, moves := p.moves, last := pixelEvent p.c p.d,
    hover := p.hover }

/-- The horizontal displacement of a drag: last move minus pointer-down. -/
def PixelDrag.dx (p : PixelDrag) : Int := p.c - p.a

/-- The vertical displacement of a drag. -/
def PixelDrag.dy (p : PixelDrag) : Int := p.d - p.b

/-- The horizontal offset `x0` plus the displacements of the drags `ps`. -/
def offsetXAfter (x0 : Int) (ps : List PixelDrag) : Int :=
  x0 + (ps.map PixelDrag.dx).sum

/-- The vertical offset `y0` plus the displacements of the drags `ps`. -/
def offsetYAfter (y0 : Int) (ps : List PixelDrag) : Int :=
  y0 + (ps.map PixelDrag.dy).sum

/-- Two pages agree on what the specification calls the state: the document (data-state,
display and classes of every element, the footer included), the registry and the body
overflow.  Pending callbacks and logged diagnostics are left out. -/
def Page.sameView (a b : Page) : Prop :=
  a.doc = b.doc ∧ a.minimizedForms = b.minimizedForms ∧ a.bodyOverflow = b.bodyOverflow

namespace UniversalForm

/-- The document after a footer refresh that finds the container: what
`updateMinimizedFormsFooter` writes for the registry `r`. -/
def refreshedDoc (r : List MinimizedForm) (d : Document) : Document :=
  if r.length = 0 then
    modifyElement (modifyElement d "minimizedFormsContainer" fun e => { e with innerHTML := "" })
      "minimizedFormsFooter" fun e => { e with display := "none" }
  else
    modifyElement (modifyElement d "minimizedFormsFooter" fun e => { e with display := "block" })
      "minimizedFormsContainer" fun e =>
        { e with innerHTML := joinEmpty (r.map renderItem) }

/-- The source text of an inline handler that calls the global function `fn` with the
identifier `id` as a quoted argument. -/
def handlerCall (fn id : String) : String :=
  fn ++ "('" ++ id ++ "')"

/-- The markup of one action button of a footer row: its kind (class), its `onclick`
handler, its tooltip and its glyph. -/
def actionButton (kind handler title glyph : String) : String :=
  "<button class=\"minimized-form-btn " ++ kind ++ "\" \n                            onclick=\""
    ++ handler ++ "\" \n                            title=\"" ++ title
    ++ "\">\n                        " ++ glyph ++ "\n                    </button>"

/-- The footer row the specification describes for a registry entry: the icon and the
title of the entry, a restore action calling `restoreForm` and a close action calling
`closeFormFromFooter`, both with the identifier of the entry. -/
def footerRow (form : MinimizedForm) : String :=
  "\n            <div class=\"minimized-form-item\">\n                <span class=\"minimized-form-icon\">"
    ++ form.icon
    ++ "</span>\n                <span class=\"minimized-form-title\">"
    ++ form.title
    ++ "</span>\n                <div class=\"minimized-form-actions\">\n                    "
    ++ actionButton "expand" (handlerCall "restoreForm" form.id) "Restore" "⬆️"
    ++ "\n                    "
    ++ actionButton "close" (handlerCall "closeFormFromFooter" form.id) "Close" "✕"
    ++ "\n                </div>\n            </div>\n        "

/-! ### How the browser reads the footer markup

The footer rows reach the page as markup assigned to `innerHTML`.  The definitions below
read that markup back the way the HTML parser and the handler compiler do, for markup of
the shape of a footer row: character data ends at `<` and is altered by `&`; a
double-quoted attribute value ends at `"` and is altered by `&`; and an `onclick` text
calls a function with an identifier when it is that call with a single-quoted literal
free of quote, backslash and line terminator. -/

/-- Characters that do not stand for themselves in character data: `<` starts a tag, `&`
a character reference, a carriage return is read as a line feed and a null character is
dropped. -/
def isTextSpecial (c : Char) : Bool :=
  c == '<' || c == '&' || c == '\r' || c.toNat == 0

/-- Characters that do not stand for themselves in a double-quoted attribute value: `"`
ends the value, `&` starts a character reference, a carriage return is read as a line feed
and a null character is replaced. -/
def isAttrSpecial (c : Char) : Bool :=
  c == '"' || c == '&' || c == '\r' || c.toNat == 0

/-- Characters that do not stand for themselves in a single-quoted string literal of
JavaScript: the quote ends it, the backslash starts an escape, and a line terminator is
not allowed. -/
def isLiteralSpecial (c : Char) : Bool :=
  c == '\'' || c == '\\' || c == '\n' || c == '\r' || c.toNat == 0x2028 || c.toNat == 0x2029

/-- The rest of `cs` behind the fixed text `lit`; `none` when `cs` does not start with it. -/
def dropLiteral (lit : List Char) (cs : List Char) : Option (List Char) :=
  if lit.isPrefixOf cs then some (cs.drop lit.length) else none

/-- The argument with which the handler text calls the global function `fn`, when the text
is exactly the call `fn('...')` with a literal that has no special character; `none` when
it is not such a call (a syntax error or another program). -/
def callArgument (fn : String) (handler : List Char) : Option String :=
  match dropLiteral (fn.data ++ ['(', '\'']) handler with
  | none => none
  | some rest =>
    if rest.dropWhile (fun c => !isLiteralSpecial c) = ['\'', ')'] then
      some ⟨rest.takeWhile fun c => !isLiteralSpecial c⟩
    else none

/-- What a footer row is on the page: the text of its icon and of its title, and the
identifier its restore button passes to `restoreForm` and its close button to
`closeFormFromFooter` (`none` when the handler is not that call). -/
structure RenderedRow where
  icon : String
  title : String
  restoreArg : Option String
  closeArg : Option String
deriving DecidableEq, Repr

/-- The fixed markup of a footer row before the icon text. -/
def rowHead : String :=
  "\n            <div class=\"minimized-form-item\">\n                <span class=\"minimized-form-icon\">"

/-- The fixed markup between the icon text and the title text. -/
def rowIconToTitle : String :=
  "</span>\n                <span class=\"minimized-form-title\">"

/-- The fixed markup between the title text and the `onclick` value of the restore button. -/
def rowTitleToRestore : String :=
  "</span>\n                <div class=\"minimized-form-actions\">\n                    <button class=\"minimized-form-btn expand\" \n                            onclick=\""

/-- The fixed markup between the `onclick` values of the restore and the close button. -/
def rowRestoreToClose : String :=
  "\" \n                            title=\"Restore\">\n                        ⬆️\n                    </button>\n                    <button class=\"minimized-form-btn close\" \n                            onclick=\""

/-- The fixed markup behind the `onclick` value of the close button. -/
def rowTail : String :=
  "\" \n                            title=\"Close\">\n                        ✕\n                    </button>\n                </div>\n            </div>\n        "

/-- Read one footer row from the front of the markup, with the markup that follows it;
`none` when the markup does not start with a row of this shape. -/
def readRow (cs : List Char) : Option (RenderedRow × List Char) :=
  match dropLiteral rowHead.data cs with
  | none => none
  | some r1 =>
    match dropLiteral rowIconToTitle.data (r1.dropWhile fun c => !isTextSpecial c) with
    | none => none
    | some r2 =>
      match dropLiteral rowTitleToRestore.data (r2.dropWhile fun c => !isTextSpecial c) with
      | none => none
      | some r3 =>
        match dropLiteral rowRestoreToClose.data (r3.dropWhile fun c => !isAttrSpecial c) with
        | none => none
        | some r4 =>
          match dropLiteral rowTail.data (r4.dropWhile fun c => !isAttrSpecial c) with
          | none => none
          | some r5 =>
            some
              ({ icon := ⟨r1.takeWhile fun c => !isTextSpecial c⟩,
                 title := ⟨r2.takeWhile fun c => !isTextSpecial c⟩,
                 restoreArg := callArgument "restoreForm" (r3.takeWhile fun c => !isAttrSpecial c),
                 closeArg :=
                   callArgument "closeFormFromFooter" (r4.takeWhile fun c => !isAttrSpecial c) },
               r5)

/-- Read rows until the markup is used up; the fuel bounds the number of rows. -/
def readRowsAux : Nat → List Char → Option (List RenderedRow)
  | _, [] => some []
  | 0, _ :: _ => none
  | fuel + 1, c :: cs =>
    match readRow (c :: cs) with
    | none => none
    | some (row, rest) => (readRowsAux fuel rest).map fun rows => row :: rows

/-- The footer rows the markup of the container makes; `none` when the markup is not a
sequence of rows of this shape.  A row has at least one character, so the length of the
markup is fuel enough. -/
def readRows (markup : String) : Option (List RenderedRow) :=
  readRowsAux markup.length markup.data

/-- The row the specification describes for a registry entry: it shows the icon and the
title of the entry, and both actions are bound to the identifier of the entry. -/
def expectedRow (form : MinimizedForm) : RenderedRow :=
  { icon := form.icon, title := form.title,
    restoreArg := some form.id, closeArg := some form.id }

/-- Whether the values of an entry stand for themselves in the markup: icon and title have
no `<`, `&`, carriage return or null character, and the identifier has no `"`, `&`, quote,
backslash, line terminator or null character. -/
def plainEntry (form : MinimizedForm) : Bool :=
  form.icon.data.all (fun c => !isTextSpecial c) &&
  form.title.data.all (fun c => !isTextSpecial c) &&
  form.id.data.all (fun c => !isAttrSpecial c && !isLiteralSpecial c)

/-- The identifier a lifecycle call is made with. -/
def Call.formId : Call → String
  | .openForm i => i
  | .minimizeForm i => i
  | .maximizeForm i => i
  | .closeForm i => i
  | .closeFormOverlay i => i
  | .restoreForm i => i
  | .closeFormFromFooter i => i

/-- The last call made with identifier `x`, if there is one. -/
def lastCallFor (x : String) (cs : List Call) : Option Call :=
  (cs.filter fun c => c.formId == x).getLast?

/-- The condition of the specification: the last lifecycle call for `x` is `minimizeForm x`
(so that no open, restore or close call for `x` comes after it). -/
def lastCallIsMinimize (x : String) (cs : List Call) : Bool :=
  lastCallFor x cs == some (.minimizeForm x)

/-- What a call made on an existing form `x` does to the registry entry of `x`:
`some true` creates it, `some false` removes it, `none` leaves it as it is. -/
def Call.registryEffect (x : String) : Call → Option Bool
  | .minimizeForm i => if i = x then some true else none
  | .openForm i => if i = x then some false else none
  | .restoreForm i => if i = x then some false else none
  | .closeForm i => if i = x then some false else none
  | .closeFormOverlay i => if i = x then some false else none
  | .closeFormFromFooter i => if i = x then some false else none
  | .maximizeForm _ => none

/-- One step of the bookkeeping of `minimizedLast`. -/
def trackMinimized (x : String) (b : Bool) : Event → Bool
  | .call c => (c.registryEffect x).getD b
  | .advance _ => b
  | .frame => b

/-- Whether the most recent call for `x` other than `maximizeForm` is `minimizeForm x`. -/
def minimizedLast (x : String) (es : List Event) : Bool :=
  es.foldl (trackMinimized x) false

end UniversalForm

/-! ## Sample pages -/

/-- A page with the forms `f1` and `f2`, their backdrops, and the footer with its
container; nothing is minimized. -/
def samplePage : Page :=
  { doc := fun k =>
      if k = "f1" then
        some { dataState := some "normal", titleText := some "Customer", iconText := some "👤" }
      else if k = "modal-overlay-f1" then some {}
      else if k = "f2" then some { dataState := some "normal" }
      else if k = "modal-overlay-f2" then some {}
      else if k = "minimizedFormsFooter" then some { className := "minimized-forms-footer" }
      else if k = "minimizedFormsContainer" then some { className := "minimized-forms-container" }
      else none }

/-- A page with the form `f1` and its backdrop only: the footer nodes are not in the
document yet. -/
def pageWithoutFooter : Page :=
  { doc := fun k =>
      if k = "f1" then some { dataState := some "normal", titleText := some "Customer" }
      else if k = "modal-overlay-f1" then some {}
      else none }

/-- The sample page with the form `f1` in `data-state="minimized"`. -/
def minimizedStatePage : Page :=
  { doc := fun k =>
      if k = "f1" then some { dataState := some "minimized" }
      else if k = "modal-overlay-f1" then some {}
      else if k = "minimizedFormsFooter" then some { className := "minimized-forms-footer" }
      else if k = "minimizedFormsContainer" then some { className := "minimized-forms-container" }
      else none }

/-- A page on which the form `f1` has no backdrop node: `f1` is minimized (registry entry,
hidden) and scrolling is free. -/
def pageWithoutOverlay : Page :=
  { doc := fun k =>
      if k = "f1" then some { dataState := some "maximized", display := "none" }
      else if k = "minimizedFormsFooter" then
        some { className := "minimized-forms-footer", display := "block" }
      else if k = "minimizedFormsContainer" then some { className := "minimized-forms-container" }
      else none,
    minimizedForms := [{ id := "f1", title := "Form", icon := "📝" }] }

/-- The sample page with a `customCloseFormOverlay` hook supplied by the surrounding page. -/
def hookPage : Page :=
  { samplePage with hookDefined := true }

/-- The page with the hook, scrolling blocked, and a registry entry whose identifier has no
form element. -/
def staleEntryPage : Page :=
  { samplePage with
    hookDefined := true,
    bodyOverflow := "hidden",
    minimizedForms := [{ id := "ghost", title := "Form", icon := "📝" }] }

/-- A page with a form whose identifier has an apostrophe, and the footer nodes. -/
def apostrophePage : Page :=
  { doc := fun k =>
      if k = "o'brien" then some { dataState := some "normal", titleText := some "O'Brien" }
      else if k = "minimizedFormsFooter" then some { className := "minimized-forms-footer" }
      else if k = "minimizedFormsContainer" then some { className := "minimized-forms-container" }
      else none }

/-- A page with draggable forms in the different states: `normal`, `maximized`,
`minimized`, `hidden`, `closed`, and one without `data-state` attribute. -/
def dragPage : Page :=
  { doc := fun k =>
      if k = "normalForm" then some { dataState := some "normal", hasHeader := true }
      else if k = "maximizedForm" then some { dataState := some "maximized", hasHeader := true }
      else if k = "minimizedForm" then some { dataState := some "minimized", hasHeader := true }
      else if k = "hiddenForm" then some { dataState := some "hidden", hasHeader := true }
      else if k = "closedForm" then some { dataState := some "closed", hasHeader := true }
      else if k = "freshForm" then some { hasHeader := true }
      else none }

/-- A page for form-validation.js: the form `f1` in state `normal` with its backdrop
active, and its form element `f1-form` with one blank and one filled field. -/
def unsavedPage : Page :=
  { doc := fun k =>
      if k = "f1" then some { dataState := some "normal" }
      else if k = "f1-overlay" then some { active := true }
      else if k = "f1-form" then some { inputValues := ["   ", "Acme Ltd"] }
      else none }

/-- A page with the sidebar sections `sales` (collapsed) and `stock` (expanded), the list
`["stock", "reports"]` stored. -/
def homePage : Page :=
  { doc := fun k =>
      if k = "section-sales" then some {}
      else if k = "section-stock" then some { expanded := true }
      else none,
    storedExpandedSections := .json (.array [.str "stock", .str "reports"]) }

end SasErp

/-! ## Lemmas on the embedding -/

namespace SasErp

open UniversalForm

section Basic

theorem modifyElement_isSome (d : Document) (id k : String) (f : Element → Element) :
    (modifyElement d id f k).isSome = (d k).isSome := by
  unfold modifyElement
  by_cases h : k = id
  · subst h; simp
  · simp [h]

theorem modifyElement_same (d : Document) (id : String) (f : Element → Element) :
    modifyElement d id f id = (d id).map f := by
  simp [modifyElement]

theorem modifyElement_other (d : Document) (id k : String) (f : Element → Element)
    (h : k ≠ id) : modifyElement d id f k = d k := by
  simp [modifyElement, h]

theorem overlayId_ne (formId : String) : "modal-overlay-" ++ formId ≠ formId := by
  intro h
  have := congrArg String.length h
  simp [String.length_append] at this
  exact absurd this (by decide)

theorem update_minimizedForms (s : Page) :
    (updateMinimizedFormsFooter s).minimizedForms = s.minimizedForms := by
  unfold updateMinimizedFormsFooter initializeMinimizedFooter
  split
  · split <;> rfl
  · split <;> rfl

theorem update_bodyOverflow (s : Page) :
    (updateMinimizedFormsFooter s).bodyOverflow = s.bodyOverflow := by
  unfold updateMinimizedFormsFooter initializeMinimizedFooter
  split
  · split <;> rfl
  · split <;> rfl

theorem update_timers (s : Page) :
    (updateMinimizedFormsFooter s).timers = s.timers := by
  unfold updateMinimizedFormsFooter initializeMinimizedFooter
  split
  · split <;> rfl
  · split <;> rfl

theorem update_hasElement (s : Page) (k : String) (h : (s.doc k).isSome) :
    ((updateMinimizedFormsFooter s).doc k).isSome := by
  unfold updateMinimizedFormsFooter initializeMinimizedFooter
  split
  · split
    · exact h
    · simp only
      by_cases h1 : k = "minimizedFormsFooter"
      · simp [h1]
      · by_cases h2 : k = "minimizedFormsContainer"
        · subst h2; simp_all
        · simp [h1, h2, h]
  · split <;> simp [Page.modify, modifyElement_isSome, h]

theorem foldl_invariant {α β : Type} (f : β → α → β) (P : β → Prop)
    (hf : ∀ b a, P b → P (f b a)) (l : List α) (b : β) (h : P b) : P (l.foldl f b) := by
  induction l generalizing b with
  | nil => exact h
  | cons a l ih => exact ih (f b a) (hf b a h)

theorem selectGroup_minimizedForms (g : String) (s : Page) :
    (selectGroup g s).minimizedForms = s.minimizedForms := rfl

theorem selectGroup_isSome (g : String) (s : Page) (k : String) :
    ((selectGroup g s).doc k).isSome = (s.doc k).isSome := by
  simp [selectGroup, modifyElement_isSome, mapElements]

theorem runCallback_minimizedForms (cb : Callback) (s : Page) :
    (runCallback cb s).minimizedForms = s.minimizedForms := by
  cases cb with
  | hideForm i => rfl
  | hideOverlay i => rfl
  | closeHide i => rfl
  | customClose i => simp only [runCallback]; split <;> rfl
  | activate i o => cases o <;> rfl
  | selectFirstTab i =>
    simp only [runCallback]
    split
    · split
      · exact selectGroup_minimizedForms _ _
      · rfl
    · rfl

theorem runCallback_isSome (cb : Callback) (s : Page) (k : String) :
    ((runCallback cb s).doc k).isSome = (s.doc k).isSome := by
  cases cb with
  | hideForm i => simp [runCallback, Page.modify, modifyElement_isSome]
  | hideOverlay i => simp [runCallback, Page.modify, modifyElement_isSome]
  | closeHide i => simp [runCallback, Page.modify, modifyElement_isSome]
  | customClose i => simp only [runCallback]; split <;> rfl
  | activate i o => cases o <;> simp [runCallback, Page.modify, modifyElement_isSome]
  | selectFirstTab i =>
    simp only [runCallback]
    split
    · split
      · exact selectGroup_isSome _ _ _
      · rfl
    · rfl

theorem advance_minimizedForms (ms : Nat) (s : Page) :
    (advance ms s).minimizedForms = s.minimizedForms := by
  unfold advance
  exact foldl_invariant _ (fun (p : Page) => p.minimizedForms = s.minimizedForms)
    (fun b a hb => by simp only [runCallback_minimizedForms]; exact hb) _ _ rfl

theorem frame_minimizedForms (s : Page) :
    (frame s).minimizedForms = s.minimizedForms := by
  unfold frame
  exact foldl_invariant _ (fun (p : Page) => p.minimizedForms = s.minimizedForms)
    (fun b a hb => by simp only [runCallback_minimizedForms]; exact hb) _ _ rfl

theorem advance_isSome (ms : Nat) (s : Page) (k : String) :
    ((advance ms s).doc k).isSome = (s.doc k).isSome := by
  unfold advance
  exact foldl_invariant _ (fun (p : Page) => (p.doc k).isSome = (s.doc k).isSome)
    (fun b a hb => by simp only [runCallback_isSome]; exact hb) _ _ rfl

theorem frame_isSome (s : Page) (k : String) :
    ((frame s).doc k).isSome = (s.doc k).isSome := by
  unfold frame
  exact foldl_invariant _ (fun (p : Page) => (p.doc k).isSome = (s.doc k).isSome)
    (fun b a hb => by simp only [runCallback_isSome]; exact hb) _ _ rfl

theorem minimizeForm_minimizedForms (formId : String) (s : Page) :
    (minimizeForm formId s).minimizedForms =
      match s.doc formId with
      | none => s.minimizedForms
      | some form =>
        if formId ∈ s.registryIds then s.minimizedForms
        else s.minimizedForms ++
          [{ id := formId, title := orDefault form.titleText "Form",
             icon := orDefault form.iconText "📝" }] := by
  unfold minimizeForm
  cases hd : s.doc formId with
  | none => rfl
  | some form =>
    simp only [update_minimizedForms]
    cases hf : s.minimizedForms.findIdx? (fun f => f.id == formId) with
    | none =>
      have hnot : formId ∉ s.registryIds := by
        intro hm
        rw [List.findIdx?_eq_none_iff] at hf
        simp only [Page.registryIds, List.mem_map] at hm
        obtain ⟨f, hfm, rfl⟩ := hm
        have := hf f hfm
        simp at this
      simp only [hnot, if_false]
      cases h2 : s.doc ("modal-overlay-" ++ formId) <;> rfl
    | some i =>
      have hin : formId ∈ s.registryIds := by
        have h2 := List.findIdx?_of_eq_some hf
        simp only [Page.registryIds, List.mem_map]
        cases hg : s.minimizedForms[i]? with
        | none => simp [hg] at h2
        | some f =>
          simp [hg] at h2
          exact ⟨f, List.getElem?_mem hg, h2⟩
      simp only [hin, if_true]
      cases h2 : s.doc ("modal-overlay-" ++ formId) <;> rfl

theorem closeFormOverlay_minimizedForms (formId : String) (s : Page) :
    (closeFormOverlay formId s).minimizedForms =
      s.minimizedForms.filter fun f => f.id != formId := by
  cases h1 : s.doc formId <;> cases h2 : s.doc ("modal-overlay-" ++ formId) <;>
    simp [closeFormOverlay, h1, h2, Page.setTimeout, Page.modify, update_minimizedForms]

theorem openForm_minimizedForms (formId : String) (s : Page) :
    (openForm formId s).minimizedForms =
      if s.hasElement formId then s.minimizedForms.filter fun f => f.id != formId
      else s.minimizedForms := by
  cases h1 : s.doc formId <;> cases h2 : s.doc ("modal-overlay-" ++ formId) <;>
    simp [openForm, Page.hasElement, h1, h2, Page.setTimeout, Page.modify,
      Page.requestAnimationFrame, update_minimizedForms]

theorem maximizeForm_minimizedForms (formId : String) (s : Page) :
    (maximizeForm formId s).minimizedForms = s.minimizedForms := by
  unfold maximizeForm
  cases s.doc formId <;> rfl

theorem minimizeForm_hasElement (formId : String) (s : Page) (k : String)
    (h : (s.doc k).isSome) : ((minimizeForm formId s).doc k).isSome := by
  cases h1 : s.doc formId with
  | none => simpa [minimizeForm, h1] using h
  | some form =>
    simp only [minimizeForm, h1]
    apply update_hasElement
    cases h2 : s.doc ("modal-overlay-" ++ formId) <;>
      cases h3 : s.minimizedForms.findIdx? (fun f => f.id == formId) <;>
      simp [Page.modify, Page.setTimeout, modifyElement_isSome, h]

theorem closeFormOverlay_hasElement (formId : String) (s : Page) (k : String)
    (h : (s.doc k).isSome) : ((closeFormOverlay formId s).doc k).isSome := by
  have hu := update_hasElement
    { s with minimizedForms := s.minimizedForms.filter fun f => f.id != formId } k h
  cases h1 : s.doc formId <;> cases h2 : s.doc ("modal-overlay-" ++ formId) <;>
    simp [closeFormOverlay, h1, h2, Page.modify, Page.setTimeout, modifyElement_isSome, hu]

theorem openForm_hasElement (formId : String) (s : Page) (k : String)
    (h : (s.doc k).isSome) : ((openForm formId s).doc k).isSome := by
  cases h1 : s.doc formId with
  | none => simpa [openForm, h1] using h
  | some form =>
    cases h2 : s.doc ("modal-overlay-" ++ formId) with
    | none =>
      have hu := update_hasElement
        { s with
          errors := s.errors ++ ["❌ Overlay element not found: " ++ ("modal-overlay-" ++ formId)],
          minimizedForms := s.minimizedForms.filter fun f => f.id != formId } k h
      simp [openForm, h1, h2, Page.modify, Page.setTimeout, Page.requestAnimationFrame,
        modifyElement_isSome, hu]
    | some ov =>
      have hu := update_hasElement
        { s with minimizedForms := s.minimizedForms.filter fun f => f.id != formId } k h
      simp [openForm, h1, h2, Page.modify, Page.setTimeout, Page.requestAnimationFrame,
        modifyElement_isSome, hu]

theorem maximizeForm_hasElement (formId : String) (s : Page) (k : String)
    (h : (s.doc k).isSome) : ((maximizeForm formId s).doc k).isSome := by
  cases h1 : s.doc formId <;>
    simp [maximizeForm, h1, Page.modify, modifyElement_isSome, h]

theorem step_hasElement (s : Page) (e : Event) (k : String)
    (h : (s.doc k).isSome) : ((step s e).doc k).isSome := by
  cases e with
  | call c =>
    cases c with
    | openForm i => exact openForm_hasElement i s k h
    | minimizeForm i => exact minimizeForm_hasElement i s k h
    | maximizeForm i => exact maximizeForm_hasElement i s k h
    | closeForm i => exact closeFormOverlay_hasElement i s k h
    | closeFormOverlay i => exact closeFormOverlay_hasElement i s k h
    | restoreForm i => exact openForm_hasElement i s k h
    | closeFormFromFooter i => exact closeFormOverlay_hasElement i s k h
  | advance ms => simpa [step, advance_isSome] using h
  | frame => simpa [step, frame_isSome] using h

theorem step_minimizedForms (s : Page) (e : Event) :
    (step s e).minimizedForms =
      match e with
      | .call (.minimizeForm i) => (minimizeForm i s).minimizedForms
      | .call (.openForm i) | .call (.restoreForm i) =>
        if s.hasElement i then s.minimizedForms.filter fun f => f.id != i else s.minimizedForms
      | .call (.closeForm i) | .call (.closeFormOverlay i) | .call (.closeFormFromFooter i) =>
        s.minimizedForms.filter fun f => f.id != i
      | _ => s.minimizedForms := by
  cases e with
  | call c =>
    cases c with
    | openForm i => exact openForm_minimizedForms i s
    | minimizeForm i => rfl
    | maximizeForm i => exact maximizeForm_minimizedForms i s
    | closeForm i => exact closeFormOverlay_minimizedForms i s
    | closeFormOverlay i => exact closeFormOverlay_minimizedForms i s
    | restoreForm i => exact openForm_minimizedForms i s
    | closeFormFromFooter i => exact closeFormOverlay_minimizedForms i s
  | advance ms => exact advance_minimizedForms ms s
  | frame => exact frame_minimizedForms s

theorem mem_registryIds_filter (r : List MinimizedForm) (i x : String) :
    x ∈ (r.filter fun f => f.id != i).map (fun f => f.id) ↔
      x ≠ i ∧ x ∈ r.map (fun f => f.id) := by
  simp only [List.mem_map, List.mem_filter]
  constructor
  · rintro ⟨f, ⟨hf, hne⟩, rfl⟩
    exact ⟨by simpa using hne, f, hf, rfl⟩
  · rintro ⟨hne, f, hf, rfl⟩
    exact ⟨f, ⟨hf, by simpa using hne⟩, rfl⟩

theorem step_registry_nodup (s : Page) (e : Event) (h : s.registryIds.Nodup) :
    (step s e).registryIds.Nodup := by
  have hfilter : ∀ i : String,
      ((s.minimizedForms.filter fun f => f.id != i).map fun f => f.id).Nodup := by
    intro i
    have hsub : ((s.minimizedForms.filter fun f => f.id != i).map fun f => f.id).Sublist
        (s.minimizedForms.map fun f => f.id) :=
      List.Sublist.map _ (List.filter_sublist _)
    exact hsub.nodup h
  unfold Page.registryIds
  rw [step_minimizedForms]
  cases e with
  | call c =>
    cases c with
    | openForm i =>
      simp only
      split
      · exact hfilter i
      · exact h
    | restoreForm i =>
      simp only
      split
      · exact hfilter i
      · exact h
    | minimizeForm i =>
      simp only [minimizeForm_minimizedForms]
      cases s.doc i with
      | none => exact h
      | some form =>
        simp only
        split
        · exact h
        · rename_i hn
          rw [List.map_append, List.nodup_append]
          refine ⟨h, by simp, ?_⟩
          intro a ha hb
          simp at hb
          subst hb
          exact hn ha
    | maximizeForm i => exact h
    | closeForm i => exact hfilter i
    | closeFormOverlay i => exact hfilter i
    | closeFormFromFooter i => exact hfilter i
  | advance ms => exact h
  | frame => exact h

theorem runEvents_registry_nodup (es : List Event) (s : Page) (h : s.registryIds.Nodup) :
    (runEvents s es).registryIds.Nodup := by
  induction es generalizing s with
  | nil => exact h
  | cons e es ih => exact ih (step s e) (step_registry_nodup s e h)

theorem step_trackMinimized (s : Page) (e : Event) (x : String) (b : Bool)
    (hx : (s.doc x).isSome) (hb : x ∈ s.registryIds ↔ b = true) :
    x ∈ (step s e).registryIds ↔ trackMinimized x b e = true := by
  unfold Page.registryIds at hb ⊢
  rw [step_minimizedForms]
  have hopen : ∀ i : String, (s.doc i).isSome →
      (x ∈ (s.minimizedForms.filter fun f => f.id != i).map (fun f => f.id) ↔
        (if i = x then some false else none).getD b = true) := by
    intro i _
    rw [mem_registryIds_filter]
    by_cases hi : i = x
    · subst hi; simp
    · have hxi : x ≠ i := fun h => hi h.symm
      simp [hi, hxi, hb]
  have hclose : ∀ i : String,
      (x ∈ (s.minimizedForms.filter fun f => f.id != i).map (fun f => f.id) ↔
        (if i = x then some false else none).getD b = true) := by
    intro i
    rw [mem_registryIds_filter]
    by_cases hi : i = x
    · subst hi; simp
    · have hxi : x ≠ i := fun h => hi h.symm
      simp [hi, hxi, hb]
  have hskip : ∀ i : String, ¬ (s.doc i).isSome →
      (x ∈ s.minimizedForms.map (fun f => f.id) ↔
        (if i = x then some false else none).getD b = true) := by
    intro i hno
    have hi : i ≠ x := by
      intro h; subst h; exact hno hx
    simp [hi, hb]
  cases e with
  | call c =>
    cases c with
    | openForm i =>
      simp only [trackMinimized, Call.registryEffect, Page.hasElement]
      split
      · rename_i h; exact hopen i h
      · rename_i h; exact hskip i h
    | restoreForm i =>
      simp only [trackMinimized, Call.registryEffect, Page.hasElement]
      split
      · rename_i h; exact hopen i h
      · rename_i h; exact hskip i h
    | minimizeForm i =>
      simp only [trackMinimized, Call.registryEffect, minimizeForm_minimizedForms]
      by_cases hi : i = x
      · subst hi
        cases hd : s.doc i with
        | none => simp [hd] at hx
        | some form =>
          simp only [Page.registryIds]
          split <;> simp_all
      · have hxi : x ≠ i := fun h => hi h.symm
        cases hd : s.doc i with
        | none => simp [hi, hb]
        | some form =>
          simp only [Page.registryIds]
          split <;> simp [hi, hxi, hb]
    | maximizeForm i => simpa [trackMinimized, Call.registryEffect] using hb
    | closeForm i => simpa [trackMinimized, Call.registryEffect] using hclose i
    | closeFormOverlay i => simpa [trackMinimized, Call.registryEffect] using hclose i
    | closeFormFromFooter i => simpa [trackMinimized, Call.registryEffect] using hclose i
  | advance ms => simpa [trackMinimized] using hb
  | frame => simpa [trackMinimized] using hb

theorem runEvents_trackMinimized (es : List Event) (s : Page) (x : String) (b : Bool)
    (hx : (s.doc x).isSome) (hb : x ∈ s.registryIds ↔ b = true) :
    x ∈ (runEvents s es).registryIds ↔ es.foldl (trackMinimized x) b = true := by
  induction es generalizing s b with
  | nil => exact hb
  | cons e es ih =>
    exact ih (step s e) (trackMinimized x b e) (step_hasElement s e x hx)
      (step_trackMinimized s e x b hx hb)

theorem modifyElement_dataState (d : Document) (id k : String) (f : Element → Element)
    (hf : ∀ e, (f e).dataState = e.dataState) :
    ((modifyElement d id f k).bind fun e => e.dataState) = (d k).bind fun e => e.dataState := by
  unfold modifyElement
  by_cases h : k = id
  · subst h
    cases d k <;> simp [hf]
  · simp [h]

theorem update_dataStateOf (s : Page) (k : String) :
    (updateMinimizedFormsFooter s).dataStateOf k = s.dataStateOf k := by
  cases hc : s.doc "minimizedFormsContainer" with
  | none =>
    cases hf : s.doc "minimizedFormsFooter" with
    | none =>
      by_cases h1 : k = "minimizedFormsFooter"
      · subst h1
        simp [updateMinimizedFormsFooter, initializeMinimizedFooter, Page.dataStateOf, hc, hf]
      · by_cases h2 : k = "minimizedFormsContainer"
        · subst h2
          simp [updateMinimizedFormsFooter, initializeMinimizedFooter, Page.dataStateOf, hc, hf]
        · simp [updateMinimizedFormsFooter, initializeMinimizedFooter, Page.dataStateOf, hc, hf,
            h1, h2]
    | some f =>
      simp [updateMinimizedFormsFooter, initializeMinimizedFooter, Page.dataStateOf, hc, hf]
  | some c =>
    simp only [updateMinimizedFormsFooter, hc, Page.dataStateOf]
    split <;> simp [Page.modify, modifyElement_dataState]

theorem minimizeForm_dataStateOf (formId : String) (s : Page) (k : String) :
    (minimizeForm formId s).dataStateOf k = s.dataStateOf k := by
  cases h1 : s.doc formId with
  | none => simp [minimizeForm, h1, Page.dataStateOf]
  | some form =>
    simp only [minimizeForm, h1]
    show (updateMinimizedFormsFooter _).dataStateOf k = _
    rw [update_dataStateOf]
    cases h2 : s.doc ("modal-overlay-" ++ formId) <;>
      cases h3 : s.minimizedForms.findIdx? (fun f => f.id == formId) <;>
      simp [Page.dataStateOf, Page.modify, Page.setTimeout, modifyElement_dataState]

theorem minimizeForm_mem_registryIds (formId : String) (s : Page)
    (h : s.hasElement formId = true) : formId ∈ (minimizeForm formId s).registryIds := by
  unfold Page.registryIds
  rw [minimizeForm_minimizedForms]
  cases hd : s.doc formId with
  | none => simp [Page.hasElement, hd] at h
  | some form =>
    simp only [Page.registryIds]
    split <;> simp_all

theorem suffixOverlayId_ne (formId : String) : formId ++ "-overlay" ≠ formId := by
  intro h
  have := congrArg String.length h
  simp [String.length_append] at this
  exact absurd this (by decide)

theorem mem_insertTimer (t : Timer) (l : List Timer) : t ∈ insertTimer t l := by
  induction l with
  | nil => simp [insertTimer]
  | cons u rest ih =>
    unfold insertTimer
    split
    · exact List.mem_cons_of_mem _ ih
    · exact List.mem_cons_self _ _

theorem mem_insertTimer_of_mem (t u : Timer) (l : List Timer) (h : u ∈ l) :
    u ∈ insertTimer t l := by
  induction l with
  | nil => cases h
  | cons v rest ih =>
    unfold insertTimer
    split
    · rcases List.mem_cons.mp h with rfl | h'
      · exact List.mem_cons_self _ _
      · exact List.mem_cons_of_mem _ (ih h')
    · exact List.mem_cons_of_mem _ h

theorem mapElements_dataState (d : Document) (k : String) (f : Element → Element)
    (hf : ∀ e, (f e).dataState = e.dataState) :
    ((mapElements d f k).bind fun e => e.dataState) = (d k).bind fun e => e.dataState := by
  unfold mapElements
  cases d k <;> simp [hf]

theorem selectGroup_dataStateOf (g : String) (s : Page) (k : String) :
    (selectGroup g s).dataStateOf k = s.dataStateOf k := by
  simp only [selectGroup, Page.dataStateOf]
  refine (modifyElement_dataState _ _ _ _ ?_).trans ?_
  · intro e; rfl
  refine (modifyElement_dataState _ _ _ _ ?_).trans ?_
  · intro e; rfl
  refine (mapElements_dataState _ _ _ ?_).trans ?_
  · intro e; split <;> rfl
  refine (modifyElement_dataState _ _ _ _ ?_).trans ?_
  · intro e; rfl
  refine mapElements_dataState _ _ _ ?_
  intro e; split <;> rfl

theorem foldl_reaches {α β : Type} (f : β → α → β) (I Q : β → Prop) (a : α)
    (hI : ∀ b x, I b → I (f b x)) (hQ : ∀ b x, Q b → Q (f b x)) (ha : ∀ b, I b → Q (f b a))
    (l : List α) (hm : a ∈ l) (b : β) (hb : I b) : Q (l.foldl f b) := by
  induction l generalizing b with
  | nil => cases hm
  | cons x l ih =>
    rcases List.mem_cons.mp hm with rfl | hm'
    · exact foldl_invariant f Q hQ l _ (ha b hb)
    · exact ih hm' (f b x) (hI b x hb)

theorem update_frame (s : Page) :
    updateMinimizedFormsFooter s =
      { s with doc := (updateMinimizedFormsFooter s).doc,
               warnings := (updateMinimizedFormsFooter s).warnings } := by
  unfold updateMinimizedFormsFooter initializeMinimizedFooter
  split
  · split <;> rfl
  · split <;> rfl

theorem update_now (s : Page) : (updateMinimizedFormsFooter s).now = s.now := by
  rw [update_frame]

theorem update_hookDefined (s : Page) :
    (updateMinimizedFormsFooter s).hookDefined = s.hookDefined := by
  rw [update_frame]

theorem update_errors (s : Page) : (updateMinimizedFormsFooter s).errors = s.errors := by
  rw [update_frame]

theorem runCallback_dataStateOf (cb : Callback) (p : Page) (k : String) :
    (runCallback cb p).dataStateOf k =
      if cb = .closeHide k ∧ (p.doc k).isSome then some "closed" else p.dataStateOf k := by
  cases cb with
  | hideForm i =>
    simp [runCallback, Page.dataStateOf, Page.modify, modifyElement_dataState]
  | hideOverlay i =>
    simp [runCallback, Page.dataStateOf, Page.modify, modifyElement_dataState]
  | closeHide i =>
    by_cases hk : i = k
    · subst hk
      cases hd : p.doc i <;>
        simp [runCallback, Page.dataStateOf, Page.modify, modifyElement, hd]
    · have hk2 : k ≠ i := fun h => hk h.symm
      simp [runCallback, Page.dataStateOf, Page.modify, modifyElement, hk, hk2]
  | customClose i =>
    simp only [runCallback]
    split <;> simp [Page.dataStateOf]
  | activate i o =>
    cases o <;> simp [runCallback, Page.dataStateOf, Page.modify, modifyElement_dataState]
  | selectFirstTab i =>
    simp only [runCallback]
    split
    · split
      · simp [selectGroup_dataStateOf]
      · simp
    · simp

theorem runCallback_hookDefined (cb : Callback) (p : Page) :
    (runCallback cb p).hookDefined = p.hookDefined := by
  cases cb with
  | hideForm i => rfl
  | hideOverlay i => rfl
  | closeHide i => rfl
  | customClose i => simp only [runCallback]; split <;> rfl
  | activate i o => cases o <;> rfl
  | selectFirstTab i =>
    simp only [runCallback]
    split
    · split <;> rfl
    · rfl

theorem runCallback_hookCalls_mono (cb : Callback) (p : Page) (x : String)
    (h : x ∈ p.hookCalls) : x ∈ (runCallback cb p).hookCalls := by
  cases cb with
  | hideForm i => exact h
  | hideOverlay i => exact h
  | closeHide i => exact h
  | customClose i =>
    simp only [runCallback]
    split
    · exact List.mem_append_left _ h
    · exact h
  | activate i o => cases o <;> exact h
  | selectFirstTab i =>
    simp only [runCallback]
    split
    · split <;> exact h
    · exact h

theorem advance_closeHide (ms : Nat) (s : Page) (k : String) (d : Nat)
    (hm : (⟨d, .closeHide k⟩ : Timer) ∈ s.timers) (hd : d ≤ s.now + ms)
    (hk : (s.doc k).isSome) : (advance ms s).dataStateOf k = some "closed" := by
  unfold advance
  refine foldl_reaches (fun (acc : Page) (x : Timer) => runCallback x.cb acc)
    (fun p => (p.doc k).isSome) (fun p => p.dataStateOf k = some "closed")
    ⟨d, .closeHide k⟩ ?_ ?_ ?_ _ ?_ _ hk
  · intro b x hb
    simpa [runCallback_isSome] using hb
  · intro b x hb
    simp only [runCallback_dataStateOf, hb]
    split <;> rfl
  · intro b hb
    simp [runCallback_dataStateOf, hb]
  · simp [List.mem_filter, hm, hd]

theorem advance_customClose (ms : Nat) (s : Page) (i : String) (d : Nat)
    (hm : (⟨d, .customClose i⟩ : Timer) ∈ s.timers) (hd : d ≤ s.now + ms)
    (hh : s.hookDefined = true) : i ∈ (advance ms s).hookCalls := by
  unfold advance
  refine foldl_reaches (fun (acc : Page) (x : Timer) => runCallback x.cb acc)
    (fun p => p.hookDefined = true) (fun p => i ∈ p.hookCalls)
    ⟨d, .customClose i⟩ ?_ ?_ ?_ _ ?_ _ hh
  · intro b x hb
    simpa [runCallback_hookDefined] using hb
  · intro b x hb
    exact runCallback_hookCalls_mono _ _ _ hb
  · intro b hb
    simp [runCallback, hb]
  · simp [List.mem_filter, hm, hd]

theorem closeFormOverlay_now (formId : String) (s : Page) :
    (closeFormOverlay formId s).now = s.now := by
  cases h1 : s.doc formId <;> cases h2 : s.doc ("modal-overlay-" ++ formId) <;>
    simp [closeFormOverlay, h1, h2, Page.setTimeout, Page.modify, update_now]

theorem closeFormOverlay_customClose_mem (formId : String) (s : Page) :
    (⟨s.now + 350, .customClose formId⟩ : Timer) ∈ (closeFormOverlay formId s).timers := by
  cases h1 : s.doc formId <;> cases h2 : s.doc ("modal-overlay-" ++ formId) <;>
    simp [closeFormOverlay, h1, h2, Page.setTimeout, Page.modify, update_now, mem_insertTimer]

theorem closeFormOverlay_closeHide_mem (formId : String) (s : Page)
    (h : (s.doc formId).isSome) :
    (⟨s.now + 300, .closeHide formId⟩ : Timer) ∈ (closeFormOverlay formId s).timers := by
  cases h1 : s.doc formId with
  | none => simp [h1] at h
  | some form =>
    cases h2 : s.doc ("modal-overlay-" ++ formId) <;>
      simp only [closeFormOverlay, h1, h2, Page.setTimeout, Page.modify, update_now]
    · exact mem_insertTimer_of_mem _ _ _ (mem_insertTimer _ _)
    · exact mem_insertTimer_of_mem _ _ _ (mem_insertTimer_of_mem _ _ _ (mem_insertTimer _ _))

theorem modify_dataStateOf_set (p : Page) (id v : String) (f : Element → Element)
    (h : (p.doc id).isSome) (hf : ∀ e, (f e).dataState = some v) :
    (p.modify id f).dataStateOf id = some v := by
  cases hd : p.doc id with
  | none => simp [hd] at h
  | some e => simp [Page.dataStateOf, Page.modify, modifyElement, hd, hf]

theorem modify_dataStateOf_keep (p : Page) (id k : String) (f : Element → Element)
    (hf : ∀ e, (f e).dataState = e.dataState) :
    (p.modify id f).dataStateOf k = p.dataStateOf k := by
  simp [Page.dataStateOf, Page.modify, modifyElement_dataState, hf]

theorem modify_displayOf_set (p : Page) (id v : String) (f : Element → Element)
    (h : (p.doc id).isSome) (hf : ∀ e, (f e).display = v) :
    (p.modify id f).displayOf id = some v := by
  cases hd : p.doc id with
  | none => simp [hd] at h
  | some e => simp [Page.displayOf, Page.modify, modifyElement, hd, hf]

theorem modify_displayOf_other (p : Page) (id k : String) (f : Element → Element)
    (hk : k ≠ id) : (p.modify id f).displayOf k = p.displayOf k := by
  simp [Page.displayOf, Page.modify, modifyElement, hk]

theorem modify_isSome (p : Page) (id k : String) (f : Element → Element) :
    ((p.modify id f).doc k).isSome = (p.doc k).isSome := by
  simp [Page.modify, modifyElement_isSome]

theorem openForm_effects (s : Page) (formId : String) (h : (s.doc formId).isSome) :
    (openForm formId s).minimizedForms = s.minimizedForms.filter (fun f => f.id != formId) ∧
    (openForm formId s).bodyOverflow = "hidden" ∧
    (openForm formId s).dataStateOf formId = some "normal" ∧
    (openForm formId s).displayOf formId = some "flex" ∧
    ((s.doc ("modal-overlay-" ++ formId)).isSome →
      (openForm formId s).displayOf ("modal-overlay-" ++ formId) = some "block") := by
  have hreg := openForm_minimizedForms formId s
  simp only [Page.hasElement, h, if_true] at hreg
  have hne := overlayId_ne formId
  cases h1 : s.doc formId with
  | none => simp [h1] at h
  | some form =>
    cases h2 : s.doc ("modal-overlay-" ++ formId) with
    | none =>
      refine ⟨hreg, ?_, ?_, ?_, ?_⟩
      · simp [openForm, h1, h2, Page.setTimeout, Page.requestAnimationFrame, Page.modify]
      · simp only [openForm, h1, h2, Page.setTimeout, Page.requestAnimationFrame]
        show (Page.modify (Page.modify _ formId _) formId _).dataStateOf formId = _
        refine (modify_dataStateOf_keep _ _ _ _ ?_).trans ?_
        · intro e; rfl
        refine modify_dataStateOf_set _ _ _ _ ?_ ?_
        swap
        · intro e; rfl
        exact update_hasElement _ _ (by simp [h1])
      · simp only [openForm, h1, h2, Page.setTimeout, Page.requestAnimationFrame]
        show (Page.modify (Page.modify _ formId _) formId _).displayOf formId = _
        refine modify_displayOf_set _ _ _ _ ?_ ?_
        swap
        · intro e; rfl
        rw [modify_isSome]
        exact update_hasElement _ _ (by simp [h1])
      · intro hc; simp at hc
    | some ov =>
      refine ⟨hreg, ?_, ?_, ?_, ?_⟩
      · simp [openForm, h1, h2, Page.setTimeout, Page.requestAnimationFrame, Page.modify]
      · simp only [openForm, h1, h2, Page.setTimeout, Page.requestAnimationFrame]
        show (Page.modify (Page.modify (Page.modify _ formId _) _ _) formId _).dataStateOf
          formId = _
        refine (modify_dataStateOf_keep _ _ _ _ ?_).trans ?_
        · intro e; rfl
        refine (modify_dataStateOf_keep _ _ _ _ ?_).trans ?_
        · intro e; rfl
        refine modify_dataStateOf_set _ _ _ _ ?_ ?_
        swap
        · intro e; rfl
        exact update_hasElement _ _ (by simp [h1])
      · simp only [openForm, h1, h2, Page.setTimeout, Page.requestAnimationFrame]
        show (Page.modify (Page.modify (Page.modify _ formId _) _ _) formId _).displayOf
          formId = _
        refine modify_displayOf_set _ _ _ _ ?_ ?_
        swap
        · intro e; rfl
        rw [modify_isSome, modify_isSome]
        exact update_hasElement _ _ (by simp [h1])
      · intro _
        simp only [openForm, h1, h2, Page.setTimeout, Page.requestAnimationFrame]
        show (Page.modify (Page.modify (Page.modify _ formId _) _ _) formId _).displayOf
          ("modal-overlay-" ++ formId) = _
        refine (modify_displayOf_other _ _ _ _ hne).trans ?_
        refine modify_displayOf_set _ _ _ _ ?_ ?_
        swap
        · intro e; rfl
        rw [modify_isSome]
        exact update_hasElement _ _ (by simp [h2])

theorem closeFormOverlay_bodyOverflow (formId : String) (s : Page) :
    (closeFormOverlay formId s).bodyOverflow = "" := by
  cases h1 : s.doc formId <;> cases h2 : s.doc ("modal-overlay-" ++ formId) <;>
    simp [closeFormOverlay, h1, h2, Page.setTimeout, Page.modify]

theorem closeFormOverlay_hookDefined (formId : String) (s : Page) :
    (closeFormOverlay formId s).hookDefined = s.hookDefined := by
  cases h1 : s.doc formId <;> cases h2 : s.doc ("modal-overlay-" ++ formId) <;>
    simp [closeFormOverlay, h1, h2, Page.setTimeout, Page.modify, update_hookDefined]

theorem openForm_errors_without_overlay (formId : String) (s : Page)
    (h1 : (s.doc formId).isSome) (h2 : s.doc ("modal-overlay-" ++ formId) = none) :
    (openForm formId s).errors =
      s.errors ++ ["❌ Overlay element not found: " ++ ("modal-overlay-" ++ formId)] := by
  cases hd : s.doc formId with
  | none => simp [hd] at h1
  | some form =>
    simp [openForm, hd, h2, Page.setTimeout, Page.requestAnimationFrame, Page.modify,
      update_errors]

theorem minimizeForm_bodyOverflow (formId : String) (s : Page) (h : (s.doc formId).isSome) :
    (minimizeForm formId s).bodyOverflow = "" := by
  cases h1 : s.doc formId with
  | none => simp [h1] at h
  | some form => simp [minimizeForm, h1]

theorem minimizeForm_hideForm_mem (formId : String) (s : Page) (h : (s.doc formId).isSome) :
    (⟨s.now + 300, .hideForm formId⟩ : Timer) ∈ (minimizeForm formId s).timers := by
  cases h1 : s.doc formId with
  | none => simp [h1] at h
  | some form =>
    simp only [minimizeForm, h1, update_timers]
    cases h2 : s.doc ("modal-overlay-" ++ formId) <;>
      cases h3 : s.minimizedForms.findIdx? (fun f => f.id == formId) <;>
      simp only [Page.setTimeout, Page.modify]
    · exact mem_insertTimer _ _
    · exact mem_insertTimer _ _
    · exact mem_insertTimer_of_mem _ _ _ (mem_insertTimer _ _)
    · exact mem_insertTimer_of_mem _ _ _ (mem_insertTimer _ _)

theorem closeFormOverlay_dataStateOf (formId : String) (s : Page) (k : String) :
    (closeFormOverlay formId s).dataStateOf k = s.dataStateOf k := by
  have hu := update_dataStateOf
    { s with minimizedForms := s.minimizedForms.filter fun f => f.id != formId } k
  simp only [Page.dataStateOf] at hu ⊢
  cases h1 : s.doc formId <;> cases h2 : s.doc ("modal-overlay-" ++ formId) <;>
    simp [closeFormOverlay, h1, h2, Page.setTimeout, Page.modify, modifyElement_dataState, hu]

theorem update_doc_of_container (s : Page) (hc : (s.doc "minimizedFormsContainer").isSome) :
    (updateMinimizedFormsFooter s).doc = refreshedDoc s.minimizedForms s.doc := by
  cases h : s.doc "minimizedFormsContainer" with
  | none => simp [h] at hc
  | some c =>
    simp only [updateMinimizedFormsFooter, h, refreshedDoc]
    split <;> rfl

theorem modifyElement_absent (d : Document) (id : String) (f : Element → Element)
    (h : d id = none) : modifyElement d id f = d := by
  funext k
  unfold modifyElement
  split
  · rename_i hk; subst hk; simp [h]
  · rfl

theorem modifyElement_apply (d : Document) (id k : String) (f : Element → Element) :
    modifyElement d id f k = (d k).map fun e => if k = id then f e else e := by
  unfold modifyElement
  split
  · rename_i h; subst h; rfl
  · cases d k <;> rfl

theorem refreshedDoc_isSome (r : List MinimizedForm) (d : Document) (k : String) :
    (refreshedDoc r d k).isSome = (d k).isSome := by
  unfold refreshedDoc
  split <;> simp [modifyElement_isSome]

theorem refreshedDoc_eq_none (r : List MinimizedForm) (d : Document) (k : String)
    (h : d k = none) : refreshedDoc r d k = none := by
  have := refreshedDoc_isSome r d k
  rw [h] at this
  simpa using this

theorem closeFormOverlay_doc (formId : String) (s : Page)
    (hc : (s.doc "minimizedFormsContainer").isSome) :
    (closeFormOverlay formId s).doc =
      modifyElement
        (modifyElement
          (refreshedDoc (s.minimizedForms.filter fun f => f.id != formId) s.doc)
          formId fun e => { e with active := false })
        ("modal-overlay-" ++ formId) fun e => { e with active := false } := by
  have hu := update_doc_of_container
    { s with minimizedForms := s.minimizedForms.filter fun f => f.id != formId } hc
  simp only at hu
  cases h1 : s.doc formId <;> cases h2 : s.doc ("modal-overlay-" ++ formId) <;>
    simp only [closeFormOverlay, h1, h2, Page.setTimeout, Page.modify, hu]
  · rw [modifyElement_absent _ formId _ (refreshedDoc_eq_none _ _ _ h1),
      modifyElement_absent _ _ _ (refreshedDoc_eq_none _ _ _ h2)]
  · rw [modifyElement_absent _ formId _ (refreshedDoc_eq_none _ _ _ h1)]
  · rw [modifyElement_absent _ ("modal-overlay-" ++ formId)]
    rw [modifyElement_other _ _ _ _ (overlayId_ne formId)]
    exact refreshedDoc_eq_none _ _ _ h2

theorem closeDoc_idem (r : List MinimizedForm) (d : Document) (formId ov : String) :
    modifyElement
        (modifyElement
          (refreshedDoc r
            (modifyElement
              (modifyElement (refreshedDoc r d) formId fun e => { e with active := false })
              ov fun e => { e with active := false }))
          formId fun e => { e with active := false })
        ov (fun e => { e with active := false })
    = modifyElement (modifyElement (refreshedDoc r d) formId fun e => { e with active := false })
        ov fun e => { e with active := false } := by
  funext k
  unfold refreshedDoc
  split <;> simp only [modifyElement_apply, Option.map_map] <;> cases d k <;>
    simp only [Option.map_none', Option.map_some', Function.comp] <;>
    by_cases hf : k = formId <;> by_cases ho : k = ov <;>
    by_cases hcn : k = "minimizedFormsContainer" <;>
    by_cases hft : k = "minimizedFormsFooter" <;>
    simp_all

theorem filter_ne_idem (r : List MinimizedForm) (formId : String) :
    (r.filter fun f => f.id != formId).filter (fun f => f.id != formId)
      = r.filter fun f => f.id != formId := by
  simp [List.filter_filter]

theorem closeFormOverlay_idem (formId : String) (s : Page)
    (hc : (s.doc "minimizedFormsContainer").isSome) :
    (closeFormOverlay formId (closeFormOverlay formId s)).sameView (closeFormOverlay formId s) := by
  have hc2 := closeFormOverlay_hasElement formId s _ hc
  refine ⟨?_, ?_, ?_⟩
  · rw [closeFormOverlay_doc formId _ hc2, closeFormOverlay_minimizedForms, filter_ne_idem,
      closeFormOverlay_doc formId s hc]
    exact closeDoc_idem _ _ _ _
  · rw [closeFormOverlay_minimizedForms, closeFormOverlay_minimizedForms, filter_ne_idem]
  · rw [closeFormOverlay_bodyOverflow, closeFormOverlay_bodyOverflow]

theorem openForm_doc (formId : String) (s : Page) (hform : (s.doc formId).isSome)
    (hc : (s.doc "minimizedFormsContainer").isSome) :
    (openForm formId s).doc =
      modifyElement
        (modifyElement
          (modifyElement
            (refreshedDoc (s.minimizedForms.filter fun f => f.id != formId) s.doc)
            formId fun e => { e with dataState := some "normal" })
          ("modal-overlay-" ++ formId) fun e => { e with display := "block" })
        formId fun e => { e with display := "flex" } := by
  cases h1 : s.doc formId with
  | none => simp [h1] at hform
  | some form =>
    cases h2 : s.doc ("modal-overlay-" ++ formId) with
    | none =>
      have hu := update_doc_of_container
        { s with
          errors := s.errors ++ ["❌ Overlay element not found: " ++ ("modal-overlay-" ++ formId)],
          minimizedForms := s.minimizedForms.filter fun f => f.id != formId } hc
      simp only at hu
      simp only [openForm, h1, h2, Page.setTimeout, Page.requestAnimationFrame, Page.modify,
        Option.isNone_none, Option.isSome_none, Bool.false_eq_true, if_true, if_false, hu]
      have habs : modifyElement
          (modifyElement
            (refreshedDoc (s.minimizedForms.filter fun f => f.id != formId) s.doc)
            formId fun e => { e with dataState := some "normal" })
          ("modal-overlay-" ++ formId) (fun e => { e with display := "block" })
          = modifyElement
            (refreshedDoc (s.minimizedForms.filter fun f => f.id != formId) s.doc)
            formId fun e => { e with dataState := some "normal" } := by
        apply modifyElement_absent
        rw [modifyElement_other _ _ _ _ (overlayId_ne formId)]
        exact refreshedDoc_eq_none _ _ _ h2
      rw [habs]
    | some ov =>
      have hu := update_doc_of_container
        { s with minimizedForms := s.minimizedForms.filter fun f => f.id != formId } hc
      simp only at hu
      simp only [openForm, h1, h2, Page.setTimeout, Page.requestAnimationFrame, Page.modify,
        Option.isNone_some, Option.isSome_some, Bool.false_eq_true, if_true, if_false, hu]

theorem openDoc_idem (r : List MinimizedForm) (d : Document) (formId ov : String) :
    modifyElement
        (modifyElement
          (modifyElement
            (refreshedDoc r
              (modifyElement
                (modifyElement
                  (modifyElement (refreshedDoc r d) formId fun e =>
                    { e with dataState := some "normal" })
                  ov fun e => { e with display := "block" })
                formId fun e => { e with display := "flex" }))
            formId fun e => { e with dataState := some "normal" })
          ov fun e => { e with display := "block" })
        formId (fun e => { e with display := "flex" })
    = modifyElement
        (modifyElement
          (modifyElement (refreshedDoc r d) formId fun e => { e with dataState := some "normal" })
          ov fun e => { e with display := "block" })
        formId fun e => { e with display := "flex" } := by
  funext k
  unfold refreshedDoc
  split <;> simp only [modifyElement_apply, Option.map_map] <;> cases d k <;>
    simp only [Option.map_none', Option.map_some', Function.comp] <;>
    by_cases hf : k = formId <;> by_cases ho : k = ov <;>
    by_cases hcn : k = "minimizedFormsContainer" <;>
    by_cases hft : k = "minimizedFormsFooter" <;>
    simp_all

theorem openForm_idem (formId : String) (s : Page)
    (hc : (s.doc "minimizedFormsContainer").isSome) :
    (openForm formId (openForm formId s)).sameView (openForm formId s) := by
  cases h1 : s.doc formId with
  | none =>
    refine ⟨?_, ?_, ?_⟩ <;> simp [openForm, h1]
  | some form =>
    have hform : (s.doc formId).isSome := by simp [h1]
    have hform2 := openForm_hasElement formId s _ hform
    have hc2 := openForm_hasElement formId s _ hc
    have hreg := openForm_minimizedForms formId s
    simp only [Page.hasElement, hform, if_true] at hreg
    have hreg2 := openForm_minimizedForms formId (openForm formId s)
    simp only [Page.hasElement, hform2, if_true] at hreg2
    refine ⟨?_, ?_, ?_⟩
    · rw [openForm_doc formId _ hform2 hc2, hreg, filter_ne_idem, openForm_doc formId s hform hc]
      exact openDoc_idem _ _ _ _
    · rw [hreg2, hreg, filter_ne_idem]
    · rw [(openForm_effects _ formId hform2).2.1, (openForm_effects s formId hform).2.1]

theorem minimizeForm_doc (formId : String) (s : Page) (hform : (s.doc formId).isSome)
    (hc : (s.doc "minimizedFormsContainer").isSome) :
    (minimizeForm formId s).doc =
      refreshedDoc (minimizeForm formId s).minimizedForms
        (modifyElement
          (modifyElement s.doc formId fun e => { e with active := false })
          ("modal-overlay-" ++ formId) fun e => { e with active := false }) := by
  cases h1 : s.doc formId with
  | none => simp [h1] at hform
  | some form =>
    cases h2 : s.doc ("modal-overlay-" ++ formId) with
    | none =>
      have habs : modifyElement
          (modifyElement s.doc formId fun e => { e with active := false })
          ("modal-overlay-" ++ formId) (fun e => { e with active := false })
          = modifyElement s.doc formId fun e => { e with active := false } := by
        apply modifyElement_absent
        rw [modifyElement_other _ _ _ _ (overlayId_ne formId)]
        exact h2
      rw [habs]
      simp only [minimizeForm, h1, h2, update_minimizedForms]
      rw [update_doc_of_container]
      · cases h3 : s.minimizedForms.findIdx? (fun f => f.id == formId) <;> rfl
      · cases h3 : s.minimizedForms.findIdx? (fun f => f.id == formId) <;>
          simpa [Page.setTimeout, Page.modify, modifyElement_isSome] using hc
    | some ov =>
      simp only [minimizeForm, h1, h2, update_minimizedForms]
      rw [update_doc_of_container]
      · cases h3 : s.minimizedForms.findIdx? (fun f => f.id == formId) <;> rfl
      · cases h3 : s.minimizedForms.findIdx? (fun f => f.id == formId) <;>
          simpa [Page.setTimeout, Page.modify, modifyElement_isSome] using hc

theorem minimizeDoc_idem (r : List MinimizedForm) (d : Document) (formId ov : String) :
    refreshedDoc r
        (modifyElement
          (modifyElement
            (refreshedDoc r
              (modifyElement (modifyElement d formId fun e => { e with active := false })
                ov fun e => { e with active := false }))
            formId fun e => { e with active := false })
          ov fun e => { e with active := false })
    = refreshedDoc r
        (modifyElement (modifyElement d formId fun e => { e with active := false })
          ov fun e => { e with active := false }) := by
  funext k
  unfold refreshedDoc
  split <;> simp only [modifyElement_apply, Option.map_map] <;> cases d k <;>
    simp only [Option.map_none', Option.map_some', Function.comp] <;>
    by_cases hf : k = formId <;> by_cases ho : k = ov <;>
    by_cases hcn : k = "minimizedFormsContainer" <;>
    by_cases hft : k = "minimizedFormsFooter" <;>
    simp_all

theorem minimizeForm_minimizedForms_idem (formId : String) (s : Page)
    (hform : (s.doc formId).isSome) :
    (minimizeForm formId (minimizeForm formId s)).minimizedForms
      = (minimizeForm formId s).minimizedForms := by
  have hin := minimizeForm_mem_registryIds formId s hform
  have hform2 := minimizeForm_hasElement formId s _ hform
  rw [minimizeForm_minimizedForms formId (minimizeForm formId s)]
  cases hd : (minimizeForm formId s).doc formId with
  | none => rfl
  | some form2 => simp only [hin, if_true]

theorem minimizeForm_idem (formId : String) (s : Page)
    (hc : (s.doc "minimizedFormsContainer").isSome) :
    (minimizeForm formId (minimizeForm formId s)).sameView (minimizeForm formId s) := by
  cases h1 : s.doc formId with
  | none =>
    refine ⟨?_, ?_, ?_⟩ <;> simp [minimizeForm, h1]
  | some form =>
    have hform : (s.doc formId).isSome := by simp [h1]
    have hform2 := minimizeForm_hasElement formId s _ hform
    have hc2 := minimizeForm_hasElement formId s _ hc
    have hreg := minimizeForm_minimizedForms_idem formId s hform
    refine ⟨?_, hreg, ?_⟩
    · rw [minimizeForm_doc formId _ hform2 hc2, hreg, minimizeForm_doc formId s hform hc]
      exact minimizeDoc_idem _ _ _ _
    · rw [minimizeForm_bodyOverflow _ _ hform2, minimizeForm_bodyOverflow _ _ hform]

theorem maximizeForm_not_idem (formId : String) (s : Page) (hform : (s.doc formId).isSome) :
    (maximizeForm formId (maximizeForm formId s)).dataStateOf formId
      ≠ (maximizeForm formId s).dataStateOf formId := by
  cases h1 : s.doc formId with
  | none => simp [h1] at hform
  | some form =>
    by_cases hm : form.dataState = some "maximized"
    · simp [maximizeForm, h1, hm, Page.modify, modifyElement, Page.dataStateOf]
    · simp [maximizeForm, h1, hm, Page.modify, modifyElement, Page.dataStateOf]

theorem formValidation_maximizeForm_eq (formId : String) (s : Page) :
    FormValidation.maximizeForm formId s = UniversalForm.maximizeForm formId s := by
  cases h1 : s.doc formId with
  | none => simp [FormValidation.maximizeForm, UniversalForm.maximizeForm, h1]
  | some form =>
    by_cases hm : form.dataState = some "maximized" <;>
      simp [FormValidation.maximizeForm, UniversalForm.maximizeForm, h1, hm]

theorem formValidation_minimizeForm_not_idem (formId : String) (s : Page)
    (hform : (s.doc formId).isSome) :
    (FormValidation.minimizeForm formId (FormValidation.minimizeForm formId s)).dataStateOf formId
      ≠ (FormValidation.minimizeForm formId s).dataStateOf formId := by
  have hov := suffixOverlayId_ne formId
  cases h1 : s.doc formId with
  | none => simp [h1] at hform
  | some form =>
    by_cases hm : form.dataState = some "minimized"
    · simp [FormValidation.minimizeForm, h1, hm, Page.modify, modifyElement, Page.dataStateOf,
        hov.symm]
    · simp [FormValidation.minimizeForm, h1, hm, Page.modify, modifyElement, Page.dataStateOf,
        hov.symm]

set_option maxRecDepth 100000 in
theorem renderItem_eq_footerRow (form : MinimizedForm) : renderItem form = footerRow form := by
  apply String.ext
  simp only [renderItem, footerRow, actionButton, handlerCall, String.data_append]
  simp only [List.append_assoc, List.cons_append, List.nil_append]

theorem update_container_innerHTML (s : Page)
    (hc : (s.doc "minimizedFormsContainer").isSome) :
    ((updateMinimizedFormsFooter s).doc "minimizedFormsContainer").map (fun e => e.innerHTML)
      = some (joinEmpty (s.minimizedForms.map renderItem)) := by
  rw [update_doc_of_container s hc]
  cases h : s.doc "minimizedFormsContainer" with
  | none => simp [h] at hc
  | some c =>
    unfold refreshedDoc
    split
    · rename_i hlen
      have hnil : s.minimizedForms = [] := List.length_eq_zero.mp hlen
      simp [modifyElement, h, hnil, joinEmpty]
    · simp [modifyElement, h]

theorem update_footer_display (s : Page)
    (hc : (s.doc "minimizedFormsContainer").isSome) (hf : (s.doc "minimizedFormsFooter").isSome) :
    (updateMinimizedFormsFooter s).displayOf "minimizedFormsFooter"
      = some (if s.minimizedForms.length = 0 then "none" else "block") := by
  unfold Page.displayOf
  rw [update_doc_of_container s hc]
  cases h : s.doc "minimizedFormsFooter" with
  | none => simp [h] at hf
  | some c =>
    unfold refreshedDoc
    split <;> simp [modifyElement, h]

theorem drag_idle (formId : String) (e : FormValidation.MouseEvent) (s : Page)
    (c : FormValidation.DragClosure) (h : c.isDragging = false) :
    FormValidation.drag formId e s c = (s, c) := by
  simp [FormValidation.drag, h]

theorem runPointer_append (formId : String) (pc : Page × FormValidation.DragClosure)
    (es fs : List FormValidation.PointerEvent) :
    FormValidation.runPointer formId pc (es ++ fs)
      = FormValidation.runPointer formId (FormValidation.runPointer formId pc es) fs := by
  simp [FormValidation.runPointer, List.foldl_append]

theorem runPointer_moves_idle (formId : String) (s : Page) (c : FormValidation.DragClosure)
    (h : c.isDragging = false) (moves : List FormValidation.MouseEvent) :
    FormValidation.runPointer formId (s, c) (moves.map .move) = (s, c) := by
  induction moves with
  | nil => rfl
  | cons m ms ih =>
    simp only [List.map_cons, FormValidation.runPointer, List.foldl_cons,
      FormValidation.pointerStep, drag_idle formId m s c h]
    exact ih

theorem dragStart_blocked (formId : String) (e : FormValidation.MouseEvent) (s : Page)
    (c : FormValidation.DragClosure)
    (h : s.dataStateOf formId = some "maximized" ∨ s.dataStateOf formId = some "minimized") :
    FormValidation.dragStart formId e s c = c := by
  unfold Page.dataStateOf at h
  simp [FormValidation.dragStart, h]

theorem pow2_eq (k : Nat) : pow2 k = 2 ^ k := by
  simp [pow2, Nat.shiftLeft_eq]

theorem pow2_pos (k : Nat) : 0 < pow2 k := by
  rw [pow2_eq]; exact Nat.two_pow_pos k

theorem pow2_add (a b : Nat) : pow2 (a + b) = pow2 a * pow2 b := by
  simp only [pow2_eq, Nat.pow_add]

theorem pow2_lt_pow2 {a b : Nat} (h : pow2 a < pow2 b) : a < b := by
  simp only [pow2_eq] at h
  exact (Nat.pow_lt_pow_iff_right (by decide : 1 < 2)).1 h

theorem pow2_le_pow2 {a b : Nat} (h : a ≤ b) : pow2 a ≤ pow2 b := by
  simp only [pow2_eq]
  exact Nat.pow_le_pow_right (by decide) h

theorem pow2_dvd_pow2 {a b : Nat} (h : a ≤ b) : pow2 a ∣ pow2 b := by
  simp only [pow2_eq]
  exact Nat.pow_dvd_pow 2 h

theorem excessBits_fold (a : Nat) (ks : List Nat) (sh0 : Nat)
    (h0 : sh0 = 0 ∨ pow2 (52 + sh0) ≤ a) :
    ks.foldl (fun sh k => if pow2 (52 + sh + k) ≤ a then sh + k else sh) sh0 = 0 ∨
    pow2 (52 + ks.foldl (fun sh k => if pow2 (52 + sh + k) ≤ a then sh + k else sh) sh0) ≤ a := by
  induction ks generalizing sh0 with
  | nil => simpa using h0
  | cons k ks ih =>
    simp only [List.foldl_cons]
    apply ih
    split
    · rename_i h
      right
      rw [← Nat.add_assoc]
      exact h
    · exact h0

theorem excessBits_spec (a : Nat) :
    FormValidation.excessBits a = 0 ∨ pow2 (52 + FormValidation.excessBits a) ≤ a :=
  excessBits_fold a _ 0 (Or.inl rfl)

/-- A number of units with at most 53 significant bits, below the overflow, is a double:
rounding keeps it. -/
theorem roundDouble_exact (u : Int) (m j : Nat) (hm : m < pow2 53)
    (hu : u.natAbs = m * pow2 j) (hj : 53 + j ≤ 2098) :
    FormValidation.roundDouble u = .finite u := by
  have hlt : u.natAbs < pow2 (53 + j) := by
    rw [hu, pow2_add]
    exact Nat.mul_lt_mul_of_pos_right hm (pow2_pos j)
  have hsh : FormValidation.excessBits u.natAbs ≤ j := by
    rcases excessBits_spec u.natAbs with h | h
    · omega
    · have h3 := pow2_lt_pow2 (lt_of_le_of_lt h hlt)
      omega
  have hsign : (if u < 0 then -(u.natAbs : Int) else (u.natAbs : Int)) = u := by
    split <;> omega
  simp only [FormValidation.roundDouble]
  generalize FormValidation.excessBits u.natAbs = sh at hsh ⊢
  obtain ⟨t, ht⟩ := pow2_dvd_pow2 hsh
  have hdvd : pow2 sh ∣ u.natAbs := ⟨m * t, by rw [hu, ht]; ring⟩
  have hmod : u.natAbs % pow2 sh = 0 := Nat.mod_eq_zero_of_dvd hdvd
  have hdiv : u.natAbs / pow2 sh * pow2 sh = u.natAbs := Nat.div_mul_cancel hdvd
  have hpos := pow2_pos sh
  have hlt2 : ¬ pow2 2098 ≤ u.natAbs :=
    Nat.not_le.2 (lt_of_lt_of_le hlt (pow2_le_pow2 hj))
  have hc : ¬ (pow2 sh < 2 * 0 ∨ 2 * 0 = pow2 sh ∧ u.natAbs / pow2 sh % 2 = 1) := by
    rintro (h | ⟨h, _⟩) <;> omega
  simp only [hmod, hlt2, if_false, hc, hdiv, hsign]

/-- The difference at some known values: `2^53 + 1` and `2^54 + 1` are ties and go to the
even significand, `2^53 + 3` goes up to `2^53 + 4`, the half `0.5` is a number, `1 - 2^-53`
is a number and `1 - 2^-54` is rounded to `1`, the largest number plus half of its last
place is infinite, and a difference with `NaN` or of equal infinities is `NaN`. -/
theorem jsSub_examples :
    FormValidation.jsSub (.ofInt 9007199254740993) (.ofInt 0) = .ofInt 9007199254740992 ∧
    FormValidation.jsSub (.ofInt 18014398509481985) (.ofInt 0) = .ofInt 18014398509481984 ∧
    FormValidation.jsSub (.ofInt 9007199254740995) (.ofInt 0) = .ofInt 9007199254740996 ∧
    FormValidation.jsSub (.ofInt (-9007199254740993)) (.ofInt 0)
      = .ofInt (-9007199254740992) ∧
    FormValidation.jsSub (.finite (pow2 1073)) (.ofInt 0) = .finite (pow2 1073) ∧
    FormValidation.jsSub (.ofInt 1) (.finite (pow2 1021))
      = .finite ((pow2 53 - 1 : Nat) * (pow2 1021 : Nat)) ∧
    FormValidation.jsSub (.ofInt 1) (.finite (pow2 1020)) = .ofInt 1 ∧
    FormValidation.jsSub (.finite ((pow2 53 - 1 : Nat) * (pow2 2045 : Nat)))
      (.finite (-(pow2 2044 : Nat))) = .infinity false ∧
    FormValidation.jsSub (.finite ((pow2 53 - 1 : Nat) * (pow2 2045 : Nat)))
      (.finite (-((pow2 2044 - 1 : Nat) : Int)))
      = .finite ((pow2 53 - 1 : Nat) * (pow2 2045 : Nat)) ∧
    FormValidation.jsSub (.ofInt 1) .nan = .nan ∧
    FormValidation.jsSub (.infinity false) (.infinity false) = .nan ∧
    FormValidation.jsSub (.ofInt 1) (.infinity false) = .infinity true := by
  refine ⟨by decide, by decide, by decide, by decide, by decide, by decide, by decide,
    by decide, by decide, by decide, by decide, by decide⟩

/-- The difference of two integers is exact when it is at most `2^53` in magnitude. -/
theorem jsSub_ofInt (a b : Int) (h : (a - b).natAbs ≤ 2 ^ 53) :
    FormValidation.jsSub (.ofInt a) (.ofInt b) = .ofInt (a - b) := by
  have hsub : a * (unitsPerOne : Int) - b * (unitsPerOne : Int)
      = (a - b) * (unitsPerOne : Int) := by ring
  simp only [JsNum.ofInt, FormValidation.jsSub, hsub]
  have habs : ((a - b) * (unitsPerOne : Int)).natAbs = (a - b).natAbs * pow2 1074 := by
    rw [Int.natAbs_mul, Int.natAbs_ofNat, unitsPerOne]
  have h53 : pow2 53 = 2 ^ 53 := pow2_eq 53
  rcases Nat.lt_or_ge (a - b).natAbs (2 ^ 53) with hlt | hge
  · exact roundDouble_exact _ (a - b).natAbs 1074 (by omega) habs (by decide)
  · have heq : (a - b).natAbs = pow2 53 := by omega
    refine roundDouble_exact _ 1 1127 ?_ ?_ (by decide)
    · have := pow2_pos 53
      have h2 : pow2 53 = pow2 52 * pow2 1 := pow2_add 52 1
      have h3 : pow2 1 = 2 := by decide
      have := pow2_pos 52
      omega
    · rw [habs, heq, ← pow2_add, Nat.one_mul]

theorem numberText_ofInt (n : Int) (h : n.natAbs ≤ 2 ^ 53) :
    numberText (.ofInt n) = some (toString n) := by
  have hpos : (unitsPerOne : Int) ≠ 0 := by
    have := pow2_pos 1074
    unfold unitsPerOne
    omega
  have h53 : pow2 53 = 2 ^ 53 := pow2_eq 53
  have h2 : n.natAbs ≤ pow2 53 := by omega
  simp [numberText, JsNum.ofInt, hpos, h2]
theorem dragStart_allowed (formId : String) (e : FormValidation.MouseEvent) (s : Page)
    (c : FormValidation.DragClosure) (h : s.dragAllowed formId)
    (hheader : e.targetInHeader = true) :
    FormValidation.dragStart formId e s c =
      { c with initialX := some (FormValidation.jsSub e.clientX c.xOffset),
               initialY := some (FormValidation.jsSub e.clientY c.yOffset),
               isDragging := true } := by
  unfold Page.dragAllowed Page.dataStateOf at h
  simp [FormValidation.dragStart, h, hheader]

theorem drag_dataStateOf (formId : String) (e : FormValidation.MouseEvent) (s : Page)
    (c : FormValidation.DragClosure) (k : String) :
    (FormValidation.drag formId e s c).1.dataStateOf k = s.dataStateOf k := by
  unfold FormValidation.drag
  split
  · simp only
    refine modify_dataStateOf_keep _ _ _ _ ?_
    intro el; rfl
  · rfl

theorem drag_dragAllowed (formId : String) (e : FormValidation.MouseEvent) (s : Page)
    (c : FormValidation.DragClosure) (k : String) (h : s.dragAllowed k) :
    (FormValidation.drag formId e s c).1.dragAllowed k := by
  unfold Page.dragAllowed at h ⊢
  rw [drag_dataStateOf]
  exact h

theorem drag_isSome (formId : String) (e : FormValidation.MouseEvent) (s : Page)
    (c : FormValidation.DragClosure) (k : String) :
    ((FormValidation.drag formId e s c).1.doc k).isSome = (s.doc k).isSome := by
  unfold FormValidation.drag
  split
  · simp [Page.modify, modifyElement_isSome]
  · rfl

/-- While a drag is in progress the moves keep the origin and the dragging flag. -/
theorem runPointer_moves_dragging (formId : String) (moves : List FormValidation.MouseEvent)
    (s : Page) (c : FormValidation.DragClosure) (ix iy : JsNum)
    (hd : c.isDragging = true) (hix : c.initialX = some ix) (hiy : c.initialY = some iy) :
    (FormValidation.runPointer formId (s, c) (moves.map .move)).2.isDragging = true ∧
    (FormValidation.runPointer formId (s, c) (moves.map .move)).2.initialX = some ix ∧
    (FormValidation.runPointer formId (s, c) (moves.map .move)).2.initialY = some iy ∧
    (∀ k, (FormValidation.runPointer formId (s, c) (moves.map .move)).1.dataStateOf k
      = s.dataStateOf k) ∧
    (∀ k, ((FormValidation.runPointer formId (s, c) (moves.map .move)).1.doc k).isSome
      = (s.doc k).isSome) := by
  induction moves generalizing s c with
  | nil => exact ⟨hd, hix, hiy, fun _ => rfl, fun _ => rfl⟩
  | cons m ms ih =>
    have hd2 : (FormValidation.drag formId m s c).2.isDragging = true := by
      simp [FormValidation.drag, hd]
    have hix2 : (FormValidation.drag formId m s c).2.initialX = some ix := by
      simp [FormValidation.drag, hd, hix]
    have hiy2 : (FormValidation.drag formId m s c).2.initialY = some iy := by
      simp [FormValidation.drag, hd, hiy]
    obtain ⟨h1, h2, h3, h4, h5⟩ := ih (FormValidation.drag formId m s c).1
      (FormValidation.drag formId m s c).2 hd2 hix2 hiy2
    have hrun : FormValidation.runPointer formId (s, c) ((m :: ms).map .move)
        = FormValidation.runPointer formId
            ((FormValidation.drag formId m s c).1, (FormValidation.drag formId m s c).2)
            (ms.map .move) := by
      simp [FormValidation.runPointer, FormValidation.pointerStep]
    rw [hrun]
    refine ⟨h1, h2, h3, ?_, ?_⟩
    · intro k
      rw [h4 k, drag_dataStateOf]
    · intro k
      rw [h5 k, drag_isSome]

/-- The moves of a released pointer change nothing. -/
theorem runPointer_hover (formId : String) (pc : Page × FormValidation.DragClosure)
    (h : pc.2.isDragging = false) (moves : List FormValidation.MouseEvent) :
    FormValidation.runPointer formId pc (moves.map .move) = pc := by
  obtain ⟨s, c⟩ := pc
  exact runPointer_moves_idle formId s c h moves

/-- One completed drag: the offset becomes the last move minus the origin the pointer-down
set, in the arithmetic of the runtime, whatever the moves in between and after. -/
theorem runPointer_gesture (formId : String) (g : FormValidation.Gesture) (s : Page)
    (c : FormValidation.DragClosure)
    (hallowed : s.dragAllowed formId) (hheader : g.down.targetInHeader = true) :
    (FormValidation.runPointer formId (s, c) g.events).2.isDragging = false ∧
    (FormValidation.runPointer formId (s, c) g.events).2.xOffset
      = FormValidation.jsSub g.last.clientX (FormValidation.jsSub g.down.clientX c.xOffset) ∧
    (FormValidation.runPointer formId (s, c) g.events).2.yOffset
      = FormValidation.jsSub g.last.clientY (FormValidation.jsSub g.down.clientY c.yOffset) ∧
    (∀ k, (FormValidation.runPointer formId (s, c) g.events).1.dataStateOf k
      = s.dataStateOf k) ∧
    (∀ k, ((FormValidation.runPointer formId (s, c) g.events).1.doc k).isSome
      = (s.doc k).isSome) ∧
    ((s.doc formId).isSome →
      (FormValidation.runPointer formId (s, c) g.events).1.transformOf formId
        = some [.text "translate(calc(-50% + ",
            .num (FormValidation.jsSub g.last.clientX
              (FormValidation.jsSub g.down.clientX c.xOffset)),
            .text "px), calc(-50% + ",
            .num (FormValidation.jsSub g.last.clientY
              (FormValidation.jsSub g.down.clientY c.yOffset)),
            .text "px))"]) := by
  have hstart := dragStart_allowed formId g.down s c hallowed hheader
  have hmoves := runPointer_moves_dragging formId g.moves s
    (FormValidation.dragStart formId g.down s c)
    (FormValidation.jsSub g.down.clientX c.xOffset)
    (FormValidation.jsSub g.down.clientY c.yOffset)
    (by rw [hstart]) (by rw [hstart]) (by rw [hstart])
  have hrun : FormValidation.runPointer formId (s, c) g.events
      = FormValidation.runPointer formId
          (FormValidation.runPointer formId
            (FormValidation.runPointer formId (s, FormValidation.dragStart formId g.down s c)
              (g.moves.map .move))
            [.move g.last, .up])
          (g.hover.map .move) := by
    rw [← runPointer_append, ← runPointer_append, ← List.append_assoc]
    rfl
  generalize FormValidation.runPointer formId (s, FormValidation.dragStart formId g.down s c)
    (g.moves.map .move) = mid at hmoves hrun
  obtain ⟨m1, m2, m3, m4, m5⟩ := hmoves
  have hidle : (FormValidation.runPointer formId mid [.move g.last, .up]).2.isDragging
      = false := by
    simp [FormValidation.runPointer, FormValidation.pointerStep, FormValidation.dragEnd]
  rw [hrun, runPointer_hover formId _ hidle]
  refine ⟨hidle, ?_, ?_, ?_, ?_, ?_⟩
  · simp [FormValidation.runPointer, FormValidation.pointerStep, FormValidation.drag,
      FormValidation.dragEnd, m1, m2, FormValidation.toNumber]
  · simp [FormValidation.runPointer, FormValidation.pointerStep, FormValidation.drag,
      FormValidation.dragEnd, m1, m3, FormValidation.toNumber]
  · intro k
    simp only [FormValidation.runPointer, List.foldl_cons, List.foldl_nil,
      FormValidation.pointerStep]
    rw [drag_dataStateOf, m4 k]
  · intro k
    simp only [FormValidation.runPointer, List.foldl_cons, List.foldl_nil,
      FormValidation.pointerStep]
    rw [drag_isSome, m5 k]
  · intro hform
    have hmid : (mid.1.doc formId).isSome := by rw [m5 formId]; exact hform
    cases hd : mid.1.doc formId with
    | none => simp [hd] at hmid
    | some el =>
      simp [FormValidation.runPointer, FormValidation.pointerStep, FormValidation.drag,
        m1, m2, m3, FormValidation.toNumber, FormValidation.translateOf, Page.transformOf,
        Page.modify, modifyElement, hd]

theorem offsetXAfter_cons (x0 : Int) (p : PixelDrag) (ps : List PixelDrag) :
    offsetXAfter x0 (p :: ps) = offsetXAfter (x0 + p.dx) ps := by
  simp only [offsetXAfter, List.map_cons, List.sum_cons]
  omega

theorem offsetYAfter_cons (y0 : Int) (p : PixelDrag) (ps : List PixelDrag) :
    offsetYAfter y0 (p :: ps) = offsetYAfter (y0 + p.dy) ps := by
  simp only [offsetYAfter, List.map_cons, List.sum_cons]
  omega

/-- A sequence of completed drags in whole pixels adds up the displacements, as long as the
pointer-down coordinates and the offsets reached stay within `2^52`. -/
theorem runPointer_pixelDrags (formId : String) (ps : List PixelDrag) (s : Page)
    (c : FormValidation.DragClosure) (x0 y0 : Int)
    (hallowed : s.dragAllowed formId)
    (hx : c.xOffset = .ofInt x0) (hy : c.yOffset = .ofInt y0)
    (hdown : ∀ p ∈ ps, p.a.natAbs ≤ 2 ^ 52 ∧ p.b.natAbs ≤ 2 ^ 52)
    (hsum : ∀ qs ∈ ps.inits,
      (offsetXAfter x0 qs).natAbs ≤ 2 ^ 52 ∧ (offsetYAfter y0 qs).natAbs ≤ 2 ^ 52) :
    (FormValidation.runPointer formId (s, c)
      (FormValidation.gestureEvents (ps.map PixelDrag.gesture))).2.xOffset
      = .ofInt (offsetXAfter x0 ps) ∧
    (FormValidation.runPointer formId (s, c)
      (FormValidation.gestureEvents (ps.map PixelDrag.gesture))).2.yOffset
      = .ofInt (offsetYAfter y0 ps) ∧
    (ps ≠ [] →
      (FormValidation.runPointer formId (s, c)
        (FormValidation.gestureEvents (ps.map PixelDrag.gesture))).2.isDragging = false) ∧
    (ps ≠ [] → (s.doc formId).isSome →
      (FormValidation.runPointer formId (s, c)
        (FormValidation.gestureEvents (ps.map PixelDrag.gesture))).1.transformOf formId
        = some [.text "translate(calc(-50% + ", .num (.ofInt (offsetXAfter x0 ps)),
            .text "px), calc(-50% + ", .num (.ofInt (offsetYAfter y0 ps)), .text "px))"]) := by
  induction ps generalizing s c x0 y0 with
  | nil =>
    refine ⟨?_, ?_, fun h => absurd rfl h, fun h => absurd rfl h⟩
    · simpa [FormValidation.gestureEvents, FormValidation.runPointer, offsetXAfter] using hx
    · simpa [FormValidation.gestureEvents, FormValidation.runPointer, offsetYAfter] using hy
  | cons p ps ih =>
    obtain ⟨g1, g2, g3, g4, g5, g6⟩ := runPointer_gesture formId p.gesture s c hallowed rfl
    have hp := hdown p (List.mem_cons_self _ _)
    have h0 := hsum [] (by simp)
    have h1 := hsum [p] (by simp [List.inits])
    simp only [offsetXAfter, offsetYAfter, List.map_nil, List.sum_nil, List.map_cons,
      List.sum_cons, PixelDrag.dx, PixelDrag.dy] at h0 h1
    have hxe : FormValidation.jsSub p.gesture.last.clientX
        (FormValidation.jsSub p.gesture.down.clientX c.xOffset) = .ofInt (x0 + p.dx) := by
      have e1 : p.c - (p.a - x0) = x0 + p.dx := by simp only [PixelDrag.dx]; omega
      simp only [PixelDrag.gesture, pixelEvent, hx]
      rw [jsSub_ofInt p.a x0 (by omega), jsSub_ofInt p.c (p.a - x0) (by omega), e1]
    have hye : FormValidation.jsSub p.gesture.last.clientY
        (FormValidation.jsSub p.gesture.down.clientY c.yOffset) = .ofInt (y0 + p.dy) := by
      have e1 : p.d - (p.b - y0) = y0 + p.dy := by simp only [PixelDrag.dy]; omega
      simp only [PixelDrag.gesture, pixelEvent, hy]
      rw [jsSub_ofInt p.b y0 (by omega), jsSub_ofInt p.d (p.b - y0) (by omega), e1]
    rw [hxe] at g2 g6
    rw [hye] at g3 g6
    have hrun : FormValidation.runPointer formId (s, c)
          (FormValidation.gestureEvents ((p :: ps).map PixelDrag.gesture))
        = FormValidation.runPointer formId
            ((FormValidation.runPointer formId (s, c) p.gesture.events).1,
             (FormValidation.runPointer formId (s, c) p.gesture.events).2)
            (FormValidation.gestureEvents (ps.map PixelDrag.gesture)) := by
      simp only [List.map_cons, FormValidation.gestureEvents, runPointer_append]
    have hallowed2 :
        (FormValidation.runPointer formId (s, c) p.gesture.events).1.dragAllowed formId := by
      unfold Page.dragAllowed at hallowed ⊢
      rw [g4 formId]
      exact hallowed
    have hsum2 : ∀ qs ∈ ps.inits,
        (offsetXAfter (x0 + p.dx) qs).natAbs ≤ 2 ^ 52 ∧
        (offsetYAfter (y0 + p.dy) qs).natAbs ≤ 2 ^ 52 := by
      intro qs hqs
      have hmem : (p :: qs) ∈ (p :: ps).inits := by
        rw [List.mem_inits] at hqs ⊢
        exact (List.prefix_cons_inj p).2 hqs
      have := hsum (p :: qs) hmem
      rwa [offsetXAfter_cons, offsetYAfter_cons] at this
    obtain ⟨i1, i2, i3, i4⟩ := ih (FormValidation.runPointer formId (s, c) p.gesture.events).1
      (FormValidation.runPointer formId (s, c) p.gesture.events).2 (x0 + p.dx) (y0 + p.dy)
      hallowed2 g2 g3 (fun q hq => hdown q (List.mem_cons_of_mem _ hq)) hsum2
    rw [hrun, offsetXAfter_cons, offsetYAfter_cons]
    refine ⟨i1, i2, ?_, ?_⟩
    · intro _
      cases ps with
      | nil => simpa [FormValidation.gestureEvents, FormValidation.runPointer] using g1
      | cons q qs => exact i3 (List.cons_ne_nil _ _)
    · intro _ hform
      cases ps with
      | nil =>
        simpa [FormValidation.gestureEvents, FormValidation.runPointer, offsetXAfter,
          offsetYAfter] using g6 hform
      | cons q qs =>
        refine i4 (List.cons_ne_nil _ _) ?_
        rw [g5 formId]
        exact hform

/-- The text of the transform the drag writes for whole-pixel offsets up to `2^53`. -/
theorem templateText_translate (x y : Int) (hx : x.natAbs ≤ 2 ^ 53) (hy : y.natAbs ≤ 2 ^ 53) :
    templateText [.text "translate(calc(-50% + ", .num (.ofInt x),
        .text "px), calc(-50% + ", .num (.ofInt y), .text "px))"]
      = some ("translate(calc(-50% + " ++ toString x ++ "px), calc(-50% + " ++ toString y
          ++ "px))") := by
  simp [templateText, numberText_ofInt x hx, numberText_ofInt y hy, String.append_assoc]

theorem jsTrim_empty : FormValidation.jsTrim "" = "" := rfl

theorem hasValue_eq (v : String) :
    FormValidation.hasValue v = (FormValidation.jsTrim v != "") := by
  unfold FormValidation.hasValue
  by_cases h : v = ""
  · subst h; simp [jsTrim_empty]
  · simp [h]

theorem closeForm_hasData (s : Page) (formId : String) :
    (match s.doc (formId ++ "-form") with
      | some formElement => formElement.inputValues.any FormValidation.hasValue
      | none => false) = s.hasUnsavedData formId := by
  unfold Page.hasUnsavedData
  cases s.doc (formId ++ "-form") with
  | none => rfl
  | some el =>
    simp only
    congr 1
    funext v
    exact hasValue_eq v

theorem call_timers_mono (c : Call) (s : Page) (t : Timer) (h : t ∈ s.timers) :
    t ∈ (c.run s).timers := by
  have hmin : ∀ i, t ∈ (minimizeForm i s).timers := by
    intro i
    cases h1 : s.doc i with
    | none => simpa [minimizeForm, h1] using h
    | some form =>
      simp only [minimizeForm, h1, update_timers]
      cases h2 : s.doc ("modal-overlay-" ++ i) <;>
        cases h3 : s.minimizedForms.findIdx? (fun f => f.id == i) <;>
        simp only [Page.setTimeout, Page.modify]
      · exact mem_insertTimer_of_mem _ _ _ h
      · exact mem_insertTimer_of_mem _ _ _ h
      · exact mem_insertTimer_of_mem _ _ _ (mem_insertTimer_of_mem _ _ _ h)
      · exact mem_insertTimer_of_mem _ _ _ (mem_insertTimer_of_mem _ _ _ h)
  have hclose : ∀ i, t ∈ (closeFormOverlay i s).timers := by
    intro i
    cases h1 : s.doc i <;> cases h2 : s.doc ("modal-overlay-" ++ i) <;>
      simp only [closeFormOverlay, h1, h2, Page.setTimeout, Page.modify, update_timers]
    · exact mem_insertTimer_of_mem _ _ _ h
    · exact mem_insertTimer_of_mem _ _ _ (mem_insertTimer_of_mem _ _ _ h)
    · exact mem_insertTimer_of_mem _ _ _ (mem_insertTimer_of_mem _ _ _ h)
    · exact mem_insertTimer_of_mem _ _ _
        (mem_insertTimer_of_mem _ _ _ (mem_insertTimer_of_mem _ _ _ h))
  have hopen : ∀ i, t ∈ (openForm i s).timers := by
    intro i
    cases h1 : s.doc i with
    | none => simpa [openForm, h1] using h
    | some form =>
      cases h2 : s.doc ("modal-overlay-" ++ i) <;>
        simp only [openForm, h1, h2, Page.setTimeout, Page.requestAnimationFrame, Page.modify,
          update_timers, Option.isNone_none, Option.isSome_none, Option.isNone_some,
          Option.isSome_some, Bool.false_eq_true, if_true, if_false] <;>
        exact mem_insertTimer_of_mem _ _ _ h
  cases c with
  | openForm i => exact hopen i
  | minimizeForm i => exact hmin i
  | maximizeForm i =>
    show t ∈ (maximizeForm i s).timers
    cases h1 : s.doc i <;> simpa [maximizeForm, h1, Page.modify] using h
  | closeForm i => exact hclose i
  | closeFormOverlay i => exact hclose i
  | restoreForm i => exact hopen i
  | closeFormFromFooter i => exact hclose i

theorem findIdx?_beq_none_iff (l : List JsonItem) (x : JsonItem) :
    l.findIdx? (fun y => y == x) = none ↔ x ∉ l := by
  rw [List.findIdx?_eq_none_iff]
  constructor
  · intro h hx
    have := h x hx
    simp at this
  · intro h y hy
    by_cases hyx : y = x
    · subst hyx; exact absurd hy h
    · simpa using hyx

theorem eraseIdx_findIdx? (l : List JsonItem) (x : JsonItem) (i : Nat)
    (h : l.findIdx? (fun y => y == x) = some i) : l.eraseIdx i = l.erase x := by
  induction l generalizing i with
  | nil => simp at h
  | cons a l ih =>
    by_cases hax : a = x
    · subst hax
      simp at h
      subst h
      simp
    · have hbeq : (a == x) = false := by simpa using hax
      rw [List.findIdx?_cons] at h
      simp only [hbeq, Bool.false_eq_true, if_false] at h
      rw [List.findIdx?_succ] at h
      cases hj : l.findIdx? (fun y => y == x) with
      | none => simp [hj] at h
      | some j =>
        simp [hj] at h
        subst h
        rw [List.eraseIdx_cons_succ, ih j hj, List.erase_cons_tail]
        simpa using hax

theorem toggleSection_array (s : Page) (sectionId : String) (sectionEl : Element)
    (items : List JsonItem) (hd : s.doc ("section-" ++ sectionId) = some sectionEl)
    (hlist : Home.getExpandedSections s = .array items) :
    Home.toggleSection sectionId s =
      { s.modify ("section-" ++ sectionId) (fun e => { e with expanded := !sectionEl.expanded })
        with storedExpandedSections := .json (.array
          (if sectionEl.expanded = true then items.erase (.str sectionId)
           else if JsonItem.str sectionId ∈ items then items
           else items ++ [.str sectionId])) } := by
  have hlist1 : Home.getExpandedSections
      (s.modify ("section-" ++ sectionId) fun e => { e with expanded := !sectionEl.expanded })
      = .array items := hlist
  simp only [Home.toggleSection, hd, hlist1]
  cases hexp : sectionEl.expanded with
  | true =>
    simp only [Bool.not_true, Bool.false_eq_true, if_false, if_true]
    cases hidx : items.findIdx? (fun y => y == JsonItem.str sectionId) with
    | none =>
      have hnot := (findIdx?_beq_none_iff items (.str sectionId)).mp hidx
      simp only [List.erase_of_not_mem hnot]
    | some i =>
      simp only [eraseIdx_findIdx? items (.str sectionId) i hidx]
  | false =>
    simp only [Bool.not_false, if_true, Bool.false_eq_true, if_false]
    cases hidx : items.findIdx? (fun y => y == JsonItem.str sectionId) with
    | none =>
      have hnot := (findIdx?_beq_none_iff items (.str sectionId)).mp hidx
      simp only [hnot, if_false]
    | some i =>
      have hin : JsonItem.str sectionId ∈ items := by
        by_contra hc
        rw [(findIdx?_beq_none_iff items (.str sectionId)).mpr hc] at hidx
        cases hidx
      simp only [hin, if_true]

theorem dropLiteral_append (lit rest : List Char) :
    dropLiteral lit (lit ++ rest) = some rest := by
  have hp : lit.isPrefixOf (lit ++ rest) = true := by
    rw [List.isPrefixOf_iff_prefix]
    exact List.prefix_append _ _
  simp [dropLiteral, hp]

theorem takeWhile_append_stop (p : Char → Bool) (v : List Char) (c : Char) (t : List Char)
    (hv : v.all p = true) (hc : p c = false) : (v ++ c :: t).takeWhile p = v := by
  induction v with
  | nil => simp [List.takeWhile, hc]
  | cons a v ih =>
    simp only [List.all_cons, Bool.and_eq_true] at hv
    simp [List.takeWhile, hv.1, ih hv.2]

theorem dropWhile_append_stop (p : Char → Bool) (v : List Char) (c : Char) (t : List Char)
    (hv : v.all p = true) (hc : p c = false) : (v ++ c :: t).dropWhile p = c :: t := by
  induction v with
  | nil => simp [List.dropWhile, hc]
  | cons a v ih =>
    simp only [List.all_cons, Bool.and_eq_true] at hv
    simp [List.dropWhile, hv.1, ih hv.2]

set_option maxRecDepth 100000 in
theorem renderItem_data (form : MinimizedForm) :
    (renderItem form).data =
      rowHead.data ++ (form.icon.data ++ (rowIconToTitle.data ++ (form.title.data ++
        (rowTitleToRestore.data ++ ((handlerCall "restoreForm" form.id).data ++
          (rowRestoreToClose.data ++ ((handlerCall "closeFormFromFooter" form.id).data ++
            rowTail.data))))))) := by
  simp only [renderItem, rowHead, rowIconToTitle, rowTitleToRestore, rowRestoreToClose, rowTail,
    handlerCall, String.data_append]
  simp only [List.append_assoc, List.cons_append, List.nil_append]

theorem handlerCall_attrPlain (fn id : String)
    (hfn : fn.data.all (fun c => !isAttrSpecial c) = true)
    (hid : id.data.all (fun c => !isAttrSpecial c) = true) :
    (handlerCall fn id).data.all (fun c => !isAttrSpecial c) = true := by
  simp only [handlerCall, String.data_append, List.all_append, hfn, hid, Bool.and_true,
    Bool.true_and]
  decide

theorem callArgument_handlerCall (fn id : String)
    (hid : id.data.all (fun c => !isLiteralSpecial c) = true) :
    callArgument fn (handlerCall fn id).data = some id := by
  have hdata : (handlerCall fn id).data
      = (fn.data ++ ['(', '\'']) ++ (id.data ++ '\'' :: [')']) := by
    simp [handlerCall, String.data_append]
  have hstop : (fun c => !isLiteralSpecial c) '\'' = false := by decide
  simp only [callArgument, hdata, dropLiteral_append,
    dropWhile_append_stop _ id.data '\'' [')'] hid hstop,
    takeWhile_append_stop _ id.data '\'' [')'] hid hstop, if_true]

theorem takeWhile_append_lit (p : Char → Bool) (v lit rest : List Char)
    (hv : v.all p = true) (hlit : ∃ c t, lit = c :: t ∧ p c = false) :
    (v ++ (lit ++ rest)).takeWhile p = v := by
  obtain ⟨c, t, rfl, hc⟩ := hlit
  exact takeWhile_append_stop p v c (t ++ rest) hv hc

theorem dropWhile_append_lit (p : Char → Bool) (v lit rest : List Char)
    (hv : v.all p = true) (hlit : ∃ c t, lit = c :: t ∧ p c = false) :
    (v ++ (lit ++ rest)).dropWhile p = lit ++ rest := by
  obtain ⟨c, t, rfl, hc⟩ := hlit
  exact dropWhile_append_stop p v c (t ++ rest) hv hc

theorem readRow_renderItem (form : MinimizedForm) (rest : List Char)
    (hicon : form.icon.data.all (fun c => !isTextSpecial c) = true)
    (htitle : form.title.data.all (fun c => !isTextSpecial c) = true)
    (hid : form.id.data.all (fun c => !isAttrSpecial c) = true) :
    readRow ((renderItem form).data ++ rest) =
      some ({ icon := form.icon, title := form.title,
              restoreArg := callArgument "restoreForm" (handlerCall "restoreForm" form.id).data,
              closeArg :=
                callArgument "closeFormFromFooter"
                  (handlerCall "closeFormFromFooter" form.id).data },
            rest) := by
  have h2 : ∃ c t, rowIconToTitle.data = c :: t ∧ (fun c => !isTextSpecial c) c = false :=
    ⟨_, _, rfl, by decide⟩
  have h3 : ∃ c t, rowTitleToRestore.data = c :: t ∧ (fun c => !isTextSpecial c) c = false :=
    ⟨_, _, rfl, by decide⟩
  have h4 : ∃ c t, rowRestoreToClose.data = c :: t ∧ (fun c => !isAttrSpecial c) c = false :=
    ⟨_, _, rfl, by decide⟩
  have h5 : ∃ c t, rowTail.data = c :: t ∧ (fun c => !isAttrSpecial c) c = false :=
    ⟨_, _, rfl, by decide⟩
  have hr := handlerCall_attrPlain "restoreForm" form.id (by decide) hid
  have hcl := handlerCall_attrPlain "closeFormFromFooter" form.id (by decide) hid
  rw [renderItem_data]
  simp only [List.append_assoc]
  simp only [readRow, dropLiteral_append,
    dropWhile_append_lit _ _ _ _ hicon h2, takeWhile_append_lit _ _ _ _ hicon h2,
    dropWhile_append_lit _ _ _ _ htitle h3, takeWhile_append_lit _ _ _ _ htitle h3,
    dropWhile_append_lit _ _ _ _ hr h4, takeWhile_append_lit _ _ _ _ hr h4,
    dropWhile_append_lit _ _ _ _ hcl h5, takeWhile_append_lit _ _ _ _ hcl h5]

theorem plainEntry_parts (form : MinimizedForm) (h : plainEntry form = true) :
    form.icon.data.all (fun c => !isTextSpecial c) = true ∧
    form.title.data.all (fun c => !isTextSpecial c) = true ∧
    form.id.data.all (fun c => !isAttrSpecial c) = true ∧
    form.id.data.all (fun c => !isLiteralSpecial c) = true := by
  simp only [plainEntry, Bool.and_eq_true, List.all_eq_true] at h
  obtain ⟨⟨h1, h2⟩, h3⟩ := h
  refine ⟨List.all_eq_true.mpr h1, List.all_eq_true.mpr h2, ?_, ?_⟩
  · exact List.all_eq_true.mpr fun c hc => (h3 c hc).1
  · exact List.all_eq_true.mpr fun c hc => (h3 c hc).2

theorem readRow_plain (form : MinimizedForm) (rest : List Char) (h : plainEntry form = true) :
    readRow ((renderItem form).data ++ rest) = some (expectedRow form, rest) := by
  obtain ⟨h1, h2, h3, h4⟩ := plainEntry_parts form h
  rw [readRow_renderItem form rest h1 h2 h3, callArgument_handlerCall _ _ h4,
    callArgument_handlerCall _ _ h4]
  rfl

theorem renderItem_data_cons (form : MinimizedForm) :
    ∃ c t, (renderItem form).data = c :: t := by
  rw [renderItem_data]
  exact ⟨_, _, rfl⟩

theorem readRowsAux_rows (l : List MinimizedForm) (fuel : Nat) (hfuel : l.length ≤ fuel)
    (hplain : ∀ f ∈ l, plainEntry f = true) :
    readRowsAux fuel (joinEmpty (l.map renderItem)).data = some (l.map expectedRow) := by
  induction l generalizing fuel with
  | nil => cases fuel <;> rfl
  | cons f l ih =>
    cases fuel with
    | zero => simp at hfuel
    | succ fuel =>
      have hdata : (joinEmpty ((f :: l).map renderItem)).data
          = (renderItem f).data ++ (joinEmpty (l.map renderItem)).data := by
        simp [joinEmpty, String.data_append]
      obtain ⟨c, t, hct⟩ := renderItem_data_cons f
      have hrow := readRow_plain f (joinEmpty (l.map renderItem)).data
        (hplain f (List.mem_cons_self _ _))
      rw [hdata] at *
      rw [hct] at hrow ⊢
      simp only [List.cons_append] at hrow ⊢
      simp only [readRowsAux, hrow]
      rw [ih fuel (by simpa using hfuel) fun g hg => hplain g (List.mem_cons_of_mem _ hg)]
      rfl

theorem length_le_joinEmpty (l : List MinimizedForm) :
    l.length ≤ (joinEmpty (l.map renderItem)).length := by
  induction l with
  | nil => simp
  | cons f l ih =>
    obtain ⟨c, t, hct⟩ := renderItem_data_cons f
    have h1 : 1 ≤ (renderItem f).length := by
      simp [String.length, hct]
    simp only [List.map_cons, joinEmpty, String.length_append, List.length_cons]
    omega

theorem readRows_rows (l : List MinimizedForm) (hplain : ∀ f ∈ l, plainEntry f = true) :
    readRows (joinEmpty (l.map renderItem)) = some (l.map expectedRow) :=
  readRowsAux_rows l _ (length_le_joinEmpty l) hplain

end Basic

/-! ## The claims -/

/-- C1 (as stated) fails: on the sample page, `minimizeForm` with an identifier that has
no form element is the last call for it and creates no entry; and after
`minimizeForm "f1"`, `maximizeForm "f1"` the last call for `f1` is not a `minimizeForm`
although `f1` keeps its entry. -/
theorem C1_counterexample :
    ¬ ("ghost" ∈ (runEvents samplePage [.call (.minimizeForm "ghost")]).registryIds ↔
        lastCallIsMinimize "ghost" [.minimizeForm "ghost"] = true) ∧
    ¬ ("f1" ∈ (runEvents samplePage
          [.call (.minimizeForm "f1"), .call (.maximizeForm "f1")]).registryIds ↔
        lastCallIsMinimize "f1" [.minimizeForm "f1", .maximizeForm "f1"] = true) := by
  constructor <;> decide

/-- C1 (amended): started from an empty registry, after any sequence of lifecycle calls
(timers and frames firing in between), a form `x` whose element is in the document has a
registry entry if and only if the most recent call for `x` other than `maximizeForm` is
`minimizeForm x`. -/
theorem C1_entry_iff_minimized_last (s : Page) (es : List Event) (x : String)
    (hempty : s.minimizedForms = []) (hx : s.hasElement x = true) :
    x ∈ (runEvents s es).registryIds ↔ minimizedLast x es = true :=
  runEvents_trackMinimized es s x false hx (by simp [Page.registryIds, hempty])

/-- Witness of C1 (amended) on the sample page. -/
theorem C1_entry_iff_minimized_last_witness :
    samplePage.minimizedForms = [] ∧ samplePage.hasElement "f1" = true ∧
    ("f1" ∈ (runEvents samplePage
        [.call (.openForm "f1"), .call (.minimizeForm "f1"), .frame,
         .call (.maximizeForm "f1")]).registryIds ↔
      minimizedLast "f1"
        [.call (.openForm "f1"), .call (.minimizeForm "f1"), .frame,
         .call (.maximizeForm "f1")] = true) :=
  ⟨rfl, rfl, C1_entry_iff_minimized_last samplePage _ "f1" rfl rfl⟩

/-- C2: in every state reached from a page with an empty registry by any sequence of
lifecycle calls (with timers and animation frames firing anywhere in between), no two
entries of `minimizedForms` have the same id. -/
theorem C2_registry_ids_nodup (s : Page) (es : List Event) (h : s.minimizedForms = []) :
    (runEvents s es).registryIds.Nodup :=
  runEvents_registry_nodup es s (by simp [Page.registryIds, h])

/-- Witness of C2 on the sample page: minimize `f1` twice, `f2`, restore `f1`, minimize it
again. -/
theorem C2_registry_ids_nodup_witness :
    samplePage.minimizedForms = [] ∧
    (runEvents samplePage
      [.call (.minimizeForm "f1"), .call (.minimizeForm "f1"), .call (.minimizeForm "f2"),
       .call (.restoreForm "f1"), .advance 300, .call (.minimizeForm "f1")]).registryIds.Nodup :=
  ⟨rfl, C2_registry_ids_nodup samplePage _ rfl⟩

/-- C3 (as stated) fails: after `openForm "f1"`, `minimizeForm "f1"` on the sample page the
form `f1` has a registry entry while its `data-state` is `normal`, not `minimized`, also
once the hide timers have fired. -/
theorem C3_counterexample :
    ¬ ("f1" ∈ (runEvents samplePage
          [.call (.openForm "f1"), .call (.minimizeForm "f1"), .advance 300]).registryIds ↔
        (runEvents samplePage
          [.call (.openForm "f1"), .call (.minimizeForm "f1"), .advance 300]).dataStateOf "f1"
          = some "minimized") ∧
    (runEvents samplePage
      [.call (.openForm "f1"), .call (.minimizeForm "f1"), .advance 300]).dataStateOf "f1"
      = some "normal" := by
  constructor <;> decide

/-- C3 (amended): `minimizeForm` of universal_form.js on an existing form gives the form a
registry entry and leaves every `data-state` attribute as it was; `minimizeForm` of
form-validation.js, which has no registry, sets the `data-state` of a form in state
`normal` or `maximized` to `minimized`. -/
theorem C3_minimize_entry_and_state (s : Page) (formId : String)
    (h : s.hasElement formId = true) :
    formId ∈ (UniversalForm.minimizeForm formId s).registryIds ∧
    (∀ k, (UniversalForm.minimizeForm formId s).dataStateOf k = s.dataStateOf k) ∧
    (s.dataStateOf formId = some "normal" ∨ s.dataStateOf formId = some "maximized" →
      (FormValidation.minimizeForm formId s).dataStateOf formId = some "minimized" ∧
      (FormValidation.minimizeForm formId s).minimizedForms = s.minimizedForms) := by
  refine ⟨minimizeForm_mem_registryIds formId s h, minimizeForm_dataStateOf formId s, ?_⟩
  intro hst
  cases hd : s.doc formId with
  | none => simp [Page.hasElement, hd] at h
  | some form =>
    have hne : form.dataState ≠ some "minimized" := by
      intro hm
      rcases hst with h1 | h1 <;> simp [Page.dataStateOf, hd, hm] at h1
    have hov := suffixOverlayId_ne formId
    simp [FormValidation.minimizeForm, hd, hne, Page.dataStateOf, Page.modify, modifyElement,
      hov.symm]

/-- Witness of C3 (amended) on the sample page. -/
theorem C3_minimize_entry_and_state_witness :
    samplePage.hasElement "f1" = true ∧
    "f1" ∈ (UniversalForm.minimizeForm "f1" samplePage).registryIds ∧
    (∀ k, (UniversalForm.minimizeForm "f1" samplePage).dataStateOf k = samplePage.dataStateOf k) ∧
    (samplePage.dataStateOf "f1" = some "normal" ∨
        samplePage.dataStateOf "f1" = some "maximized" →
      (FormValidation.minimizeForm "f1" samplePage).dataStateOf "f1" = some "minimized" ∧
      (FormValidation.minimizeForm "f1" samplePage).minimizedForms = samplePage.minimizedForms) :=
  ⟨rfl, C3_minimize_entry_and_state samplePage "f1" rfl⟩

/-- C4 at the failing input: on a page whose footer nodes are not in the document yet,
`minimizeForm "f1"` registers `f1` but the footer refresh only creates the footer and
returns: the footer is not set to `block` and the container stays empty.  With the footer
nodes in the document the same call shows the footer. -/
theorem C4_first_refresh_renders_nothing :
    (UniversalForm.minimizeForm "f1" pageWithoutFooter).registryIds = ["f1"] ∧
    (UniversalForm.minimizeForm "f1" pageWithoutFooter).displayOf "minimizedFormsFooter"
      = some "" ∧
    ((UniversalForm.minimizeForm "f1" pageWithoutFooter).doc "minimizedFormsContainer").map
      (fun e => e.innerHTML) = some "" ∧
    (UniversalForm.minimizeForm "f1" samplePage).displayOf "minimizedFormsFooter"
      = some "block" := by
  refine ⟨by decide, by decide, by decide, by decide⟩

/-- C5 (as stated) fails: on a form in `data-state="minimized"`, `maximizeForm` of either
script sets the state to `maximized`. -/
theorem C5_counterexample :
    (UniversalForm.maximizeForm "f1" minimizedStatePage).dataStateOf "f1" ≠ some "minimized" ∧
    (FormValidation.maximizeForm "f1" minimizedStatePage).dataStateOf "f1" ≠ some "minimized" := by
  constructor <;> decide

/-- C5 (amended): for an existing form whose `data-state` is `minimized`, `maximizeForm`
(of either script) sets the `data-state` of that form to `maximized` and changes nothing
else: the other attributes of the form, the other elements and the rest of the page state
are as before. -/
theorem C5_maximize_from_minimized (s : Page) (formId : String) (form : Element)
    (hform : s.doc formId = some form) (hstate : form.dataState = some "minimized") :
    (UniversalForm.maximizeForm formId s).doc formId
      = some { form with dataState := some "maximized" } ∧
    (∀ k, k ≠ formId → (UniversalForm.maximizeForm formId s).doc k = s.doc k) ∧
    { UniversalForm.maximizeForm formId s with doc := s.doc } = s ∧
    FormValidation.maximizeForm formId s = UniversalForm.maximizeForm formId s := by
  have hne : form.dataState ≠ some "maximized" := by
    rw [hstate]; decide
  refine ⟨?_, ?_, ?_, ?_⟩
  · simp [UniversalForm.maximizeForm, hform, hne, Page.modify, modifyElement]
  · intro k hk
    simp [UniversalForm.maximizeForm, hform, Page.modify, modifyElement, hk]
  · simp [UniversalForm.maximizeForm, hform, Page.modify]
  · simp [UniversalForm.maximizeForm, FormValidation.maximizeForm, hform, hne]

/-- Witness of C5 (amended) on the page with `f1` in `data-state="minimized"`. -/
theorem C5_maximize_from_minimized_witness :
    minimizedStatePage.doc "f1" = some { dataState := some "minimized" } ∧
    (UniversalForm.maximizeForm "f1" minimizedStatePage).doc "f1"
      = some { dataState := some "maximized" } :=
  ⟨rfl, (C5_maximize_from_minimized minimizedStatePage "f1" { dataState := some "minimized" }
    rfl rfl).1⟩

/-- C6 (as stated) fails: once `closeForm "f1"` has run on the sample page and its 300 ms
hide timer has fired, the `data-state` of `f1` is `closed`, not `hidden`. -/
theorem C6_counterexample :
    (runEvents samplePage [.call (.closeForm "f1"), .advance 300]).dataStateOf "f1"
      ≠ some "hidden" ∧
    (runEvents samplePage [.call (.closeForm "f1"), .advance 300]).dataStateOf "f1"
      = some "closed" := by
  constructor <;> decide

/-- C6 (amended): for every existing form, once `closeFormOverlay` of universal_form.js has
run and at least 300 ms have passed, the `data-state` of the form is `closed`, the registry
has no entry for the form and is the previous registry without that entry, the other
entries in their order; `closeForm` of form-validation.js, which has no registry, is the
one that sets `data-state` to `hidden` (at once, when the user confirms or nothing is
unsaved). -/
theorem C6_close_completed (s : Page) (formId : String) (ms : Nat)
    (hform : s.hasElement formId = true) (hms : 300 ≤ ms) :
    (advance ms (closeFormOverlay formId s)).dataStateOf formId = some "closed" ∧
    (advance ms (closeFormOverlay formId s)).minimizedForms
      = s.minimizedForms.filter (fun f => f.id != formId) ∧
    formId ∉ (advance ms (closeFormOverlay formId s)).registryIds ∧
    (FormValidation.closeForm formId true s).dataStateOf formId = some "hidden" ∧
    (FormValidation.closeForm formId true s).minimizedForms = s.minimizedForms := by
  have hreg : (advance ms (closeFormOverlay formId s)).minimizedForms
      = s.minimizedForms.filter (fun f => f.id != formId) := by
    rw [advance_minimizedForms, closeFormOverlay_minimizedForms]
  have hov := suffixOverlayId_ne formId
  refine ⟨?_, hreg, ?_, ?_, ?_⟩
  · refine advance_closeHide ms _ formId (s.now + 300)
      (closeFormOverlay_closeHide_mem formId s hform) ?_
      (closeFormOverlay_hasElement formId s formId hform)
    rw [closeFormOverlay_now]; omega
  · unfold Page.registryIds
    rw [hreg, mem_registryIds_filter]
    exact fun h => h.1 rfl
  · cases hd : s.doc formId with
    | none => simp [Page.hasElement, hd] at hform
    | some form =>
      unfold FormValidation.closeForm
      simp only [Bool.not_true, Bool.false_eq_true, if_false]
      split_ifs <;> simp [Page.dataStateOf, Page.modify, modifyElement, hd, hov.symm]
  · unfold FormValidation.closeForm
    simp only [Bool.not_true, Bool.false_eq_true, if_false]
    split_ifs <;> simp [Page.modify]

/-- Witness of C6 (amended) on the sample page. -/
theorem C6_close_completed_witness :
    samplePage.hasElement "f1" = true ∧ 300 ≤ 300 ∧
    (advance 300 (closeFormOverlay "f1" samplePage)).dataStateOf "f1" = some "closed" :=
  ⟨rfl, Nat.le_refl 300, (C6_close_completed samplePage "f1" 300 rfl (Nat.le_refl 300)).1⟩

/-- C7: for an existing form, the registry after `minimizeForm` is the registry itself when
it already has an entry for the form, and otherwise the registry with the one entry
`(id, title, icon)` appended, where title and icon are the texts of the form, or `Form` and
the default glyph when the title or icon node is absent (or its text empty); hence
minimizing `f1` and then another existing form `f2` from the empty registry yields the
order `[f1, f2]`. -/
theorem C7_minimize_registry (s : Page) (formId : String) (form : Element)
    (hform : s.doc formId = some form) :
    (minimizeForm formId s).minimizedForms =
      (if formId ∈ s.registryIds then s.minimizedForms
       else s.minimizedForms ++
        [{ id := formId, title := orDefault form.titleText "Form",
           icon := orDefault form.iconText "📝" }]) ∧
    (form.titleText = none → orDefault form.titleText "Form" = "Form") ∧
    (form.iconText = none → orDefault form.iconText "📝" = "📝") ∧
    (∀ t, form.titleText = some t → t ≠ "" → orDefault form.titleText "Form" = t) ∧
    (∀ t, form.iconText = some t → t ≠ "" → orDefault form.iconText "📝" = t) ∧
    (∀ f2, s.minimizedForms = [] → s.hasElement f2 = true → f2 ≠ formId →
      (minimizeForm f2 (minimizeForm formId s)).registryIds = [formId, f2]) := by
  have hfirst : (minimizeForm formId s).minimizedForms =
      (if formId ∈ s.registryIds then s.minimizedForms
       else s.minimizedForms ++
        [{ id := formId, title := orDefault form.titleText "Form",
           icon := orDefault form.iconText "📝" }]) := by
    rw [minimizeForm_minimizedForms, hform]
  refine ⟨hfirst, ?_, ?_, ?_, ?_, ?_⟩
  · intro h; simp [h, orDefault]
  · intro h; simp [h, orDefault]
  · intro t h ht; simp [h, orDefault, ht]
  · intro t h ht; simp [h, orDefault, ht]
  · intro f2 hempty hf2 hne
    have hreg1 : (minimizeForm formId s).registryIds = [formId] := by
      simp [Page.registryIds, hfirst, hempty]
    have hex : ((minimizeForm formId s).doc f2).isSome :=
      minimizeForm_hasElement formId s f2 hf2
    cases hd : (minimizeForm formId s).doc f2 with
    | none => simp [hd] at hex
    | some form2 =>
      have hnot : f2 ∉ (minimizeForm formId s).registryIds := by
        simp [hreg1, hne]
      have hreg2 := minimizeForm_minimizedForms f2 (minimizeForm formId s)
      simp only [hd, hnot, if_false] at hreg2
      simp only [Page.registryIds] at hreg1 ⊢
      rw [hreg2, List.map_append, hreg1]
      rfl

/-- Witness of C7 on the sample page: `f1` gets the entry with its title and icon. -/
theorem C7_minimize_registry_witness :
    samplePage.doc "f1" =
      some { dataState := some "normal", titleText := some "Customer", iconText := some "👤" } ∧
    (minimizeForm "f1" samplePage).minimizedForms =
      [{ id := "f1", title := "Customer", icon := "👤" }] ∧
    (minimizeForm "f2" (minimizeForm "f1" samplePage)).registryIds = ["f1", "f2"] :=
  ⟨rfl,
   (C7_minimize_registry samplePage "f1"
      { dataState := some "normal", titleText := some "Customer", iconText := some "👤" } rfl).1,
   (C7_minimize_registry samplePage "f1"
      { dataState := some "normal", titleText := some "Customer", iconText := some "👤" }
      rfl).2.2.2.2.2 "f2" rfl rfl (by decide)⟩

/-- C8: when the form and its backdrop exist, right after `openForm` the registry is the
previous registry without the entry of the form (the other entries in their order), body
scrolling is blocked, the `data-state` of the form is `normal`, the form is displayed
`flex` and the backdrop `block`. -/
theorem C8_open_effects (s : Page) (formId : String)
    (hform : s.hasElement formId = true)
    (hoverlay : s.hasElement ("modal-overlay-" ++ formId) = true) :
    (openForm formId s).minimizedForms = s.minimizedForms.filter (fun f => f.id != formId) ∧
    (openForm formId s).bodyOverflow = "hidden" ∧
    (openForm formId s).dataStateOf formId = some "normal" ∧
    (openForm formId s).displayOf formId = some "flex" ∧
    (openForm formId s).displayOf ("modal-overlay-" ++ formId) = some "block" := by
  obtain ⟨h1, h2, h3, h4, h5⟩ := openForm_effects s formId hform
  exact ⟨h1, h2, h3, h4, h5 hoverlay⟩

/-- Witness of C8: opening the form `f1` of the sample page. -/
theorem C8_open_effects_witness :
    samplePage.hasElement "f1" = true ∧ samplePage.hasElement ("modal-overlay-" ++ "f1") = true ∧
    (openForm "f1" samplePage).dataStateOf "f1" = some "normal" ∧
    (openForm "f1" samplePage).displayOf "f1" = some "flex" :=
  ⟨rfl, rfl, (C8_open_effects samplePage "f1" rfl rfl).2.2.1,
    (C8_open_effects samplePage "f1" rfl rfl).2.2.2.1⟩

/-- C9 (as stated) fails: on a page where `f1` has no backdrop node, `openForm "f1"` does
not abort: the entry of `f1` leaves the registry, scrolling is blocked, and the state and
display of the form change. -/
theorem C9_counterexample :
    pageWithoutOverlay.hasElement "modal-overlay-f1" = false ∧
    (openForm "f1" pageWithoutOverlay).minimizedForms ≠ pageWithoutOverlay.minimizedForms ∧
    (openForm "f1" pageWithoutOverlay).bodyOverflow ≠ pageWithoutOverlay.bodyOverflow ∧
    (openForm "f1" pageWithoutOverlay).dataStateOf "f1" ≠ pageWithoutOverlay.dataStateOf "f1" ∧
    (openForm "f1" pageWithoutOverlay).displayOf "f1" ≠ pageWithoutOverlay.displayOf "f1" ∧
    (openForm "f1" pageWithoutOverlay).displayOf "minimizedFormsFooter"
      ≠ pageWithoutOverlay.displayOf "minimizedFormsFooter" := by
  refine ⟨by decide, by decide, by decide, by decide, by decide, by decide⟩

/-- C9 (amended): `openForm` requires the form only.  Without the form element it reports an
error and aborts, the page unchanged apart from the diagnostic.  With the form but without
the element `modal-overlay-{id}` it reports an error and goes on: the entry of the form
leaves the registry, scrolling is blocked, the `data-state` becomes `normal` and the form is
displayed `flex`. -/
theorem C9_open_requires_form_only (s : Page) (formId : String) :
    (s.hasElement formId = false →
      openForm formId s =
        { s with errors := s.errors ++ ["❌ Form element not found: " ++ formId] }) ∧
    (s.hasElement formId = true → s.hasElement ("modal-overlay-" ++ formId) = false →
      (openForm formId s).errors =
        s.errors ++ ["❌ Overlay element not found: " ++ ("modal-overlay-" ++ formId)] ∧
      (openForm formId s).minimizedForms
        = s.minimizedForms.filter (fun f => f.id != formId) ∧
      (openForm formId s).bodyOverflow = "hidden" ∧
      (openForm formId s).dataStateOf formId = some "normal" ∧
      (openForm formId s).displayOf formId = some "flex") := by
  constructor
  · intro h
    cases hd : s.doc formId with
    | none => simp [openForm, hd]
    | some form => simp [Page.hasElement, hd] at h
  · intro hform hov
    obtain ⟨h1, h2, h3, h4, _⟩ := openForm_effects s formId hform
    refine ⟨openForm_errors_without_overlay formId s hform ?_, h1, h2, h3, h4⟩
    cases hd : s.doc ("modal-overlay-" ++ formId) with
    | none => rfl
    | some ov => simp [Page.hasElement, hd] at hov

/-- Witness of C9 (amended): the abort for an identifier without form, and the completed
`openForm` for the form without backdrop. -/
theorem C9_open_requires_form_only_witness :
    (pageWithoutOverlay.hasElement "ghost" = false ∧
      openForm "ghost" pageWithoutOverlay =
        { pageWithoutOverlay with
          errors := pageWithoutOverlay.errors ++ ["❌ Form element not found: " ++ "ghost"] }) ∧
    (pageWithoutOverlay.hasElement "f1" = true ∧
      pageWithoutOverlay.hasElement ("modal-overlay-" ++ "f1") = false ∧
      (openForm "f1" pageWithoutOverlay).bodyOverflow = "hidden") :=
  ⟨⟨rfl, (C9_open_requires_form_only pageWithoutOverlay "ghost").1 rfl⟩,
   ⟨rfl, rfl, ((C9_open_requires_form_only pageWithoutOverlay "f1").2 rfl rfl).2.2.1⟩⟩

/-- C10 (as stated) fails: for the identifier `ghost`, which has no form element,
`closeFormOverlay` unblocks scrolling, has the hook called once its timer fires, and
removes the registry entry of `ghost`. -/
theorem C10_counterexample :
    hookPage.hasElement "ghost" = false ∧
    (runEvents hookPage [.call (.openForm "f2"), .call (.closeFormOverlay "ghost")]).bodyOverflow
      ≠ (runEvents hookPage [.call (.openForm "f2")]).bodyOverflow ∧
    (runEvents hookPage
      [.call (.openForm "f2"), .call (.closeFormOverlay "ghost"), .advance 350]).hookCalls
      = ["ghost"] ∧
    (closeFormOverlay "ghost" staleEntryPage).minimizedForms ≠ staleEntryPage.minimizedForms := by
  refine ⟨by decide, by decide, by decide, by decide⟩

/-- C10 (amended): not every lifecycle operation aborts when the form node is absent.
For an identifier without form element, `minimizeForm` and `openForm` abort (page unchanged
apart from the logged diagnostic) and `maximizeForm` does nothing, but `closeFormOverlay`
goes on: it removes the entry of the identifier from the registry, sets the body overflow
to the empty string and schedules the `customCloseFormOverlay` hook 350 ms later, which is
then called with the identifier when the page supplies it. -/
theorem C10_missing_form (s : Page) (formId : String) (h : s.hasElement formId = false) :
    minimizeForm formId s = { s with errors := s.errors ++ ["❌ Form not found: " ++ formId] } ∧
    openForm formId s =
      { s with errors := s.errors ++ ["❌ Form element not found: " ++ formId] } ∧
    maximizeForm formId s = s ∧
    (closeFormOverlay formId s).minimizedForms
      = s.minimizedForms.filter (fun f => f.id != formId) ∧
    (closeFormOverlay formId s).bodyOverflow = "" ∧
    (⟨s.now + 350, .customClose formId⟩ : Timer) ∈ (closeFormOverlay formId s).timers ∧
    (s.hookDefined = true → formId ∈ (advance 350 (closeFormOverlay formId s)).hookCalls) := by
  have hd : s.doc formId = none := by
    cases hd : s.doc formId with
    | none => rfl
    | some form => simp [Page.hasElement, hd] at h
  refine ⟨by simp [minimizeForm, hd], by simp [openForm, hd], by simp [maximizeForm, hd],
    closeFormOverlay_minimizedForms formId s, closeFormOverlay_bodyOverflow formId s,
    closeFormOverlay_customClose_mem formId s, ?_⟩
  intro hh
  refine advance_customClose 350 _ formId (s.now + 350)
    (closeFormOverlay_customClose_mem formId s) ?_ ?_
  · rw [closeFormOverlay_now]
  · rw [closeFormOverlay_hookDefined]; exact hh

/-- Witness of C10 (amended) on the page with a stale entry for `ghost`. -/
theorem C10_missing_form_witness :
    staleEntryPage.hasElement "ghost" = false ∧
    (closeFormOverlay "ghost" staleEntryPage).minimizedForms = [] ∧
    (closeFormOverlay "ghost" staleEntryPage).bodyOverflow = "" ∧
    "ghost" ∈ (advance 350 (closeFormOverlay "ghost" staleEntryPage)).hookCalls :=
  ⟨rfl, (C10_missing_form staleEntryPage "ghost" rfl).2.2.2.1,
    (C10_missing_form staleEntryPage "ghost" rfl).2.2.2.2.1,
    (C10_missing_form staleEntryPage "ghost" rfl).2.2.2.2.2.2 rfl⟩

/-- C11: `minimizeForm` with an identifier that has no form element aborts: the registry,
the document (so the footer), the body overflow and the pending timers and frames are as
before, only the diagnostic is logged.  When the form exists and its backdrop does not,
`minimizeForm` completes: the form has a registry entry afterwards, its hide timer is
pending and the body overflow is reset. -/
theorem C11_minimize_requires_form_only (s : Page) (formId : String) :
    (s.hasElement formId = false →
      (minimizeForm formId s).minimizedForms = s.minimizedForms ∧
      (minimizeForm formId s).doc = s.doc ∧
      (minimizeForm formId s).bodyOverflow = s.bodyOverflow ∧
      (minimizeForm formId s).timers = s.timers ∧
      (minimizeForm formId s).frames = s.frames ∧
      (minimizeForm formId s).errors = s.errors ++ ["❌ Form not found: " ++ formId]) ∧
    (s.hasElement formId = true → s.hasElement ("modal-overlay-" ++ formId) = false →
      formId ∈ (minimizeForm formId s).registryIds ∧
      (s.minimizedForms = [] → (minimizeForm formId s).registryIds = [formId]) ∧
      (⟨s.now + 300, .hideForm formId⟩ : Timer) ∈ (minimizeForm formId s).timers ∧
      (minimizeForm formId s).bodyOverflow = "") := by
  constructor
  · intro h
    cases hd : s.doc formId with
    | none => simp [minimizeForm, hd]
    | some form => simp [Page.hasElement, hd] at h
  · intro hform _
    refine ⟨minimizeForm_mem_registryIds formId s hform, ?_,
      minimizeForm_hideForm_mem formId s hform, minimizeForm_bodyOverflow formId s hform⟩
    intro hempty
    cases hd : s.doc formId with
    | none => simp [Page.hasElement, hd] at hform
    | some form =>
      simp [Page.registryIds, minimizeForm_minimizedForms, hd, hempty]

/-- Witness of C11: the abort for an identifier without form element, and the completed
`minimizeForm` of a form without backdrop. -/
theorem C11_minimize_requires_form_only_witness :
    (staleEntryPage.hasElement "ghost" = false ∧
      (minimizeForm "ghost" staleEntryPage).minimizedForms = staleEntryPage.minimizedForms ∧
      (minimizeForm "ghost" staleEntryPage).bodyOverflow = staleEntryPage.bodyOverflow) ∧
    (pageWithoutOverlay.hasElement "f1" = true ∧
      pageWithoutOverlay.hasElement ("modal-overlay-" ++ "f1") = false ∧
      "f1" ∈ (minimizeForm "f1" pageWithoutOverlay).registryIds) :=
  ⟨⟨rfl, ((C11_minimize_requires_form_only staleEntryPage "ghost").1 rfl).1,
      ((C11_minimize_requires_form_only staleEntryPage "ghost").1 rfl).2.2.1⟩,
   ⟨rfl, rfl, ((C11_minimize_requires_form_only pageWithoutOverlay "f1").2 rfl rfl).1⟩⟩

/-- C13: `restoreForm` is `openForm`, and `closeForm` and `closeFormFromFooter` are
`closeFormOverlay`: for every page and identifier the resulting page is the same, the
pending timers and animation-frame callbacks included. -/
theorem C13_aliases_equivalent (s : Page) (formId : String) :
    restoreForm formId s = openForm formId s ∧
    (restoreForm formId s).timers = (openForm formId s).timers ∧
    (restoreForm formId s).frames = (openForm formId s).frames ∧
    UniversalForm.closeForm formId s = closeFormOverlay formId s ∧
    closeFormFromFooter formId s = closeFormOverlay formId s ∧
    (closeFormFromFooter formId s).timers = (closeFormOverlay formId s).timers :=
  ⟨rfl, rfl, rfl, rfl, rfl, rfl⟩

/-- C20: the body overflow is set by the last call alone: `openForm` on an existing form
sets it to `hidden`; `minimizeForm` on an existing form and `closeFormOverlay` on any
identifier set it to the empty string and leave the `data-state` of every element, so also
of the forms that are still open, as it was. -/
theorem C20_scroll_lock_last_call (s : Page) (formId : String) :
    (s.hasElement formId = true → (openForm formId s).bodyOverflow = "hidden") ∧
    (s.hasElement formId = true →
      (minimizeForm formId s).bodyOverflow = "" ∧
      ∀ k, (minimizeForm formId s).dataStateOf k = s.dataStateOf k) ∧
    ((closeFormOverlay formId s).bodyOverflow = "" ∧
      ∀ k, (closeFormOverlay formId s).dataStateOf k = s.dataStateOf k) := by
  refine ⟨fun h => (openForm_effects s formId h).2.1,
    fun h => ⟨minimizeForm_bodyOverflow formId s h, minimizeForm_dataStateOf formId s⟩,
    closeFormOverlay_bodyOverflow formId s, closeFormOverlay_dataStateOf formId s⟩

/-- Witness of C20: with `f1` and `f2` open on the sample page, minimizing `f2` frees
scrolling although `f1` is still open in state `normal`. -/
theorem C20_scroll_lock_last_call_witness :
    (openForm "f2" (openForm "f1" samplePage)).hasElement "f2" = true ∧
    (openForm "f2" (openForm "f1" samplePage)).bodyOverflow = "hidden" ∧
    (minimizeForm "f2" (openForm "f2" (openForm "f1" samplePage))).bodyOverflow = "" ∧
    (minimizeForm "f2" (openForm "f2" (openForm "f1" samplePage))).dataStateOf "f1"
      = some "normal" ∧
    (minimizeForm "f2" (openForm "f2" (openForm "f1" samplePage))).displayOf "f1"
      = some "flex" :=
  ⟨by decide, by decide,
   ((C20_scroll_lock_last_call (openForm "f2" (openForm "f1" samplePage)) "f2").2.1
      (by decide)).1,
   by decide, by decide⟩

/-- C12 (as stated) fails: `maximizeForm` is a toggle, so on the form `f1` of the sample
page the second call undoes the first; `minimizeForm` of form-validation.js toggles in the
same way.  And on a page without footer nodes a second `minimizeForm "f1"` shows the
footer that the first call only created. -/
theorem C12_counterexample :
    (UniversalForm.maximizeForm "f1" (UniversalForm.maximizeForm "f1" samplePage)).dataStateOf "f1"
      ≠ (UniversalForm.maximizeForm "f1" samplePage).dataStateOf "f1" ∧
    (FormValidation.minimizeForm "f1" (FormValidation.minimizeForm "f1" samplePage)).dataStateOf
        "f1"
      ≠ (FormValidation.minimizeForm "f1" samplePage).dataStateOf "f1" ∧
    (UniversalForm.minimizeForm "f1" (UniversalForm.minimizeForm "f1" pageWithoutFooter)).displayOf
        "minimizedFormsFooter"
      ≠ (UniversalForm.minimizeForm "f1" pageWithoutFooter).displayOf "minimizedFormsFooter" := by
  refine ⟨by decide, by decide, by decide⟩

/-- C12 (amended): on a page whose footer container is in the document, `openForm`,
`restoreForm`, `minimizeForm` and `closeForm` of universal_form.js are idempotent on the
document (data-state, display, classes, footer), the registry and the body overflow: a
repeated call only queues its callbacks and logs its diagnostics again.  `maximizeForm` (of
either script) and `minimizeForm` of form-validation.js are toggles: on an existing form the
second call always changes the `data-state` the first call left. -/
theorem C12_idempotent_except_toggles (s : Page) (formId : String)
    (hc : s.hasElement "minimizedFormsContainer" = true) :
    (UniversalForm.openForm formId (UniversalForm.openForm formId s)).sameView
      (UniversalForm.openForm formId s) ∧
    (restoreForm formId (restoreForm formId s)).sameView (restoreForm formId s) ∧
    (UniversalForm.minimizeForm formId (UniversalForm.minimizeForm formId s)).sameView
      (UniversalForm.minimizeForm formId s) ∧
    (UniversalForm.closeForm formId (UniversalForm.closeForm formId s)).sameView
      (UniversalForm.closeForm formId s) ∧
    (s.hasElement formId = true →
      (UniversalForm.maximizeForm formId (UniversalForm.maximizeForm formId s)).dataStateOf formId
        ≠ (UniversalForm.maximizeForm formId s).dataStateOf formId ∧
      (FormValidation.maximizeForm formId (FormValidation.maximizeForm formId s)).dataStateOf
          formId
        ≠ (FormValidation.maximizeForm formId s).dataStateOf formId ∧
      (FormValidation.minimizeForm formId (FormValidation.minimizeForm formId s)).dataStateOf
          formId
        ≠ (FormValidation.minimizeForm formId s).dataStateOf formId) := by
  refine ⟨openForm_idem formId s hc, openForm_idem formId s hc, minimizeForm_idem formId s hc,
    closeFormOverlay_idem formId s hc, ?_⟩
  intro hform
  refine ⟨maximizeForm_not_idem formId s hform, ?_,
    formValidation_minimizeForm_not_idem formId s hform⟩
  rw [formValidation_maximizeForm_eq, formValidation_maximizeForm_eq]
  exact maximizeForm_not_idem formId s hform

/-- Witness of C12 (amended) on the sample page with the form `f1`. -/
theorem C12_idempotent_except_toggles_witness :
    samplePage.hasElement "minimizedFormsContainer" = true ∧
    samplePage.hasElement "f1" = true ∧
    (UniversalForm.minimizeForm "f1" (UniversalForm.minimizeForm "f1" samplePage)).sameView
      (UniversalForm.minimizeForm "f1" samplePage) ∧
    (UniversalForm.maximizeForm "f1" (UniversalForm.maximizeForm "f1" samplePage)).dataStateOf "f1"
      ≠ (UniversalForm.maximizeForm "f1" samplePage).dataStateOf "f1" :=
  ⟨rfl, rfl, (C12_idempotent_except_toggles samplePage "f1" rfl).2.2.1,
    ((C12_idempotent_except_toggles samplePage "f1" rfl).2.2.2.2 rfl).1⟩

set_option maxRecDepth 1000000 in
/-- C14 (as stated) fails: the values are put into the markup as they are.  For the form
with the identifier `o'brien`, minimized on a page with the footer nodes, the row of the
entry has `onclick` texts that are not calls with the identifier (the apostrophe ends the
literal early), so neither action is bound to the identifier of the entry. -/
theorem C14_counterexample :
    (minimizeForm "o'brien" apostrophePage).minimizedForms
      = [{ id := "o'brien", title := "O'Brien", icon := "📝" }] ∧
    ((minimizeForm "o'brien" apostrophePage).doc "minimizedFormsContainer").map
        (fun e => readRows e.innerHTML)
      = some (some [{ icon := "📝", title := "O'Brien", restoreArg := none, closeArg := none }]) ∧
    ((minimizeForm "o'brien" apostrophePage).doc "minimizedFormsContainer").map
        (fun e => readRows e.innerHTML)
      ≠ some (some ((minimizeForm "o'brien" apostrophePage).minimizedForms.map expectedRow)) := by
  refine ⟨by decide, by decide, by decide⟩

/-- C14 (amended): when the footer container exists and the values of every registry entry
stand for themselves in the markup (icon and title without `<` and `&`, identifier without
`"`, `&`, quote, backslash and line terminator), the content `updateMinimizedFormsFooter`
gives the container reads back as exactly one row per registry entry, in registry order,
the row of an entry showing its icon and title, with the restore action calling
`restoreForm` and the close action calling `closeFormFromFooter` with its identifier.  For
the empty registry the content is empty.  In every case the content is the row markup with
the values inserted as they are. -/
theorem C14_plain_rows_read_back (s : Page)
    (hc : s.hasElement "minimizedFormsContainer" = true)
    (hplain : ∀ f ∈ s.minimizedForms, plainEntry f = true) :
    ((updateMinimizedFormsFooter s).doc "minimizedFormsContainer").map
        (fun e => readRows e.innerHTML)
      = some (some (s.minimizedForms.map expectedRow)) ∧
    (s.minimizedForms = [] →
      ((updateMinimizedFormsFooter s).doc "minimizedFormsContainer").map (fun e => e.innerHTML)
        = some "") ∧
    ((updateMinimizedFormsFooter s).doc "minimizedFormsContainer").map (fun e => e.innerHTML)
      = some (joinEmpty (s.minimizedForms.map footerRow)) := by
  have hrows : renderItem = footerRow := funext renderItem_eq_footerRow
  have hinner := update_container_innerHTML s hc
  refine ⟨?_, ?_, ?_⟩
  · cases hd : (updateMinimizedFormsFooter s).doc "minimizedFormsContainer" with
    | none => simp [hd] at hinner
    | some el =>
      simp only [hd, Option.map_some', Option.some.injEq] at hinner ⊢
      rw [hinner]
      exact readRows_rows s.minimizedForms hplain
  · intro hnil
    rw [hinner, hnil]
    rfl
  · rw [hinner, hrows]

set_option maxRecDepth 1000000 in
/-- Witness of C14 (amended): the footer of the sample page after `f1` and `f2` were
minimized reads back as the row of `f1` followed by the row of `f2`. -/
theorem C14_plain_rows_read_back_witness :
    (minimizeForm "f2" (minimizeForm "f1" samplePage)).hasElement "minimizedFormsContainer"
      = true ∧
    (∀ f ∈ (minimizeForm "f2" (minimizeForm "f1" samplePage)).minimizedForms,
      plainEntry f = true) ∧
    ((updateMinimizedFormsFooter (minimizeForm "f2" (minimizeForm "f1" samplePage))).doc
        "minimizedFormsContainer").map (fun e => readRows e.innerHTML)
      = some (some
          [{ icon := "👤", title := "Customer", restoreArg := some "f1", closeArg := some "f1" },
           { icon := "📝", title := "Form", restoreArg := some "f2", closeArg := some "f2" }]) :=
  ⟨by decide, by decide,
   (C14_plain_rows_read_back (minimizeForm "f2" (minimizeForm "f1" samplePage)) (by decide)
      (by decide)).1⟩

/-- C15: for a draggable form whose state is `maximized` and whose closure is idle, a
pointer-down on the header, any number of pointer-moves and a pointer-up start no drag:
`isDragging` is false after the pointer-down and at the end, the accumulated offset is as
before, and the page (so the transform of the form) is unchanged. -/
theorem C15_no_drag_while_maximized (s : Page) (formId : String)
    (c : FormValidation.DragClosure) (e0 : FormValidation.MouseEvent)
    (moves : List FormValidation.MouseEvent)
    (hstate : s.dataStateOf formId = some "maximized") (hidle : c.isDragging = false) :
    (FormValidation.dragStart formId e0 s c).isDragging = false ∧
    (FormValidation.runPointer formId (s, c)
      (.down e0 :: (moves.map .move ++ [.up]))).2.isDragging = false ∧
    (FormValidation.runPointer formId (s, c)
      (.down e0 :: (moves.map .move ++ [.up]))).2.xOffset = c.xOffset ∧
    (FormValidation.runPointer formId (s, c)
      (.down e0 :: (moves.map .move ++ [.up]))).2.yOffset = c.yOffset ∧
    (FormValidation.runPointer formId (s, c)
      (.down e0 :: (moves.map .move ++ [.up]))).1 = s := by
  have hstart := dragStart_blocked formId e0 s c (Or.inl hstate)
  have hrun : FormValidation.runPointer formId (s, c) (.down e0 :: (moves.map .move ++ [.up]))
      = (s, FormValidation.dragEnd c) := by
    have h1 : FormValidation.runPointer formId (s, c) (.down e0 :: (moves.map .move ++ [.up]))
        = FormValidation.runPointer formId
            (FormValidation.runPointer formId (s, FormValidation.dragStart formId e0 s c)
              (moves.map .move)) [.up] := by
      rw [← runPointer_append]
      rfl
    rw [h1, hstart, runPointer_moves_idle formId s c hidle]
    rfl
  rw [hrun, hstart]
  exact ⟨hidle, rfl, rfl, rfl, rfl⟩

/-- Witness of C15: the maximized form of the drag page, made draggable, with two moves. -/
theorem C15_no_drag_while_maximized_witness :
    FormValidation.makeFormDraggable "maximizedForm" dragPage = .ok (some {}) ∧
    dragPage.dataStateOf "maximizedForm" = some "maximized" ∧
    (FormValidation.runPointer "maximizedForm" (dragPage, {})
      (.down (pixelEvent 100 50) ::
        ([pixelEvent 140 70, pixelEvent 180 90].map .move ++ [.up]))).2.xOffset
      = .ofInt 0 :=
  ⟨rfl, rfl,
   (C15_no_drag_while_maximized dragPage "maximizedForm" {} (pixelEvent 100 50)
      [pixelEvent 140 70, pixelEvent 180 90] rfl rfl).2.2.1⟩

/-- C16 (as stated) fails: on the forms of the drag page whose state is `hidden` or
`closed`, or that have no `data-state` attribute, a pointer-down on the header starts a
drag, and the next pointer-move changes the offset and the transform. -/
theorem C16_counterexample :
    (FormValidation.dragStart "hiddenForm" (pixelEvent 100 50) dragPage {}).isDragging
      = true ∧
    (FormValidation.dragStart "closedForm" (pixelEvent 100 50) dragPage {}).isDragging
      = true ∧
    (FormValidation.dragStart "freshForm" (pixelEvent 100 50) dragPage {}).isDragging
      = true ∧
    (FormValidation.runPointer "closedForm" (dragPage, {})
      [.down (pixelEvent 100 50), .move (pixelEvent 130 70)]).2.xOffset = .ofInt 30 ∧
    (FormValidation.runPointer "closedForm" (dragPage, {})
      [.down (pixelEvent 100 50), .move (pixelEvent 130 70)]).1.transformText "closedForm"
      = some "translate(calc(-50% + 30px), calc(-50% + 20px))" ∧
    (FormValidation.runPointer "closedForm" (dragPage, {})
      [.down (pixelEvent 100 50), .move (pixelEvent 130 70)]).1.transformOf "closedForm"
      ≠ dragPage.transformOf "closedForm" := by
  refine ⟨by decide, by decide, by decide, by decide, by decide, by decide⟩

/-- C16 (amended): the drag handlers block a drag exactly while the `data-state` of the
form is `maximized` or `minimized`.  For these two values a pointer-down leaves the closure
as it is and, the closure being idle, the following pointer-moves leave the page and the
offset unchanged.  For every other value (`normal`, `hidden`, `closed`, an absent attribute,
...) a pointer-down on the header starts a drag, and the next pointer-move sets the offset
to the pointer-move minus the difference of the pointer-down and the previous offset, in
the arithmetic of the runtime, and writes the transform with it.  For whole pixels, the
differences being at most `2^53` in magnitude, this offset is the previous offset plus the
pointer displacement. -/
theorem C16_drag_blocked_only_maximized_minimized (s : Page) (formId : String)
    (c : FormValidation.DragClosure) (e : FormValidation.MouseEvent) :
    (s.dataStateOf formId = some "maximized" ∨ s.dataStateOf formId = some "minimized" →
      FormValidation.dragStart formId e s c = c ∧
      (c.isDragging = false → ∀ moves : List FormValidation.MouseEvent,
        FormValidation.runPointer formId (s, c) (.down e :: moves.map .move) = (s, c))) ∧
    (s.dragAllowed formId → e.targetInHeader = true →
      (FormValidation.dragStart formId e s c).isDragging = true ∧
      ∀ m : FormValidation.MouseEvent,
        (FormValidation.runPointer formId (s, c) [.down e, .move m]).2.xOffset
          = FormValidation.jsSub m.clientX (FormValidation.jsSub e.clientX c.xOffset) ∧
        (FormValidation.runPointer formId (s, c) [.down e, .move m]).2.yOffset
          = FormValidation.jsSub m.clientY (FormValidation.jsSub e.clientY c.yOffset) ∧
        ((s.doc formId).isSome →
          (FormValidation.runPointer formId (s, c) [.down e, .move m]).1.transformOf formId
            = some [.text "translate(calc(-50% + ",
                .num (FormValidation.jsSub m.clientX
                  (FormValidation.jsSub e.clientX c.xOffset)),
                .text "px), calc(-50% + ",
                .num (FormValidation.jsSub m.clientY
                  (FormValidation.jsSub e.clientY c.yOffset)),
                .text "px))"]) ∧
        ∀ ex ey mx my x0 y0 : Int,
          e.clientX = .ofInt ex → e.clientY = .ofInt ey →
          m.clientX = .ofInt mx → m.clientY = .ofInt my →
          c.xOffset = .ofInt x0 → c.yOffset = .ofInt y0 →
          (ex - x0).natAbs ≤ 2 ^ 53 → (x0 + (mx - ex)).natAbs ≤ 2 ^ 53 →
          (ey - y0).natAbs ≤ 2 ^ 53 → (y0 + (my - ey)).natAbs ≤ 2 ^ 53 →
          (FormValidation.runPointer formId (s, c) [.down e, .move m]).2.xOffset
            = .ofInt (x0 + (mx - ex)) ∧
          (FormValidation.runPointer formId (s, c) [.down e, .move m]).2.yOffset
            = .ofInt (y0 + (my - ey)) ∧
          ((s.doc formId).isSome →
            (FormValidation.runPointer formId (s, c) [.down e, .move m]).1.transformText
                formId
              = some ("translate(calc(-50% + " ++ toString (x0 + (mx - ex))
                  ++ "px), calc(-50% + " ++ toString (y0 + (my - ey)) ++ "px))"))) := by
  constructor
  · intro hblocked
    have hstart := dragStart_blocked formId e s c hblocked
    refine ⟨hstart, ?_⟩
    intro hidle moves
    have h1 : FormValidation.runPointer formId (s, c) (.down e :: moves.map .move)
        = FormValidation.runPointer formId (s, FormValidation.dragStart formId e s c)
            (moves.map .move) := rfl
    rw [h1, hstart, runPointer_moves_idle formId s c hidle]
  · intro hallowed hheader
    have hstart := dragStart_allowed formId e s c hallowed hheader
    refine ⟨by rw [hstart], ?_⟩
    intro m
    have hxo : (FormValidation.runPointer formId (s, c) [.down e, .move m]).2.xOffset
        = FormValidation.jsSub m.clientX (FormValidation.jsSub e.clientX c.xOffset) := by
      simp [FormValidation.runPointer, FormValidation.pointerStep, hstart, FormValidation.drag,
        FormValidation.toNumber]
    have hyo : (FormValidation.runPointer formId (s, c) [.down e, .move m]).2.yOffset
        = FormValidation.jsSub m.clientY (FormValidation.jsSub e.clientY c.yOffset) := by
      simp [FormValidation.runPointer, FormValidation.pointerStep, hstart, FormValidation.drag,
        FormValidation.toNumber]
    have htr : (s.doc formId).isSome →
        (FormValidation.runPointer formId (s, c) [.down e, .move m]).1.transformOf formId
          = some [.text "translate(calc(-50% + ",
              .num (FormValidation.jsSub m.clientX
                (FormValidation.jsSub e.clientX c.xOffset)),
              .text "px), calc(-50% + ",
              .num (FormValidation.jsSub m.clientY
                (FormValidation.jsSub e.clientY c.yOffset)),
              .text "px))"] := by
      intro hform
      cases hd : s.doc formId with
      | none => simp [hd] at hform
      | some el =>
        simp [FormValidation.runPointer, FormValidation.pointerStep, hstart, FormValidation.drag,
          FormValidation.toNumber, FormValidation.translateOf, Page.transformOf, Page.modify,
          modifyElement, hd]
    refine ⟨hxo, hyo, htr, ?_⟩
    intro ex ey mx my x0 y0 hex hey hmx hmy hx hy b1 b2 b3 b4
    have e1 : mx - (ex - x0) = x0 + (mx - ex) := by omega
    have e2 : my - (ey - y0) = y0 + (my - ey) := by omega
    have hxe : FormValidation.jsSub m.clientX (FormValidation.jsSub e.clientX c.xOffset)
        = .ofInt (x0 + (mx - ex)) := by
      rw [hex, hmx, hx, jsSub_ofInt ex x0 b1, jsSub_ofInt mx (ex - x0) (by omega), e1]
    have hye : FormValidation.jsSub m.clientY (FormValidation.jsSub e.clientY c.yOffset)
        = .ofInt (y0 + (my - ey)) := by
      rw [hey, hmy, hy, jsSub_ofInt ey y0 b3, jsSub_ofInt my (ey - y0) (by omega), e2]
    refine ⟨hxo.trans hxe, hyo.trans hye, ?_⟩
    intro hform
    have htr2 := htr hform
    rw [hxe, hye] at htr2
    simp only [Page.transformText, htr2, Option.some_bind]
    exact templateText_translate _ _ b2 b4

/-- Witness of C16 (amended): the minimized form is blocked, the closed form is dragged,
by `(30, 20)` from the fresh closure. -/
theorem C16_drag_blocked_only_maximized_minimized_witness :
    (dragPage.dataStateOf "minimizedForm" = some "maximized" ∨
        dragPage.dataStateOf "minimizedForm" = some "minimized") ∧
    FormValidation.dragStart "minimizedForm" (pixelEvent 100 50) dragPage {} = {} ∧
    dragPage.dragAllowed "closedForm" ∧
    (FormValidation.dragStart "closedForm" (pixelEvent 100 50) dragPage {}).isDragging
      = true ∧
    (FormValidation.runPointer "closedForm" (dragPage, {})
      [.down (pixelEvent 100 50), .move (pixelEvent 130 70)]).2.yOffset = .ofInt 20 :=
  ⟨Or.inr rfl,
   ((C16_drag_blocked_only_maximized_minimized dragPage "minimizedForm" {}
      (pixelEvent 100 50)).1 (Or.inr rfl)).1,
   by decide,
   ((C16_drag_blocked_only_maximized_minimized dragPage "closedForm" {}
      (pixelEvent 100 50)).2 (by decide) rfl).1,
   ((((C16_drag_blocked_only_maximized_minimized dragPage "closedForm" {}
      (pixelEvent 100 50)).2 (by decide) rfl).2 (pixelEvent 130 70)).2.2.2
        100 50 130 70 0 0 rfl rfl rfl rfl rfl rfl
        (by decide) (by decide) (by decide) (by decide)).2.1⟩

/-- C17 (as stated) fails: the offset is kept as a number of the runtime, and a difference
that is not a number is rounded.  On the normal form of the drag page, from the fresh
closure, a drag from `0` to `2^53` followed by a drag from `0` to `1` (all coordinates are
numbers) ends at the horizontal offset `2^53`, not at the sum `2^53 + 1`. -/
theorem C17_counterexample :
    FormValidation.makeFormDraggable "normalForm" dragPage = .ok (some {}) ∧
    dragPage.dragAllowed "normalForm" ∧
    (JsNum.ofInt 9007199254740992).isDouble = true ∧
    offsetXAfter 0 [{ a := 0, b := 0, c := 9007199254740992, d := 0 },
        { a := 0, b := 0, c := 1, d := 0 }] = 9007199254740993 ∧
    (FormValidation.runPointer "normalForm" (dragPage, {})
      (FormValidation.gestureEvents
        ([{ a := 0, b := 0, c := 9007199254740992, d := 0 },
          { a := 0, b := 0, c := 1, d := 0 }].map PixelDrag.gesture))).2.xOffset
      = .ofInt 9007199254740992 ∧
    (FormValidation.runPointer "normalForm" (dragPage, {})
      (FormValidation.gestureEvents
        ([{ a := 0, b := 0, c := 9007199254740992, d := 0 },
          { a := 0, b := 0, c := 1, d := 0 }].map PixelDrag.gesture))).2.xOffset
      ≠ .ofInt 9007199254740993 := by
  refine ⟨rfl, by decide, by decide, by decide, by decide, by decide⟩

/-- C17 (amended): the drag offset accumulates within the range where the arithmetic of
the runtime is exact.  For a form whose state lets it be dragged and a closure whose offset
is the whole-pixel `(x0, y0)` (the fresh closure has `(0, 0)`), after any sequence of
completed drags in whole pixels, each with its pointer-down on the header, any moves
before the last one and any moves of the released pointer after it, the pointer-down
coordinates and the offsets reached after each drag being at most `2^52` in magnitude, the
offset is `(x0, y0)` plus the sum over the drags of last pointer-move minus pointer-down,
no drag is in progress, and the transform of the form is `translate(calc(-50% + Xpx),
calc(-50% + Ypx))` with this offset `(X, Y)` in decimal; a pointer-down followed by a
pointer-up without a move leaves the offset and the page as they were. -/
theorem C17_offset_accumulates_while_exact (s : Page) (formId : String)
    (ps : List PixelDrag) (c : FormValidation.DragClosure) (x0 y0 : Int)
    (hallowed : s.dragAllowed formId)
    (hx : c.xOffset = .ofInt x0) (hy : c.yOffset = .ofInt y0)
    (hdown : ∀ p ∈ ps, p.a.natAbs ≤ 2 ^ 52 ∧ p.b.natAbs ≤ 2 ^ 52)
    (hsum : ∀ qs ∈ ps.inits,
      (offsetXAfter x0 qs).natAbs ≤ 2 ^ 52 ∧ (offsetYAfter y0 qs).natAbs ≤ 2 ^ 52) :
    (FormValidation.runPointer formId (s, c)
      (FormValidation.gestureEvents (ps.map PixelDrag.gesture))).2.xOffset
      = .ofInt (x0 + (ps.map fun p => p.c - p.a).sum) ∧
    (FormValidation.runPointer formId (s, c)
      (FormValidation.gestureEvents (ps.map PixelDrag.gesture))).2.yOffset
      = .ofInt (y0 + (ps.map fun p => p.d - p.b).sum) ∧
    (ps ≠ [] →
      (FormValidation.runPointer formId (s, c)
        (FormValidation.gestureEvents (ps.map PixelDrag.gesture))).2.isDragging = false) ∧
    (ps ≠ [] → (s.doc formId).isSome →
      (FormValidation.runPointer formId (s, c)
        (FormValidation.gestureEvents (ps.map PixelDrag.gesture))).1.transformOf formId
        = some [.text "translate(calc(-50% + ",
            .num (.ofInt (x0 + (ps.map fun p => p.c - p.a).sum)),
            .text "px), calc(-50% + ",
            .num (.ofInt (y0 + (ps.map fun p => p.d - p.b).sum)),
            .text "px))"] ∧
      (FormValidation.runPointer formId (s, c)
        (FormValidation.gestureEvents (ps.map PixelDrag.gesture))).1.transformText formId
        = some ("translate(calc(-50% + " ++ toString (x0 + (ps.map fun p => p.c - p.a).sum)
            ++ "px), calc(-50% + " ++ toString (y0 + (ps.map fun p => p.d - p.b).sum)
            ++ "px))")) ∧
    (∀ e : FormValidation.MouseEvent,
      (FormValidation.runPointer formId (s, c) [.down e, .up]).2.xOffset = .ofInt x0 ∧
      (FormValidation.runPointer formId (s, c) [.down e, .up]).2.yOffset = .ofInt y0 ∧
      (FormValidation.runPointer formId (s, c) [.down e, .up]).1 = s) := by
  obtain ⟨h1, h2, h3, h4⟩ :=
    runPointer_pixelDrags formId ps s c x0 y0 hallowed hx hy hdown hsum
  have hlast := hsum ps ((List.mem_inits ps ps).2 (List.prefix_refl ps))
  have hX : offsetXAfter x0 ps = x0 + (ps.map fun p => p.c - p.a).sum := rfl
  have hY : offsetYAfter y0 ps = y0 + (ps.map fun p => p.d - p.b).sum := rfl
  simp only [hX, hY] at h1 h2 h4 hlast
  refine ⟨h1, h2, h3, ?_, ?_⟩
  · intro hne hform
    have htr := h4 hne hform
    refine ⟨htr, ?_⟩
    simp only [Page.transformText, htr, Option.some_bind]
    exact templateText_translate _ _ (by omega) (by omega)
  · intro e
    refine ⟨?_, ?_, rfl⟩
    · simp only [FormValidation.runPointer, List.foldl_cons, List.foldl_nil,
        FormValidation.pointerStep, FormValidation.dragEnd, FormValidation.dragStart]
      split
      · exact hx
      · split <;> exact hx
    · simp only [FormValidation.runPointer, List.foldl_cons, List.foldl_nil,
        FormValidation.pointerStep, FormValidation.dragEnd, FormValidation.dragStart]
      split
      · exact hy
      · split <;> exact hy

/-- Witness of C17 (amended): two drags of the normal form of the drag page, by `(40, 20)`
and by `(-10, 5)`, with a move on the way and moves of the released pointer, starting from
the fresh closure, end at the offset `(30, 25)`. -/
theorem C17_offset_accumulates_while_exact_witness :
    FormValidation.makeFormDraggable "normalForm" dragPage = .ok (some {}) ∧
    dragPage.dragAllowed "normalForm" ∧
    (FormValidation.runPointer "normalForm" (dragPage, {})
      (FormValidation.gestureEvents
        ([{ a := 100, b := 50, c := 140, d := 70, moves := [pixelEvent 120 60],
            hover := [pixelEvent 500 400, pixelEvent 300 200] },
          { a := 300, b := 200, c := 290, d := 205 }].map PixelDrag.gesture))).2.xOffset
      = .ofInt 30 ∧
    (FormValidation.runPointer "normalForm" (dragPage, {})
      (FormValidation.gestureEvents
        ([{ a := 100, b := 50, c := 140, d := 70, moves := [pixelEvent 120 60],
            hover := [pixelEvent 500 400, pixelEvent 300 200] },
          { a := 300, b := 200, c := 290, d := 205 }].map PixelDrag.gesture))).1.transformText
        "normalForm"
      = some "translate(calc(-50% + 30px), calc(-50% + 25px))" :=
  ⟨rfl, by decide,
   (C17_offset_accumulates_while_exact dragPage "normalForm"
      [{ a := 100, b := 50, c := 140, d := 70, moves := [pixelEvent 120 60],
         hover := [pixelEvent 500 400, pixelEvent 300 200] },
       { a := 300, b := 200, c := 290, d := 205 }]
      {} 0 0 (by decide) rfl rfl (by decide) (by decide)).1,
   ((C17_offset_accumulates_while_exact dragPage "normalForm"
      [{ a := 100, b := 50, c := 140, d := 70, moves := [pixelEvent 120 60],
         hover := [pixelEvent 500 400, pixelEvent 300 200] },
       { a := 300, b := 200, c := 290, d := 205 }]
      {} 0 0 (by decide) rfl rfl (by decide) (by decide)).2.2.2.1 (by decide) rfl).2⟩

/-- C18: pending timers are not cancelled by a later call, and stale callbacks overwrite
what a newer call set.  No lifecycle call removes a pending timer.  On the sample page,
`minimizeForm "f1"`, then `openForm "f1"` 100 ms later: the hide timer of the minimize is
still pending after the open, the form is displayed, and once the timer fires the display
of `f1` is `none` although its state is `normal` and it has no registry entry.  Likewise
`closeFormOverlay "f1"` followed by `openForm "f1"` ends with the state `closed`. -/
theorem C18_stale_timers_fire :
    (∀ (c : Call) (s : Page) (t : Timer), t ∈ s.timers → t ∈ (c.run s).timers) ∧
    ((⟨300, .hideForm "f1"⟩ : Timer) ∈ (runEvents samplePage
        [.call (.minimizeForm "f1"), .advance 100, .call (.openForm "f1")]).timers ∧
      (runEvents samplePage
        [.call (.minimizeForm "f1"), .advance 100, .call (.openForm "f1")]).displayOf "f1"
        = some "flex" ∧
      (runEvents samplePage
        [.call (.minimizeForm "f1"), .advance 100, .call (.openForm "f1"),
         .advance 200]).displayOf "f1" = some "none" ∧
      (runEvents samplePage
        [.call (.minimizeForm "f1"), .advance 100, .call (.openForm "f1"),
         .advance 200]).dataStateOf "f1" = some "normal" ∧
      "f1" ∉ (runEvents samplePage
        [.call (.minimizeForm "f1"), .advance 100, .call (.openForm "f1"),
         .advance 200]).registryIds) ∧
    ((runEvents samplePage
        [.call (.closeFormOverlay "f1"), .advance 100, .call (.openForm "f1")]).dataStateOf "f1"
        = some "normal" ∧
      (runEvents samplePage
        [.call (.closeFormOverlay "f1"), .advance 100, .call (.openForm "f1"),
         .advance 200]).dataStateOf "f1" = some "closed" ∧
      (runEvents samplePage
        [.call (.closeFormOverlay "f1"), .advance 100, .call (.openForm "f1"),
         .advance 200]).displayOf "f1" = some "none") := by
  refine ⟨call_timers_mono, ⟨by decide, by decide, by decide, by decide, by decide⟩,
    ⟨by decide, by decide, by decide⟩⟩

/-- Witness of C18: the hide timer scheduled by `minimizeForm "f1"` survives `openForm "f1"`. -/
theorem C18_stale_timers_fire_witness :
    (⟨300, .hideForm "f1"⟩ : Timer) ∈ (minimizeForm "f1" samplePage).timers ∧
    (⟨300, .hideForm "f1"⟩ : Timer)
      ∈ ((Call.openForm "f1").run (minimizeForm "f1" samplePage)).timers :=
  ⟨by decide,
   C18_stale_timers_fire.1 (.openForm "f1") (minimizeForm "f1" samplePage) _ (by decide)⟩

/-- C19: `closeForm` of form-validation.js is guarded by the confirmation.  When a field of
the form element `{id}-form` has a value that is not empty after trimming and the user
declines, nothing changes but the record of the dialog: the `data-state` of the form and
the `active` class of the backdrop stay.  In every other case the `data-state` of the form
(when the form exists) becomes `hidden` and the backdrop (when it exists) loses `active`.
The dialog is shown exactly when such a field exists. -/
theorem C19_close_guarded_by_confirmation (s : Page) (formId : String) (answer : Bool) :
    (s.hasUnsavedData formId = true → answer = false →
      FormValidation.closeForm formId answer s =
        { s with confirms :=
            s.confirms ++ ["Form has unsaved data. Are you sure you want to close?"] }) ∧
    (¬ (s.hasUnsavedData formId = true ∧ answer = false) →
      (FormValidation.closeForm formId answer s).dataStateOf formId
        = (s.doc formId).map (fun _ => "hidden") ∧
      ((FormValidation.closeForm formId answer s).doc (formId ++ "-overlay")).map
          (fun e => e.active)
        = (s.doc (formId ++ "-overlay")).map (fun _ => false)) ∧
    (FormValidation.closeForm formId answer s).confirms =
      (if s.hasUnsavedData formId = true then
        s.confirms ++ ["Form has unsaved data. Are you sure you want to close?"]
       else s.confirms) := by
  have hov := suffixOverlayId_ne formId
  have hdata := closeForm_hasData s formId
  refine ⟨?_, ?_, ?_⟩
  · intro hu ha
    simp only [FormValidation.closeForm, hdata, hu, ha]
    rfl
  · intro hnot
    by_cases hu : s.hasUnsavedData formId = true
    · have ha : answer = true := by
        cases answer with
        | true => rfl
        | false => exact absurd ⟨hu, rfl⟩ hnot
      subst ha
      simp only [FormValidation.closeForm, hdata, hu]
      cases hd : s.doc formId <;> cases ho : s.doc (formId ++ "-overlay") <;>
        simp [Page.dataStateOf, Page.modify, modifyElement, hd, ho, hov, hov.symm]
    · simp only [FormValidation.closeForm, hdata, hu]
      cases hd : s.doc formId <;> cases ho : s.doc (formId ++ "-overlay") <;>
        simp [Page.dataStateOf, Page.modify, modifyElement, hd, ho, hov, hov.symm]
  · by_cases hu : s.hasUnsavedData formId = true
    · simp only [FormValidation.closeForm, hdata, hu]
      cases answer <;> simp [Page.modify]
    · simp only [FormValidation.closeForm, hdata, hu]
      simp [Page.modify]

/-- Witness of C19 on the page with a filled field: declining keeps the form open,
confirming closes it. -/
theorem C19_close_guarded_by_confirmation_witness :
    unsavedPage.hasUnsavedData "f1" = true ∧
    (FormValidation.closeForm "f1" false unsavedPage).dataStateOf "f1" = some "normal" ∧
    FormValidation.closeForm "f1" false unsavedPage =
      { unsavedPage with confirms :=
          unsavedPage.confirms ++ ["Form has unsaved data. Are you sure you want to close?"] } ∧
    (FormValidation.closeForm "f1" true unsavedPage).dataStateOf "f1" = some "hidden" :=
  ⟨by decide, by decide,
   (C19_close_guarded_by_confirmation unsavedPage "f1" false).1 (by decide) rfl,
   ((C19_close_guarded_by_confirmation unsavedPage "f1" true).2.1 (by decide)).1⟩

/-- C21: `toggleSection` keeps the stored list consistent with the section element.  For a
section whose element exists, when `getExpandedSections` returns a list without duplicates,
after `toggleSection` the class `expanded` of the element is flipped, an array is stored,
it has no duplicates, it contains the identifier exactly when the element now has the class
`expanded`, and its other items are the previous ones in their order.  A missing stored
value and a stored text that is not valid JSON are read as the empty list. -/
theorem C21_toggle_keeps_list_consistent (s : Page) (sectionId : String)
    (items : List JsonItem)
    (hel : s.hasElement ("section-" ++ sectionId) = true)
    (hlist : Home.getExpandedSections s = .array items) (hnodup : items.Nodup) :
    (Home.toggleSection sectionId s).sectionExpanded sectionId
      = !s.sectionExpanded sectionId ∧
    (Home.toggleSection sectionId s).storedExpandedSections
      = .json (.array (Home.toggleSection sectionId s).expandedList) ∧
    (Home.toggleSection sectionId s).expandedList.Nodup ∧
    (JsonItem.str sectionId ∈ (Home.toggleSection sectionId s).expandedList ↔
      (Home.toggleSection sectionId s).sectionExpanded sectionId = true) ∧
    (Home.toggleSection sectionId s).expandedList.filter (fun x => x != .str sectionId)
      = items.filter (fun x => x != .str sectionId) ∧
    (s.storedExpandedSections = .missing ∨ (∃ t, s.storedExpandedSections = .invalid t) →
      items = []) := by
  cases hd : s.doc ("section-" ++ sectionId) with
  | none => simp [Page.hasElement, hd] at hel
  | some sectionEl =>
    have hT := toggleSection_array s sectionId sectionEl items hd hlist
    have hexp : (Home.toggleSection sectionId s).sectionExpanded sectionId
        = !sectionEl.expanded := by
      rw [hT]
      simp [Page.sectionExpanded, Page.modify, modifyElement, hd]
    have hold : s.sectionExpanded sectionId = sectionEl.expanded := by
      simp [Page.sectionExpanded, hd]
    have hL : (Home.toggleSection sectionId s).expandedList =
        (if sectionEl.expanded = true then items.erase (.str sectionId)
         else if JsonItem.str sectionId ∈ items then items
         else items ++ [.str sectionId]) := by
      rw [hT]
      simp [Page.expandedList, Home.getExpandedSections]
    have hstored : (Home.toggleSection sectionId s).storedExpandedSections
        = .json (.array (Home.toggleSection sectionId s).expandedList) := by
      rw [hL, hT]
    refine ⟨by rw [hexp, hold], hstored, ?_, ?_, ?_, ?_⟩
    · rw [hL]
      split
      · exact hnodup.erase _
      · split
        · exact hnodup
        · rename_i hnot
          rw [List.nodup_append]
          refine ⟨hnodup, by simp, ?_⟩
          intro a ha hb
          simp at hb
          subst hb
          exact hnot ha
    · rw [hL, hexp]
      cases hb : sectionEl.expanded with
      | true => simp [hnodup.mem_erase_iff]
      | false =>
        simp only [Bool.false_eq_true, if_false, Bool.not_false, iff_true]
        split
        · assumption
        · simp
    · rw [hL]
      split
      · rw [hnodup.erase_eq_filter, List.filter_filter]
        simp
      · split
        · rfl
        · simp [List.filter_append]
    · intro hmiss
      rcases hmiss with hm | ⟨t, ht⟩
      · simp only [Home.getExpandedSections, hm] at hlist
        cases hlist
        rfl
      · simp only [Home.getExpandedSections, ht] at hlist
        cases hlist
        rfl

/-- Witness of C21 on the home page: expanding `sales` appends it to the stored list,
collapsing `stock` removes it and keeps `reports`. -/
theorem C21_toggle_keeps_list_consistent_witness :
    homePage.hasElement ("section-" ++ "sales") = true ∧
    Home.getExpandedSections homePage = .array [.str "stock", .str "reports"] ∧
    [JsonItem.str "stock", JsonItem.str "reports"].Nodup ∧
    (Home.toggleSection "sales" homePage).expandedList.Nodup ∧
    (Home.toggleSection "sales" homePage).expandedList
      = [.str "stock", .str "reports", .str "sales"] ∧
    (Home.toggleSection "sales" homePage).sectionExpanded "sales" = true ∧
    (Home.toggleSection "stock" homePage).expandedList = [.str "reports"] ∧
    (Home.toggleSection "stock" homePage).sectionExpanded "stock" = false :=
  ⟨rfl, rfl, by decide,
   (C21_toggle_keeps_list_consistent homePage "sales" [.str "stock", .str "reports"]
      rfl rfl (by decide)).2.2.1,
   by decide, by decide, by decide, by decide⟩

end SasErp
